import Mathlib

/-! # 27cf840_prog: flash programmer firmware (`src/main.c`) and host tool (`src/prog_pc.c`)

A shallow embedding of the CH552 firmware that drives a parallel NOR flash through
74HC595 shift registers.  Firmware globals and MCU port latches are fields of `Dev`;
every C function is a state transformer `Dev → Dev` (with a return value where the C
function has one).  Bytes are natural numbers reduced `% 256` where the C code
truncates to `uint8_t`.

The board outside the MCU is part of the state as well, as far as the source comments
describe it:

* U1 and U2 are two daisy-chained 74HC595 holding the 16 address bits A0..A15.  They
  shift on the rising edge of `SH1_CLK`; U2 receives that clock through an OR gate with
  the control output SH1B, so it shifts only while SH1B is low (main.c:82, 364-368,
  485-488).
* U3 is a third 74HC595 holding the control byte (LED, SH1B, OE#, WE# and the four bank
  bits); it shifts on the rising edge of `SH2_CLK` (main.c:299-300).
* `ST_CLK` is the store clock shared by all three registers: its rising edge copies the
  shift stages to the output pins.
* The flash is selected by `FLCE` (CE#, active low); WE# and OE# are outputs of U3.

Time is not modelled: delays and `nop`s are skips.
-/

namespace CF840

/-! ## Constants of `main.c` -/

def CTRL_WE : Nat := 0x08
def CTRL_OE : Nat := 0x04
def CTRL_SH1B : Nat := 0x02
def CTRL_LED1 : Nat := 0x01

def CMD_SET_SHREG : Nat := 0x10
def CMD_SET_ADDR : Nat := 0x20
def CMD_SET_DATA : Nat := 0x30
def CMD_GET_DATA : Nat := 0x40
def CMD_WRITE : Nat := 0x50
def CMD_WRITE_SLOW : Nat := 0x51
def CMD_READ : Nat := 0x60
def CMD_BOOTLOADER : Nat := 0xB0
def CMD_SET_UP : Nat := 0xF0

def SETUP_MANUF_ID : Nat := 0
def SETUP_DEVICE_ID : Nat := 1
def SETUP_SECTOR_VERIFY : Nat := 2
def SETUP_ERASE : Nat := 4
def SETUP_ERASE_SECTOR : Nat := 5
def SETUP_READ : Nat := 6
def SETUP_WRITE : Nat := 7
def SETUP_READY : Nat := 10

def STATUS_INITIALISED : Nat := 0x00
def STATUS_ERASE : Nat := 0x01
def STATUS_ERASE_FAIL : Nat := 0x02
def STATUS_PROGRAM : Nat := 0x03
def STATUS_PROGRAM_FAIL : Nat := 0x04

/-! ## Observable events -/

/-- The output pins of port 3 that the firmware toggles (main.c:49-71). -/
inductive Pin
  | ST_CLK
  | SH1_CLK
  | SH2_CLK
  | SDATA1
  | FLCE
  deriving DecidableEq, Repr

/-- Events on the flash bus.

* `ce adr ctl d we`: a chip-enable pulse ends (rising edge of `FLCE`).  `adr` is the
  value on the 16 address outputs of U2:U1, `ctl` the control outputs of U3, `d` the
  output latch of the data port P1, and `we` tells whether WE# was low at some moment
  while CE# was low, that is whether the pulse was a write pulse for the flash.
* `rd adr ctl v`: the firmware reads the data port P1 and obtains `v`. -/
inductive BusEv
  | ce (adr ctl d : Nat) (we : Bool)
  | rd (adr ctl v : Nat)
  deriving DecidableEq, Repr

/-- Ghost record of the address-shift routines that were run, each with the control
outputs of U3 at that moment: the full 16-bit shift `setShiftRegsAddr`, the 8-bit shift
`setShiftRegsAddrLow`, and the single-bit shift of the unlock shortcut. -/
inductive ShiftOp
  | full (q3 : Nat)
  | low (q3 : Nat)
  | bit (q3 : Nat)
  deriving DecidableEq, Repr

/-! ## State -/

/-- Firmware globals, MCU port latches, the three 74HC595 and the observation logs. -/
structure Dev where
  /-- `uint8_t rwBuffer[64]`; only indices below 64 are meaningful. -/
  rwBuffer : Nat → Nat
  /-- The endpoint-0 buffer of the USB engine (declared in `usb_intr.h`). -/
  Ep0Buffer : Nat → Nat
  command : Nat
  addrBank : Nat
  addrH : Nat
  addrL : Nat
  ctrl : Nat
  data : Nat
  status : Nat
  /-- Output latch of the data port. -/
  P1 : Nat
  /-- Direction of the data port: `0xFF` output, `0` input. -/
  P1_DIR_PU : Nat
  ST_CLK : Bool
  SH1_CLK : Bool
  SH2_CLK : Bool
  SDATA1 : Bool
  FLCE : Bool
  /-- Shift stages of the address registers (U1: A0..A7, U2: A8..A15) and of the
  control register U3. -/
  U1 : Nat
  U2 : Nat
  U3 : Nat
  /-- Output (storage) stages of the three registers. -/
  Q1 : Nat
  Q2 : Nat
  Q3 : Nat
  /-- WE# has been low while CE# was low during the current chip-enable pulse. -/
  weSeen : Bool
  pins : List (Pin × Bool)
  bus : List BusEv
  ops : List ShiftOp

/-- The world outside the programmer.

* `ready hist k`: level of the READY line at the `k`-th sample of a polling loop that
  starts after the bus history `hist`.
* `port hist flce ctl adr`: levels of the eight data pins when the MCU samples them as
  inputs, given the bus history, the level of CE# and the control and address
  outputs. -/
structure Env where
  ready : List BusEv → Nat → Bool
  port : List BusEv → Bool → Nat → Nat → Nat

/-- Bit `k` of `x`. -/
def bitOf (x k : Nat) : Bool := decide (x / 2 ^ k % 2 = 1)

/-- Value of a pin level as a number. -/
def bitVal (b : Bool) : Nat := if b then 1 else 0

/-- WE# output of U3 is low. -/
def weLow (q3 : Nat) : Bool := !(bitOf q3 3)

/-- SH1B output of U3 is low, so that U2 receives the shift clock. -/
def sh1bLow (q3 : Nat) : Bool := !(bitOf q3 1)

/-- The 16 address outputs. -/
def Dev.adr (s : Dev) : Nat := s.Q2 * 256 + s.Q1

/-- The 16-bit contents of the shift stages of U2:U1. -/
def Dev.chain (s : Dev) : Nat := s.U2 * 256 + s.U1

/-! ## Pin writes and the reaction of the board -/

/-- `clr _ST_CLK`. -/
def clrST_CLK (s : Dev) : Dev :=
  { s with ST_CLK := false, pins := s.pins ++ [(Pin.ST_CLK, false)] }

/-- `setb _ST_CLK`: on a rising edge all three registers copy their shift stage to the
output stage; a WE# that goes low while CE# is low starts a write pulse. -/
def setbST_CLK (s : Dev) : Dev :=
  { s with
    ST_CLK := true
    Q1 := if s.ST_CLK then s.Q1 else s.U1
    Q2 := if s.ST_CLK then s.Q2 else s.U2
    Q3 := if s.ST_CLK then s.Q3 else s.U3
    weSeen := if s.ST_CLK then s.weSeen else (s.weSeen || (!s.FLCE && weLow s.U3))
    pins := s.pins ++ [(Pin.ST_CLK, true)] }

/-- `clr _SH1_CLK`. -/
def clrSH1_CLK (s : Dev) : Dev :=
  { s with SH1_CLK := false, pins := s.pins ++ [(Pin.SH1_CLK, false)] }

/-- `setb _SH1_CLK`: on a rising edge U1 shifts `SDATA1` in at A0, and U2 shifts in the
bit leaving U1 unless SH1B holds its clock high. -/
def setbSH1_CLK (s : Dev) : Dev :=
  { s with
    SH1_CLK := true
    U1 := if s.SH1_CLK then s.U1 else (2 * s.U1 + bitVal s.SDATA1) % 256
    U2 := if s.SH1_CLK then s.U2 else
            if sh1bLow s.Q3 then (2 * s.U2 + s.U1 / 128 % 2) % 256 else s.U2
    pins := s.pins ++ [(Pin.SH1_CLK, true)] }

/-- `clr _SH2_CLK`. -/
def clrSH2_CLK (s : Dev) : Dev :=
  { s with SH2_CLK := false, pins := s.pins ++ [(Pin.SH2_CLK, false)] }

/-- `setb _SH2_CLK`: on a rising edge U3 shifts `SDATA1` in.  The outputs of U3 are
wired so that the bit shifted in last drives control bit 7 and the bit shifted in eight
clocks ago drives control bit 0. -/
def setbSH2_CLK (s : Dev) : Dev :=
  { s with
    SH2_CLK := true
    U3 := if s.SH2_CLK then s.U3 else s.U3 / 2 % 128 + 128 * bitVal s.SDATA1
    pins := s.pins ++ [(Pin.SH2_CLK, true)] }

/-- `mov _SDATA1, c` / `setb _SDATA1` / `clr _SDATA1`. -/
def setSDATA1 (v : Bool) (s : Dev) : Dev :=
  { s with SDATA1 := v, pins := s.pins ++ [(Pin.SDATA1, v)] }

/-- `FLCE = 0`: a falling edge of CE# opens a chip-enable pulse. -/
def clrFLCE (s : Dev) : Dev :=
  { s with
    FLCE := false
    weSeen := if s.FLCE then weLow s.Q3 else s.weSeen
    pins := s.pins ++ [(Pin.FLCE, false)] }

/-- `FLCE = 1`: a rising edge of CE# closes the chip-enable pulse and puts it on the
bus log. -/
def setbFLCE (s : Dev) : Dev :=
  { s with
    FLCE := true
    bus := if s.FLCE then s.bus else s.bus ++ [BusEv.ce s.adr s.Q3 s.P1 s.weSeen]
    pins := s.pins ++ [(Pin.FLCE, true)] }

/-- `P1 = d`. -/
def setP1 (d : Nat) (s : Dev) : Dev := { s with P1 := d % 256 }

/-- `P1_DATA_OUT` (main.c:119). -/
def P1_DATA_OUT (s : Dev) : Dev := { s with P1_DIR_PU := 0xFF }

/-- `P1_DATA_IN` (main.c:120). -/
def P1_DATA_IN (s : Dev) : Dev := { s with P1_DIR_PU := 0 }

/-- The byte the MCU obtains when it reads P1: the pin levels given by the outside
world when the port is an input, its own output latch when the port drives the pins. -/
def portValue (env : Env) (s : Dev) : Nat :=
  if s.P1_DIR_PU = 0 then env.port s.bus s.FLCE s.Q3 s.adr % 256 else s.P1 % 256

/-- Record a read of P1 on the bus log. -/
def logRead (env : Env) (s : Dev) : Dev :=
  { s with bus := s.bus ++ [BusEv.rd s.adr s.Q3 (portValue env s)] }

/-! ## Bus driver (main.c:299-550) -/

/-- One bit of `setShiftRegsCtrl`: `mov c, b[k]; clr _SH2_CLK; mov _SDATA1, c;
setb _SH2_CLK`. -/
def ctrlBit (b k : Nat) (s : Dev) : Dev :=
  setbSH2_CLK (setSDATA1 (bitOf b k) (clrSH2_CLK s))

/-- One bit of the address shifts: `mov c, b[k]; clr _SH1_CLK; mov _SDATA1, c;
setb _SH1_CLK`. -/
def addrBit (b k : Nat) (s : Dev) : Dev :=
  setbSH1_CLK (setSDATA1 (bitOf b k) (clrSH1_CLK s))

/-- `setShiftRegsCtrl` (main.c:301-362): bits 0..7 of `ctrl` on SH2_CLK between
ST_CLK low and ST_CLK high. -/
def setShiftRegsCtrl (s : Dev) : Dev :=
  let b := s.ctrl
  let s := clrST_CLK s
  let s := ctrlBit b 0 s
  let s := ctrlBit b 1 s
  let s := ctrlBit b 2 s
  let s := ctrlBit b 3 s
  let s := ctrlBit b 4 s
  let s := ctrlBit b 5 s
  let s := ctrlBit b 6 s
  let s := ctrlBit b 7 s
  setbST_CLK s

/-- The eight bits of a byte, bit 7 first, on SH1_CLK (main.c:378-424). -/
def addrByte (b : Nat) (s : Dev) : Dev :=
  let s := addrBit b 7 s
  let s := addrBit b 6 s
  let s := addrBit b 5 s
  let s := addrBit b 4 s
  let s := addrBit b 3 s
  let s := addrBit b 2 s
  let s := addrBit b 1 s
  addrBit b 0 s

/-- `setShiftRegsAddr` (main.c:369-483): `addrH` then `addrL`, bit 7 first. -/
def setShiftRegsAddr (s : Dev) : Dev :=
  let h := s.addrH
  let l := s.addrL
  let s := { s with ops := s.ops ++ [ShiftOp.full s.Q3] }
  let s := clrST_CLK s
  let s := addrByte h s
  let s := addrByte l s
  setbST_CLK s

/-- `setShiftRegsAddrLow` (main.c:489-550): only `addrL`, bit 7 first. -/
def setShiftRegsAddrLow (s : Dev) : Dev :=
  let l := s.addrL
  let s := { s with ops := s.ops ++ [ShiftOp.low s.Q3] }
  let s := clrST_CLK s
  let s := addrByte l s
  setbST_CLK s

/-- The single-bit shift of the unlock shortcut (main.c:792-800 and 813-820):
`clr _ST_CLK; clr _SH1_CLK; setb/clr _SDATA1; setb _SH1_CLK; setb _ST_CLK`. -/
def shiftOneBit (x : Bool) (s : Dev) : Dev :=
  let s := { s with ops := s.ops ++ [ShiftOp.bit s.Q3] }
  let s := clrST_CLK s
  let s := clrSH1_CLK s
  let s := setSDATA1 x s
  let s := setbSH1_CLK s
  setbST_CLK s

/-! ## Single-byte bus cycles (main.c:555-602, 872-896) -/

/-- `setAddr` (main.c:555-566).  `~CTRL_SH1B` is `0xFD` on a `uint8_t`. -/
def setAddr (s : Dev) : Dev :=
  let s := { s with ctrl := s.ctrl &&& 0xFD }
  let s := { s with ctrl := s.ctrl &&& 0x0F }
  let s := { s with ctrl := s.ctrl ||| s.addrBank }
  let s := setShiftRegsCtrl s
  setShiftRegsAddr s

/-- `writeByte(a, d)` (main.c:571-602); `a` is a `uint16_t`.  `~CTRL_WE` is `0xF7`. -/
def writeByte (a d : Nat) (s : Dev) : Dev :=
  let s := { s with
    addrH := if a ≠ 0 then a / 256 % 256 else s.addrH
    addrL := if a ≠ 0 then a % 256 else s.addrL
    addrBank := if a ≠ 0 then 0 else s.addrBank }
  let s := setP1 d s
  let s := setAddr s
  let s := clrFLCE s
  let s := { s with ctrl := s.ctrl &&& 0xF7 }
  let s := setShiftRegsCtrl s
  let s := { s with ctrl := s.ctrl ||| CTRL_WE }
  let s := setShiftRegsCtrl s
  setbFLCE s

/-- `data = P1;` (main.c:889): the read is put on the bus log. -/
def sampleData (env : Env) (s : Dev) : Dev :=
  { s with
    data := portValue env s
    bus := s.bus ++ [BusEv.rd s.adr s.Q3 (portValue env s)] }

/-- `readByte(a)` (main.c:872-896).  `~CTRL_OE` is `0xFB`. -/
def readByte (env : Env) (a : Nat) (s : Dev) : Dev :=
  let s := { s with
    addrH := if a ≠ 0 then a / 256 % 256 else s.addrH
    addrL := if a ≠ 0 then a % 256 else s.addrL
    addrBank := if a ≠ 0 then 0 else s.addrBank }
  let s := setAddr s
  let s := clrFLCE s
  let s := { s with ctrl := s.ctrl &&& 0xFB }
  let s := setShiftRegsCtrl s
  let s := sampleData env s
  let s := { s with ctrl := s.ctrl ||| CTRL_OE }
  let s := setShiftRegsCtrl s
  setbFLCE s

/-! ## Bulk write (main.c:609-868) -/

/-- `FLCE = 0; P1 = d; nop; FLCE = 1`: one chip-enable pulse with `d` on the data
port. -/
def cePulse (d : Nat) (s : Dev) : Dev :=
  setbFLCE (setP1 d (clrFLCE s))

/-- `safetyCnt = 0xFF; while (!FLREADY && safetyCnt) safetyCnt--;` (main.c:772-775):
the value of `safetyCnt` when the loop is left, starting from `safetyCnt` with the
`k`-th sample of READY being `rdy k`.  With `safetyCnt = 0` the line is sampled once
more, and the loop is left with `safetyCnt = 0` whatever the sample. -/
def waitReady (rdy : Nat → Bool) : Nat → Nat → Nat
  | 0, _ => 0
  | c + 1, k => if rdy k then c + 1 else waitReady rdy c (k + 1)

/-- The three unlock pulses of one byte after the address 0xAAA has been shifted out
(main.c:782-828): `0xAA`, single-bit shift of a 1, `0x55`, single-bit shift of a 0,
`0xA0`. -/
def unlockPulses (s : Dev) : Dev :=
  let s := cePulse 0xAA s
  let s := shiftOneBit true s
  let s := cePulse 0x55 s
  let s := shiftOneBit false s
  cePulse 0xA0 s

/-- The target write of byte `i` (main.c:833-845). -/
def programPulse (i addrProgL addrProgH : Nat) (s : Dev) : Dev :=
  let s := { s with addrL := addrProgL, addrH := addrProgH }
  let s := setShiftRegsAddr s
  cePulse (s.rwBuffer i) s

/-- The `while (i < 64)` loop of `writeData` and the poll after it (main.c:762-867);
`n` iterations remain and `i = 64 - n`.  The result is the return value and the
state. -/
def writeDataLoop (env : Env) : Nat → Nat → Nat → Nat → Dev → Nat × Dev
  | 0, _, _, _, s =>
    if waitReady (env.ready s.bus) 0xFF 0 = 0 then (1, s) else (0, s)
  | n + 1, i, addrProgL, addrProgH, s =>
    let s := { s with addrH := 0xA, addrL := 0xAA }
    let s := setShiftRegsAddr s
    if waitReady (env.ready s.bus) 0xFF 0 = 0 then (1, s)
    else
      let s := unlockPulses s
      let s := programPulse i addrProgL addrProgH s
      writeDataLoop env n (i + 1) ((addrProgL + 1) % 256) addrProgH s

/-- `writeData` (main.c:742-868). -/
def writeData (env : Env) (s : Dev) : Nat × Dev :=
  let addrProgL := s.addrL
  let addrProgH := s.addrH
  let s := P1_DATA_OUT s
  let s := { s with ctrl := s.ctrl &&& 0xFD }
  let s := { s with ctrl := s.ctrl &&& 0x0F }
  let s := { s with ctrl := s.ctrl ||| s.addrBank }
  let s := setShiftRegsCtrl s
  writeDataLoop env 64 0 addrProgL addrProgH s

/-- The `while (i < 64)` loop of `writeDataSlow` (main.c:630-733); `n` iterations
remain and `i = 64 - n`.  The delay loop on `waitCnt` is a skip. -/
def writeDataSlowLoop : Nat → Nat → Nat → Nat → Dev → Dev
  | 0, _, _, _, s => s
  | n + 1, i, addrProgL, addrProgH, s =>
    let s := { s with addrH := 0xA, addrL := 0xAA }
    let s := setShiftRegsAddr s
    let s := unlockPulses s
    let s := programPulse i addrProgL addrProgH s
    writeDataSlowLoop n (i + 1) ((addrProgL + 1) % 256) addrProgH s

/-- `writeDataSlow` (main.c:609-737); it always returns 0. -/
def writeDataSlow (s : Dev) : Nat × Dev :=
  let addrProgL := s.addrL
  let addrProgH := s.addrH
  let s := P1_DATA_OUT s
  let s := { s with ctrl := s.ctrl &&& 0xFD }
  let s := { s with ctrl := s.ctrl &&& 0x0F }
  let s := { s with ctrl := s.ctrl ||| s.addrBank }
  let s := setShiftRegsCtrl s
  (0, writeDataSlowLoop 64 0 addrProgL addrProgH s)

/-! ## Bulk read (main.c:899-937) -/

/-- The `while (i < 64)` loop of `readData`; `n` iterations remain and `i = 64 - n`. -/
def readDataLoop (env : Env) : Nat → Nat → Dev → Dev
  | 0, _, s => s
  | n + 1, i, s =>
    let s := clrFLCE s
    let s := { s with addrL := (s.addrL + 1) % 256 }
    let s := { logRead env s with rwBuffer := Function.update s.rwBuffer i (portValue env s) }
    let s := setbFLCE s
    let s := setShiftRegsAddrLow s
    readDataLoop env n (i + 1) s

/-- `readData` (main.c:899-937). -/
def readData (env : Env) (s : Dev) : Dev :=
  let s := setAddr s
  let s := { s with ctrl := s.ctrl ||| CTRL_SH1B }
  let s := setShiftRegsCtrl s
  readDataLoop env 64 0 s

/-! ## Erase polling and the setup command (main.c:940-1080) -/

/-- The `while (data != 0xFF && cnt)` loop of `waitForErase` (main.c:956-967), by
recursion on `cnt`; the result is the final `cnt` and the state.  `~CTRL_LED1` is
`0xFE`. -/
def waitForEraseLoop (env : Env) : Nat → Dev → Nat × Dev
  | 0, s => (0, s)
  | cnt + 1, s =>
    if s.data = 0xFF then (cnt + 1, s)
    else
      let s := { s with
        ctrl := if (cnt + 1) % 2 = 1 then s.ctrl ||| CTRL_LED1 else s.ctrl &&& 0xFE }
      let s := readByte env 1 s
      waitForEraseLoop env cnt s

/-- `waitForErase` (main.c:940-975). -/
def waitForErase (env : Env) (s : Dev) : Dev :=
  let s := P1_DATA_IN s
  let s := { s with ctrl := s.ctrl &&& 0xFE }
  let s := setShiftRegsCtrl s
  let s := { s with data := 0 }
  let r := waitForEraseLoop env 100 s
  let cnt := r.1
  let s := r.2
  let s := { s with ctrl := s.ctrl ||| CTRL_LED1 }
  let s := setShiftRegsCtrl s
  let s := { s with data := 0xFF }
  { s with status := if cnt ≠ 0 then STATUS_INITIALISED else STATUS_ERASE_FAIL }

/-- The part of `runSetUp` common to all modes (main.c:980-998): reset of the address
registers and of the control register, and the soft reset `0xF0` written to `0x0F`. -/
def setUpReset (s : Dev) : Dev :=
  let s := { s with addrH := 0, addrL := 0, addrBank := 0 }
  let s := { s with ctrl := CTRL_LED1 ||| CTRL_WE ||| CTRL_OE }
  let s := setShiftRegsCtrl s
  let s := P1_DATA_OUT s
  let s := writeByte 0x0f 0xf0 s
  { s with addrH := 0, addrL := 0, addrBank := 0 }

/-- The two unlock cycles of the setup modes beyond read and write
(main.c:1028-1031). -/
def setUpUnlock (s : Dev) : Dev :=
  let s := { s with status := STATUS_INITIALISED }
  let s := P1_DATA_OUT s
  let s := writeByte 0xAAA 0xAA s
  writeByte 0x1555 0x55 s

/-- The four command cycles of chip erase (main.c:1059-1063). -/
def eraseChipCycles (s : Dev) : Dev :=
  let s := { s with status := STATUS_ERASE }
  let s := writeByte 0xAAA 0x80 s
  let s := writeByte 0xAAA 0xAA s
  let s := writeByte 0x555 0x55 s
  writeByte 0xAAA 0x10 s

/-- The four command cycles of sector erase (main.c:1069-1077). -/
def eraseSectorCycles (oldAddrBank oldAddrH oldAddrL : Nat) (s : Dev) : Dev :=
  let s := { s with status := STATUS_ERASE }
  let s := writeByte 0xAAA 0x80 s
  let s := writeByte 0xAAA 0xAA s
  let s := writeByte 0x555 0x55 s
  let s := { s with addrBank := oldAddrBank, addrH := oldAddrH, addrL := oldAddrL }
  writeByte 0 0x30 s

/-- `runSetUp` (main.c:978-1080). -/
def runSetUp (env : Env) (s : Dev) : Dev :=
  let oldAddrH := s.addrH
  let oldAddrL := s.addrL
  let oldAddrBank := s.addrBank
  let s := setUpReset s
  if s.data = SETUP_READY then setP1 0 s
  else if s.data = SETUP_READ then
    let s := { s with status := STATUS_INITIALISED }
    let s := P1_DATA_IN s
    let s := { s with ctrl := s.ctrl &&& 0xFB }
    setShiftRegsCtrl s
  else if s.data = SETUP_WRITE then
    let s := { s with status := STATUS_INITIALISED }
    let s := { s with ctrl := s.ctrl &&& 0xF7 }
    setShiftRegsCtrl s
  else
    let s := setUpUnlock s
    if s.data = SETUP_MANUF_ID then
      let s := writeByte 0x2AAA 0x90 s
      let s := P1_DATA_IN s
      let s := readByte env 0x100 s
      { s with status := 0xF0 }
    else if s.data = SETUP_DEVICE_ID then
      let s := writeByte 0x2AAA 0x90 s
      let s := P1_DATA_IN s
      let s := readByte env 0x102 s
      { s with status := 0xF1 }
    else if s.data = SETUP_SECTOR_VERIFY then
      let s := writeByte 0xAAA 0x90 s
      let s := { s with status := SETUP_SECTOR_VERIFY }
      let s := { s with addrBank := oldAddrBank, addrH := oldAddrH, addrL := oldAddrL ||| 4 }
      let s := P1_DATA_IN s
      readByte env 0 s
    else if s.data = SETUP_ERASE then
      waitForErase env (eraseChipCycles s)
    else if s.data = SETUP_ERASE_SECTOR then
      waitForErase env (eraseSectorCycles oldAddrBank oldAddrH oldAddrL s)
    else s

/-! ## USB request handlers and the dispatch loop (main.c:158-236, 1083-1167) -/

/-- A vendor control request as the handlers see it: `UsbIntrSetupReq` and the bytes
of `wValue` and `wIndex` in `UsbSetupBuf`. -/
structure UsbReq where
  UsbIntrSetupReq : Nat
  wValueL : Nat
  wValueH : Nat
  wIndexL : Nat
  wIndexH : Nat

/-- `handleVendorControlTransfer` (main.c:158-227).  The result is the returned
length, `none` when the handler does not return (`jumpToBootloader`), and the state. -/
def handleVendorControlTransfer (r : UsbReq) (s : Dev) : Option Nat × Dev :=
  let op := r.UsbIntrSetupReq % 256 / 16 * 16
  if op = CMD_SET_SHREG then
    (some 0, { s with ctrl := r.wValueL % 256, command := CMD_SET_SHREG })
  else if op = CMD_SET_ADDR then
    (some 0, { s with
      addrH := r.wValueH % 256
      addrL := r.wValueL % 256
      addrBank := r.wIndexL * 16 % 256
      command := CMD_SET_ADDR })
  else if op = CMD_SET_DATA then
    (some 0, { s with data := r.wValueL % 256, command := CMD_SET_DATA })
  else if op = CMD_GET_DATA then
    (some 2, { s with
      Ep0Buffer := Function.update (Function.update s.Ep0Buffer 0 s.data) 1 s.status })
  else if op = CMD_BOOTLOADER then
    (none, s)
  else if op = CMD_SET_UP then
    (some 0, { s with
      addrH := r.wValueH % 256
      addrL := r.wValueL % 256
      addrBank := r.wIndexL * 16 % 256
      data := r.wIndexH % 256
      command := CMD_SET_UP })
  else if op = CMD_WRITE then
    (some 0, { s with
      addrH := r.wValueH % 256
      addrL := r.wValueL % 256
      addrBank := r.wIndexL * 16 % 256
      data := r.wIndexH % 256 })
  else if op = CMD_READ then
    if r.UsbIntrSetupReq % 16 = 0 then
      (some 0, { s with
        addrH := r.wValueH % 256
        addrL := r.wValueL % 256
        addrBank := r.wIndexL * 16 % 256
        command := CMD_READ })
    else
      (some 64, { s with
        Ep0Buffer := fun i => if i < 64 then s.rwBuffer i else s.Ep0Buffer i })
  else
    (some 0xFF, s)

/-- `handleVendorDataTransfer` (main.c:229-236), called when the data stage of a
control write has arrived in `Ep0Buffer`. -/
def handleVendorDataTransfer (r : UsbReq) (s : Dev) : Dev :=
  if CMD_WRITE = r.UsbIntrSetupReq % 256 then
    { s with
      rwBuffer := fun i => if i < 64 then s.Ep0Buffer i else s.rwBuffer i
      command := if s.data ≠ 0 then CMD_WRITE_SLOW else CMD_WRITE }
  else s

/-- The blinking of the LED in the write and read branches of the dispatch loop
(main.c:1117-1125, 1133-1141). -/
def blinkLED (s : Dev) : Dev :=
  let tmp := s.addrH % 64
  let s := if tmp = 0 then setShiftRegsCtrl { s with ctrl := s.ctrl &&& 0xFE } else s
  if tmp = 0x20 then setShiftRegsCtrl { s with ctrl := s.ctrl ||| CTRL_LED1 } else s

/-- One pass of the body of `while (1)` in `main` (main.c:1110-1166). -/
def mainLoopPass (env : Env) (s : Dev) : Dev :=
  if s.command = CMD_WRITE ∨ s.command = CMD_WRITE_SLOW then
    let slow := decide (CMD_WRITE_SLOW = s.command)
    let s := { s with command := 0 }
    let s := { s with status := CMD_WRITE }
    let s := blinkLED s
    let r := if slow then writeDataSlow s else writeData env s
    { r.2 with status := r.1 }
  else if s.command = CMD_READ then
    let s := { s with command := 0 }
    let s := { s with status := CMD_READ }
    let s := blinkLED s
    let s := P1_DATA_IN s
    let s := readData env s
    { s with status := 0 }
  else if s.command = CMD_SET_UP then
    runSetUp env { s with command := 0 }
  else if s.command = CMD_SET_SHREG then
    setShiftRegsCtrl { s with command := 0 }
  else if s.command = CMD_SET_ADDR then
    setAddr { s with command := 0 }
  else if s.command = CMD_SET_DATA then
    setP1 s.data (P1_DATA_OUT { s with command := 0 })
  else s

/-! ## Pin traces and shift-stage contents used in the statements -/

/-- An 8-bit shift stage that held `u`, after the `j` most significant bits of the
byte `b` have been shifted in. -/
def sh8 (u b j : Nat) : Nat := (2 ^ j * u + b / 2 ^ (8 - j) % 2 ^ j) % 256

/-- Pin writes of one bit of `setShiftRegsCtrl`: clock low, data, clock high. -/
def ctrlBitTrace (c k : Nat) : List (Pin × Bool) :=
  [(Pin.SH2_CLK, false), (Pin.SDATA1, bitOf c k), (Pin.SH2_CLK, true)]

/-- Pin writes of `setShiftRegsCtrl` for the control byte `c`. -/
def ctrlTrace (c : Nat) : List (Pin × Bool) :=
  [(Pin.ST_CLK, false)] ++ ctrlBitTrace c 0 ++ ctrlBitTrace c 1 ++ ctrlBitTrace c 2
    ++ ctrlBitTrace c 3 ++ ctrlBitTrace c 4 ++ ctrlBitTrace c 5 ++ ctrlBitTrace c 6
    ++ ctrlBitTrace c 7 ++ [(Pin.ST_CLK, true)]

/-- Pin writes of one bit of an address shift: clock low, data, clock high. -/
def addrBitTrace (b k : Nat) : List (Pin × Bool) :=
  [(Pin.SH1_CLK, false), (Pin.SDATA1, bitOf b k), (Pin.SH1_CLK, true)]

/-- Pin writes of the eight bits of `b`, bit 7 first, on SH1_CLK. -/
def addrByteTrace (b : Nat) : List (Pin × Bool) :=
  addrBitTrace b 7 ++ addrBitTrace b 6 ++ addrBitTrace b 5 ++ addrBitTrace b 4
    ++ addrBitTrace b 3 ++ addrBitTrace b 2 ++ addrBitTrace b 1 ++ addrBitTrace b 0

/-- Pin writes of `setShiftRegsAddr` for the bytes `h` and `l`. -/
def addrTrace (h l : Nat) : List (Pin × Bool) :=
  [(Pin.ST_CLK, false)] ++ addrByteTrace h ++ addrByteTrace l ++ [(Pin.ST_CLK, true)]

/-- Pin writes of `setShiftRegsAddrLow` for the byte `l`. -/
def addrLowTrace (l : Nat) : List (Pin × Bool) :=
  [(Pin.ST_CLK, false)] ++ addrByteTrace l ++ [(Pin.ST_CLK, true)]

/-- Pin writes of the single-bit shift of the unlock shortcut. -/
def oneBitTrace (x : Bool) : List (Pin × Bool) :=
  [(Pin.ST_CLK, false), (Pin.SH1_CLK, false), (Pin.SDATA1, x), (Pin.SH1_CLK, true),
    (Pin.ST_CLK, true)]

/-- The control byte that `setAddr`, `writeData` and `writeDataSlow` compute from the old
control byte `c` and `addrBank`: SH1B cleared, bank bits replaced. -/
def ctlAddr (c bank : Nat) : Nat := ((c &&& 0xFD) &&& 0x0F) ||| bank

/-- Control byte left by `writeByte`: bank bits set, SH1B low, WE# high again. -/
def wrCtl (c bank : Nat) : Nat := (ctlAddr c bank &&& 0xF7) ||| CTRL_WE

/-- Pin writes of `writeByte`. -/
def writeByteTrace (c bank h l : Nat) : List (Pin × Bool) :=
  ctrlTrace (ctlAddr c bank) ++ addrTrace h l ++ [(Pin.FLCE, false)]
    ++ ctrlTrace (ctlAddr c bank &&& 0xF7) ++ ctrlTrace (wrCtl c bank) ++ [(Pin.FLCE, true)]

/-- The four chip-enable pulses of one programmed byte: the three unlock pulses at the
address values the shift chain holds (0x0AAA, then shifted left with a 1, then shifted
left with a 0) and the target pulse with data `d` at address `a`; `q` is the control
byte on the outputs of U3 and `w` the write flag of the pulses. -/
def byteEvents (q : Nat) (w : Bool) (a d : Nat) : List BusEv :=
  [BusEv.ce 0x0AAA q 0xAA w, BusEv.ce 0x1555 q 0x55 w, BusEv.ce 0x2AAA q 0xA0 w,
    BusEv.ce a q d w]

/-- Address on the 16 address outputs for byte `i` of a bulk transfer that starts at
high byte `h`, low byte `l`: only the low byte counts up. -/
def chunkAddr (h l i : Nat) : Nat := h % 256 * 256 + (l + i) % 256

/-- The bus events of the bytes `i, i+1, .., i+n-1` of a bulk write of buffer `B` at
high byte `h`, low byte `l`. -/
def progEvents (q : Nat) (w : Bool) (B : Nat → Nat) (h l i n : Nat) : List BusEv :=
  (List.range' i n).flatMap (fun j => byteEvents q w (chunkAddr h l j) (B j % 256))

/-- Pin writes of one chip-enable pulse. -/
def cePulseTrace : List (Pin × Bool) := [(Pin.FLCE, false), (Pin.FLCE, true)]

/-- Pin writes of one byte of the bulk write. -/
def progByteTrace (ph pl : Nat) : List (Pin × Bool) :=
  addrTrace 0xA 0xAA ++ cePulseTrace ++ oneBitTrace true ++ cePulseTrace
    ++ oneBitTrace false ++ cePulseTrace ++ addrTrace ph pl ++ cePulseTrace

/-- One byte of the bulk write without the poll: address 0xAAA shifted out, the unlock
pulses, the target pulse. -/
def progByte (i addrProgL addrProgH : Nat) (s : Dev) : Dev :=
  programPulse i addrProgL addrProgH
    (unlockPulses (setShiftRegsAddr { s with addrH := 0xA, addrL := 0xAA }))

/-- The READY line is seen high within the first 255 samples of a polling loop that
starts after the bus history `hist`. -/
def pollOk (env : Env) (hist : List BusEv) : Prop :=
  ∃ k, k < 255 ∧ env.ready hist k = true

/-- Bus history at poll point `j` of a `writeData` started in state `t`: what was on
the bus before, followed by the pulses of the bytes `0 .. j-1`. -/
def pollHist (t : Dev) (j : Nat) : List BusEv :=
  t.bus ++ progEvents (ctlAddr t.ctrl t.addrBank % 256)
    (weLow (ctlAddr t.ctrl t.addrBank % 256)) t.rwBuffer t.addrH t.addrL 0 j

/-- The state in which the dispatch loop calls `writeData` or `writeDataSlow` for a
pending write command (main.c:1113-1125). -/
def writeEntry (s : Dev) : Dev :=
  blinkLED { s with command := 0, status := CMD_WRITE }

/-- A world in which READY is always high and the data pins read `0xFF`. -/
def envReady : Env := ⟨fun _ _ => true, fun _ _ _ _ => 0xFF⟩

/-- A world in which READY is stuck low and the data pins read `0xFF`. -/
def envStuck : Env := ⟨fun _ _ => false, fun _ _ _ _ => 0xFF⟩

/-- The programmer after `setupGPIO` (main.c:271-276), with zeroed globals and zeroed
shift registers and an empty observation log. -/
def powerOn : Dev :=
  { rwBuffer := fun _ => 0
    Ep0Buffer := fun _ => 0
    command := 0
    addrBank := 0
    addrH := 0
    addrL := 0
    ctrl := 0
    data := 0
    status := 0
    P1 := 0
    P1_DIR_PU := 0xFF
    ST_CLK := false
    SH1_CLK := true
    SH2_CLK := true
    SDATA1 := false
    FLCE := true
    U1 := 0
    U2 := 0
    U3 := 0
    Q1 := 0
    Q2 := 0
    Q3 := 0
    weSeen := false
    pins := []
    bus := []
    ops := [] }

/-- The GET_DATA request of the host (prog_pc.c:387): request byte 0x40, no
parameters. -/
def reqGetData : UsbReq := ⟨CMD_GET_DATA, 0, 0, 0, 0⟩

/-- One pass of the loop of `readData` (main.c:917-933): CE# low, `addrL++`, sample of
P1 into `rwBuffer[i]`, CE# high, low address byte shifted out. -/
def readStep (env : Env) (i : Nat) (s : Dev) : Dev :=
  let s := clrFLCE s
  let s := { s with addrL := (s.addrL + 1) % 256 }
  let s := { logRead env s with rwBuffer := Function.update s.rwBuffer i (portValue env s) }
  let s := setbFLCE s
  setShiftRegsAddrLow s

/-- The byte read from P1 during a bulk read, with CE# low: from the outside world when
the port direction `dir` is input, else the port latch `p1`. -/
def sampleAt (env : Env) (dir p1 q a : Nat) (hist : List BusEv) : Nat :=
  if dir = 0 then env.port hist false q a % 256 else p1 % 256

/-- Bus history of a bulk read after `k` passes that started with history `hist0` at
byte index `i0`: each pass adds the sample of P1 and the closing of the chip-enable
pulse, both at the address of that byte. -/
def readHist (env : Env) (dir p1 q : Nat) (w : Bool) (h l : Nat) (hist0 : List BusEv)
    (i0 : Nat) : Nat → List BusEv
  | 0 => hist0
  | k + 1 =>
    readHist env dir p1 q w h l hist0 i0 k ++
      [BusEv.rd (chunkAddr h l (i0 + k)) q
          (sampleAt env dir p1 q (chunkAddr h l (i0 + k))
            (readHist env dir p1 q w h l hist0 i0 k)),
        BusEv.ce (chunkAddr h l (i0 + k)) q p1 w]

/-- Pin writes of one pass of the loop of `readData`. -/
def readStepTrace (l : Nat) : List (Pin × Bool) :=
  cePulseTrace ++ addrLowTrace l

/-- Control byte latched by `readData` for its loop: as set by `setAddr`, with SH1B
high. -/
def rdCtl (c bank : Nat) : Nat := ctlAddr c bank ||| CTRL_SH1B

/-- The READ sub-1 request of the host (prog_pc.c:511): request byte 0x61. -/
def reqReadBuffer : UsbReq := ⟨CMD_READ + 1, 0, 0, 0, 0⟩

/-- Control byte during the sample of `readByte`: as set by `setAddr`, with OE# low. -/
def rbCtl (c bank : Nat) : Nat := ctlAddr c bank &&& 0xFB

/-- Pin writes of `readByte`. -/
def readByteTrace (c bank h l : Nat) : List (Pin × Bool) :=
  ctrlTrace (ctlAddr c bank) ++ addrTrace h l ++ [(Pin.FLCE, false)]
    ++ ctrlTrace (rbCtl c bank) ++ ctrlTrace (rbCtl c bank ||| CTRL_OE) ++ [(Pin.FLCE, true)]

/-- Pin writes of `setUpReset`. -/
def setUpResetTrace : List (Pin × Bool) :=
  ctrlTrace 13 ++ writeByteTrace 13 0 0 0x0F

/-- Pin writes of `setUpUnlock`. -/
def setUpUnlockTrace : List (Pin × Bool) :=
  writeByteTrace 13 0 0x0A 0xAA ++ writeByteTrace 13 0 0x15 0x55

/-- Pin writes of the four command cycles of chip erase. -/
def eraseChipTrace : List (Pin × Bool) :=
  writeByteTrace 13 0 0x0A 0xAA ++ writeByteTrace 13 0 0x0A 0xAA
    ++ writeByteTrace 13 0 0x05 0x55 ++ writeByteTrace 13 0 0x0A 0xAA

/-- Pin writes of the four command cycles of sector erase at bank byte `bank`, high
byte `h`, low byte `l`. -/
def eraseSectorTrace (bank h l : Nat) : List (Pin × Bool) :=
  writeByteTrace 13 0 0x0A 0xAA ++ writeByteTrace 13 0 0x0A 0xAA
    ++ writeByteTrace 13 0 0x05 0x55 ++ writeByteTrace 13 bank h l

/-- A concrete input: at power-on, a sector-erase setup for bank 3, address 0x4000 has
been received. -/
def sectorEraseRequest : Dev :=
  { powerOn with data := SETUP_ERASE_SECTOR, addrBank := 48, addrH := 0x40 }

/-- The bus events of the setup preamble of the identify modes: soft reset, the two
unlock cycles and the autoselect command 0x90, each with the address held by the 16
address outputs. -/
def identifyWrites : List BusEv :=
  [BusEv.ce 0x000F 13 0xF0 true, BusEv.ce 0x0AAA 13 0xAA true, BusEv.ce 0x1555 13 0x55 true,
    BusEv.ce 0x2AAA 13 0x90 true]

/-- One pass of the polling loop of `waitForErase` entered with counter `cnt`
(main.c:958-964): the LED bit follows the parity of `cnt`, then `readByte(1)`. -/
def erasePass (env : Env) (cnt : Nat) (s : Dev) : Dev :=
  readByte env 1 { s with
    ctrl := if cnt % 2 = 1 then s.ctrl ||| CTRL_LED1 else s.ctrl &&& 0xFE }

/-- The state after `k` passes of the polling loop that started with counter `cnt`;
its `data` is the value of read-back number `k`. -/
def eraseState (env : Env) : Nat → Nat → Dev → Dev
  | 0, _, s => s
  | k + 1, cnt, s => eraseState env k (cnt - 1) (erasePass env cnt s)

/-- The state in which `waitForErase` enters its polling loop (main.c:944-955). -/
def eraseEntry (s : Dev) : Dev :=
  { setShiftRegsCtrl { P1_DATA_IN s with ctrl := s.ctrl &&& 0xFE } with data := 0 }

/-- A bus event is a read of the data port. -/
def isRead : BusEv → Bool
  | BusEv.rd _ _ _ => true
  | BusEv.ce _ _ _ _ => false

/-- A world in which the flash answers 0xFF to the 100th read of the data port and 0
to every other read: an erase that completes just before the last poll. -/
def envLate : Env :=
  ⟨fun _ _ => true, fun hist _ _ _ => if hist.countP isRead = 99 then 0xFF else 0⟩

/-! ## An idealised flash chip on the bus

The world of the round-trip property: the contents of the flash are a function of the
bus history.  The chip decodes its command addresses on the low 12 address bits, which
is what the unlock shortcut of the firmware relies on. -/

/-- OE# output of U3 is low. -/
def oeLow (q3 : Nat) : Bool := !(bitOf q3 2)

/-- A vendor control request as it reaches the handlers: `bRequest` becomes
`UsbIntrSetupReq`, and the 16-bit `wValue` and `wIndex` that the host passes to
`libusb_control_transfer` (prog_pc.c:165-185) arrive as low and high bytes. -/
def usbRequest (bRequest wValue wIndex : Nat) : UsbReq :=
  ⟨bRequest % 256, wValue % 256, wValue / 256 % 256, wIndex % 256, wIndex / 256 % 256⟩

/-- Modelled from the spec: the USB engine of `usb_intr.h`, which is not part of the
sources, places the 64 bytes of the data phase of a control write in the endpoint-0
buffer before `handleVendorDataTransfer` is called ("followed by a 64-byte data phase
from host to device"). -/
def usbDataStage (B : Nat → Nat) (s : Dev) : Dev :=
  { s with Ep0Buffer := fun i => if i < 64 then B i % 256 else s.Ep0Buffer i }

/-- A control request is handled and the dispatch loop makes one pass. -/
def deviceDo (env : Env) (r : UsbReq) (s : Dev) : Dev :=
  mainLoopPass env (handleVendorControlTransfer r s).2

/-- Pin writes of `runSetUp` in the modes begin-read and begin-write, which latch the
control byte `c` after the reset. -/
def setUpModeTrace (c : Nat) : List (Pin × Bool) :=
  setUpResetTrace ++ ctrlTrace c

/-! ## The shift routines as the specification words them -/

/-- One bit of a serial shift in the words of the specification: clock low, data line
set, clock high. -/
def shiftBitSpec (clk : Pin) (v : Bool) : List (Pin × Bool) :=
  [(clk, false), (Pin.SDATA1, v), (clk, true)]

/-- The bits of `b` with the bit numbers `ks`, in that order, each shifted on `clk`. -/
def shiftBitsSpec (clk : Pin) (b : Nat) (ks : List Nat) : List (Pin × Bool) :=
  ks.flatMap (fun k => shiftBitSpec clk (bitOf b k))

/-- Specified pin trace of the 16-bit address shift: store line low, high byte then low
byte, bit 7 down to bit 0 each, on SH1_CLK, store line high. -/
def addrShiftSpec (h l : Nat) : List (Pin × Bool) :=
  [(Pin.ST_CLK, false)] ++ shiftBitsSpec Pin.SH1_CLK h [7, 6, 5, 4, 3, 2, 1, 0]
    ++ shiftBitsSpec Pin.SH1_CLK l [7, 6, 5, 4, 3, 2, 1, 0] ++ [(Pin.ST_CLK, true)]

/-- Specified pin trace of the 8-bit address shift: store line low, the low byte bit 7
down to bit 0 on SH1_CLK, store line high. -/
def addrLowShiftSpec (l : Nat) : List (Pin × Bool) :=
  [(Pin.ST_CLK, false)] ++ shiftBitsSpec Pin.SH1_CLK l [7, 6, 5, 4, 3, 2, 1, 0]
    ++ [(Pin.ST_CLK, true)]

/-- Number of rising edges that a trace commands on the pin `clk`. -/
def clockPulses (clk : Pin) (tr : List (Pin × Bool)) : Nat :=
  tr.count (clk, true)

/-- A state for trying the address shifts: address `0xA53C` requested, other contents in
the shift stages, SH1B low on the outputs of U3. -/
def shiftDemo : Dev :=
  { powerOn with addrH := 0xA5, addrL := 0x3C, U1 := 0xFF, U2 := 0x77, ctrl := 0x0D }

/-- The same request with SH1B high on the outputs of U3 and the high byte already in
U2. -/
def shiftDemoLow : Dev :=
  { shiftDemo with Q3 := 0x0B, U3 := 0x0B, U2 := 0xA5 }

/-- The write cycles of `runSetUp` in mode verify-sector-protection: soft reset, two
unlock cycles and the command `0x90` at `0xAAA` (main.c:1028-1031, 1048). -/
def verifyWrites : List BusEv :=
  [BusEv.ce 0x000F 13 0xF0 true, BusEv.ce 0x0AAA 13 0xAA true, BusEv.ce 0x1555 13 0x55 true,
    BusEv.ce 0x0AAA 13 0x90 true]

/-- State in which `runSetUp` calls `readByte(0)` in mode verify-sector-protection
(main.c:1048-1054). -/
def verifyEntry (s : Dev) : Dev :=
  P1_DATA_IN
    { writeByte 0xAAA 0x90 (setUpUnlock (setUpReset s)) with
      status := SETUP_SECTOR_VERIFY
      addrBank := s.addrBank
      addrH := s.addrH
      addrL := s.addrL ||| 4 }

/-- A pending verify-sector-protection setup for bank 3, address `0x4004`, whose low
byte has bit 2 set. -/
def sectorVerifyRequest : Dev :=
  { powerOn with data := SETUP_SECTOR_VERIFY, addrBank := 0x30, addrH := 0x40, addrL := 4 }
/-- A pending verify-sector-protection setup for bank 3 at the sector address `0x4000`. -/
def sectorVerifyAligned : Dev :=
  { powerOn with data := SETUP_SECTOR_VERIFY, addrBank := 0x30, addrH := 0x40, addrL := 0 }
/-- A pending begin-read setup in a state with the chip selected, SH1B high and an
address and bank loaded. -/
def readBusy : Dev :=
  { powerOn with data := SETUP_READ, addrBank := 0x30, addrH := 0x40, addrL := 4,
                 FLCE := false, Q3 := 0x0F, U3 := 0x0F, ctrl := 0x0F }

/-- A pending begin-write setup in the same kind of state. -/
def writeBusy : Dev :=
  { readBusy with data := SETUP_WRITE }

/-- Top nibble of the request byte, on which `handleVendorControlTransfer` switches
(`UsbIntrSetupReq & 0xF0`, main.c:166). -/
def topNibble (r : UsbReq) : Nat := r.UsbIntrSetupReq % 256 / 16

/-- A device with a bulk write pending: the WRITE request for address `0x1240`, bank 3
and its data phase have been handled at power-on; the dispatch loop has not run yet. -/
def writePending : Dev :=
  handleVendorDataTransfer (usbRequest CMD_WRITE 0x1240 3)
    (usbDataStage (fun i => i)
      (handleVendorControlTransfer (usbRequest CMD_WRITE 0x1240 3) powerOn).2)

/-- Between the states `s` and `t` the command slot and the status byte are untouched
and at most `n` pin writes were made. -/
def Keeps (s t : Dev) (n : Nat) : Prop :=
  t.command = s.command ∧ t.status = s.status ∧ t.pins.length ≤ s.pins.length + n
/-- Between the states `s` and `t` the command slot is untouched and at most `n` pin
writes were made. -/
def Runs (s t : Dev) (n : Nat) : Prop :=
  t.command = s.command ∧ t.pins.length ≤ s.pins.length + n

/-- The values of `command` that the dispatch loop acts on (main.c:1111-1165). -/
def pendingCommands : List Nat :=
  [CMD_WRITE, CMD_WRITE_SLOW, CMD_READ, CMD_SET_UP, CMD_SET_SHREG, CMD_SET_ADDR, CMD_SET_DATA]
/-- A world in which READY is stuck low and the data pins never read `0xFF`. -/
def envDead : Env := ⟨fun _ _ => false, fun _ _ _ _ => 0⟩

/-- A device with a chip erase pending: the setup request for mode erase-chip has been
handled at power-on; the dispatch loop has not run yet. -/
def erasePending : Dev :=
  (handleVendorControlTransfer (usbRequest CMD_SET_UP 0 (SETUP_ERASE * 256)) powerOn).2

/-! ## The device as the host sees it -/

/-- `main` from the end of `setupGPIO` to the dispatch loop (main.c:1092-1107): the
address registers are zeroed, CE# is driven high, the control byte `LED1 | WE | OE` and
the address are shifted out and the data port latch is cleared. -/
def mainInit (s : Dev) : Dev :=
  let s := { s with addrH := 0, addrL := 0, addrBank := 0 }
  let s := setbFLCE s
  let s := { s with ctrl := CTRL_LED1 ||| CTRL_WE ||| CTRL_OE }
  let s := setShiftRegsCtrl s
  let s := setAddr s
  setP1 0 s

/-- The events between which the host can observe the device: a vendor control request
is handled, the data phase of a control write arrives with the bytes `B`, or the
dispatch loop makes one pass. -/
inductive HostStep
  | request (r : UsbReq)
  | dataPhase (r : UsbReq) (B : Nat → Nat)
  | dispatch

/-- Effect of one event on the device.  A bootloader request, for which the handler does
not return, leaves the firmware state as it is.  The events are taken one after the
other: a request is handled between two passes of the dispatch loop.  GET_DATA requests
that the USB interrupt answers while a pass is running are the subject of
`mainLoopPassTraced` and `PollStep`. -/
def deviceStep (env : Env) (s : Dev) : HostStep → Dev
  | HostStep.request r => (handleVendorControlTransfer r s).2
  | HostStep.dataPhase r B => handleVendorDataTransfer r (usbDataStage B s)
  | HostStep.dispatch => mainLoopPass env s

/-- The device after power-up and a sequence of events. -/
def deviceAfter (env : Env) (steps : List HostStep) : Dev :=
  steps.foldl (deviceStep env) (mainInit powerOn)

/-- The status byte that a GET_DATA request returns: the second byte of its reply. -/
def getStatus (s : Dev) : Nat :=
  (handleVendorControlTransfer reqGetData s).2.Ep0Buffer 1

/-- The five values of the Status enumeration (main.c:111-115). -/
def statusEnum : List Nat :=
  [STATUS_INITIALISED, STATUS_ERASE, STATUS_ERASE_FAIL, STATUS_PROGRAM, STATUS_PROGRAM_FAIL]

/-- The values that the firmware leaves in `status` between two events, that is when no
pass of the dispatch loop is running. -/
def statusStored : List Nat := [0x00, 0x01, 0x02, 0xF0, 0xF1]

/-- A state right after the unlock address has been shifted out by `setShiftRegsAddr`
in a bulk write: the chain holds `0x0AAA`, SH1B is low. -/
def unlockDemo : Dev :=
  { powerOn with addrH := 0x0A, addrL := 0xAA, U1 := 0xAA, U2 := 0x0A, Q1 := 0xAA, Q2 := 0x0A,
                 ctrl := 0x05, U3 := 0x05, Q3 := 0x05 }

/-! ## The host tool (`prog_pc.c`) -/

/-- `addr = pos & 0xFFFF;` (prog_pc.c:450, 481): the 16-bit base address of the byte
offset `pos`, a `uint32_t`. -/
def hostAddr (pos : Nat) : Nat := (pos % 2 ^ 32) &&& 0xFFFF

/-- `bank = (pos >> 16) & 0xFF;` (prog_pc.c:451, 482). -/
def hostBank (pos : Nat) : Nat := ((pos % 2 ^ 32) >>> 16) &&& 0xFF

/-- The request `sendControlTransfer(h, COMMAND_WRITE, addr, bank | slowWrite, 64)` of
`writeFlash` (prog_pc.c:441) for the chunk at byte offset `pos`; `param2` is a
`uint16_t`. -/
def hostWriteRequest (pos slowWrite : Nat) : UsbReq :=
  usbRequest CMD_WRITE (hostAddr pos) ((hostBank pos ||| slowWrite) % 65536)

/-- The request `sendControlTransfer(h, COMMAND_READ, addr, bank, 0)` of `readFlash`
(prog_pc.c:485) for the chunk at byte offset `pos`. -/
def hostReadRequest (pos : Nat) : UsbReq :=
  usbRequest CMD_READ (hostAddr pos) (hostBank pos)

/-- The values of `setupAddr` and `setupAddrBank` that `checkArguments` derives from the
argument of `-ers` (prog_pc.c:331-336): `a = strtol(..) & 0xFFFFF; setupAddr = a & 0xFFF;
setupAddrBank = (a >> 12) & 0xFF`. -/
def hostErsSplit (arg : Nat) : Nat × Nat :=
  let a := arg &&& 0xFFFFF
  (a &&& 0xFFF, (a >>> 12) &&& 0xFF)

/-- The values of `setupAddr` and `setupAddrBank` that `checkArguments` derives from the
argument of `-vsp` (prog_pc.c:319-325): `setupAddr = a & 0xFFFF; setupAddrBank =
(a >> 16) & 0xFF`. -/
def hostVspSplit (arg : Nat) : Nat × Nat :=
  let a := arg &&& 0xFFFFF
  (a &&& 0xFFFF, (a >>> 16) &&& 0xFF)

/-- The setup request of `runSetupCommand` (prog_pc.c:604-622) for mode `data` with the
sector parameters `setupAddr`, `setupAddrBank`: `index = data; index <<= 8; index |=
addrBank` on a `uint16_t`, where address and bank are used only for the modes
verify-sector-protection and erase-sector. -/
def hostSetupRequest (data setupAddr setupAddrBank : Nat) : UsbReq :=
  let sector := decide (data = SETUP_SECTOR_VERIFY ∨ data = SETUP_ERASE_SECTOR)
  let addr := if sector then setupAddr else 0
  let addrBank := if sector then setupAddrBank else 0
  usbRequest CMD_SET_UP addr (((data * 256) % 65536) ||| addrBank)

/-- The setup request that `prog_pc -ers arg` sends. -/
def hostErsRequest (arg : Nat) : UsbReq :=
  hostSetupRequest SETUP_ERASE_SECTOR (hostErsSplit arg).1 (hostErsSplit arg).2
/-- The device after the request handler has taken the host's WRITE request for the
chunk at byte offset `pos`. -/
def afterWriteRequest (pos slowWrite : Nat) (s : Dev) : Dev :=
  (handleVendorControlTransfer (hostWriteRequest pos slowWrite) s).2

/-- The device after the request handler has taken the host's READ request for the chunk
at byte offset `pos`. -/
def afterReadRequest (pos : Nat) (s : Dev) : Dev :=
  (handleVendorControlTransfer (hostReadRequest pos) s).2

/-! ## Completion polling and `writeFlash` of the host tool -/

/-- `flashIoFinished` (prog_pc.c:384-393): the status byte `resBuf[1]` of the GET_DATA
reply number `i`; `replies` is the sequence of status bytes that the device returns. -/
def flashIoFinished (replies : Nat → Nat) (i : Nat) : Nat := replies i % 256

/-- `waitForFlashIoFinish` (prog_pc.c:396-410) as called with reply number `i` next.
The loop of the source is `while (1)` without a counter; `fuel` is the number of polls
that the model follows, and `none` says that the function has not returned within
`fuel` polls.  The result is the return value and the number of the next reply. -/
def waitForFlashIoFinish (replies : Nat → Nat) (errorState : Nat) :
    Nat → Nat → Option (Nat × Nat)
  | 0, _ => none
  | fuel + 1, i =>
    let ret := flashIoFinished replies i
    if ret = 0 then some (0, i + 1)
    else if errorState ≠ 0 ∧ ret = errorState then some (ret, i + 1)
    else waitForFlashIoFinish replies errorState fuel (i + 1)

/-- A status reply ends the polling with error state `errorState`. -/
def decisive (errorState v : Nat) : Prop :=
  v % 256 = 0 ∨ (errorState ≠ 0 ∧ v % 256 = errorState)

/-- Status replies of a device that reports "write in progress" twice and then the
failure status of a bulk write. -/
def repliesFailThird : Nat → Nat := fun j => if j = 2 then 1 else 0x50

/-- Status replies that are never 0 and never a failure status. -/
def repliesStuck : Nat → Nat := fun _ => 3

/-- An address shift ran with the level of SH1B that it relies on: low for the 16-bit
shift and for the single-bit shift, which must clock U2; high for the 8-bit shift, which
must leave U2 as it is.  The argument of a `ShiftOp` is the output stage of U3 when the
shift started. -/
def opOk : ShiftOp → Bool
  | ShiftOp.full q3 => sh1bLow q3
  | ShiftOp.low q3 => !sh1bLow q3
  | ShiftOp.bit q3 => sh1bLow q3

/-- Between `s` and `t` the log of address shifts only grew, and each shift that was
added ran with the level of SH1B that it relies on. -/
def Shifts (s t : Dev) : Prop := ∃ l, t.ops = s.ops ++ l ∧ l.all opOk = true

/-- Both stages of the control register hold `q` and the bank byte is `b`. -/
def Sel (q b : Nat) (s : Dev) : Prop := s.U3 = q ∧ s.Q3 = q ∧ s.addrBank = b

/-- The shift stage of the control register equals its output stage, as it does after
every `setShiftRegsCtrl`, and the bank byte has its low nibble clear, as it has after
every `wIndexL << 4`. -/
def Latched (s : Dev) : Prop := s.U3 = s.Q3 ∧ s.addrBank % 16 = 0

/-! ## The status byte while a pass of the dispatch loop is running -/

/-- The values that `status` holds at some moment, between two events or while a pass of
the dispatch loop is running. -/
def statusObserved : List Nat := [0x00, 0x01, 0x02, 0x50, 0x60, 0xF0, 0xF1]

/-- `runSetUp` (main.c:978-1080) with a record of the states right after each of its
assignments to `status` (main.c:1006, 1038, 1045, 1050, 1059, 1069, and main.c:974 at the
end of `waitForErase`), in the order in which they are made.  The result is the record
and the state in which `runSetUp` returns.  The body is that of `runSetUp`; where the
assignment is the first statement of `setUpUnlock`, `eraseChipCycles` or
`eraseSectorCycles`, the recorded state is the state before that routine with `status`
set, and the state after `waitForErase`, whose last statement is the assignment, is
recorded as it is. -/
def runSetUpTraced (env : Env) (s : Dev) : List Dev × Dev :=
  let oldAddrH := s.addrH
  let oldAddrL := s.addrL
  let oldAddrBank := s.addrBank
  let s := setUpReset s
  if s.data = SETUP_READY then ([], setP1 0 s)
  else if s.data = SETUP_READ then
    let s := { s with status := STATUS_INITIALISED }
    let p1 := s
    let s := P1_DATA_IN s
    let s := { s with ctrl := s.ctrl &&& 0xFB }
    ([p1], setShiftRegsCtrl s)
  else if s.data = SETUP_WRITE then
    let s := { s with status := STATUS_INITIALISED }
    let p1 := s
    let s := { s with ctrl := s.ctrl &&& 0xF7 }
    ([p1], setShiftRegsCtrl s)
  else
    let p1 := { s with status := STATUS_INITIALISED }
    let s := setUpUnlock s
    if s.data = SETUP_MANUF_ID then
      let s := writeByte 0x2AAA 0x90 s
      let s := P1_DATA_IN s
      let s := readByte env 0x100 s
      let s := { s with status := 0xF0 }
      ([p1, s], s)
    else if s.data = SETUP_DEVICE_ID then
      let s := writeByte 0x2AAA 0x90 s
      let s := P1_DATA_IN s
      let s := readByte env 0x102 s
      let s := { s with status := 0xF1 }
      ([p1, s], s)
    else if s.data = SETUP_SECTOR_VERIFY then
      let s := writeByte 0xAAA 0x90 s
      let s := { s with status := SETUP_SECTOR_VERIFY }
      let p2 := s
      let s := { s with addrBank := oldAddrBank, addrH := oldAddrH, addrL := oldAddrL ||| 4 }
      let s := P1_DATA_IN s
      ([p1, p2], readByte env 0 s)
    else if s.data = SETUP_ERASE then
      let p2 := { s with status := STATUS_ERASE }
      let s := waitForErase env (eraseChipCycles s)
      ([p1, p2, s], s)
    else if s.data = SETUP_ERASE_SECTOR then
      let p2 := { s with status := STATUS_ERASE }
      let s := waitForErase env (eraseSectorCycles oldAddrBank oldAddrH oldAddrL s)
      ([p1, p2, s], s)
    else ([p1], s)

/-- One pass of the body of `while (1)` in `main` (main.c:1110-1166) with a record of
the states right after each assignment to `status` (main.c:1114, 1126, 1130, 1145 and
those of `runSetUp`), in the order in which they are made.  The result is the record and
the state at the end of the pass.  Between two recorded states, and before the first
and after the last, `status` is not written: a GET_DATA request that the USB interrupt
serves while the pass is running reads the `status` of the state at the start of the
pass or of a recorded state. -/
def mainLoopPassTraced (env : Env) (s : Dev) : List Dev × Dev :=
  if s.command = CMD_WRITE ∨ s.command = CMD_WRITE_SLOW then
    let slow := decide (CMD_WRITE_SLOW = s.command)
    let s := { s with command := 0 }
    let s := { s with status := CMD_WRITE }
    let p1 := s
    let s := blinkLED s
    let r := if slow then writeDataSlow s else writeData env s
    let s := { r.2 with status := r.1 }
    ([p1, s], s)
  else if s.command = CMD_READ then
    let s := { s with command := 0 }
    let s := { s with status := CMD_READ }
    let p1 := s
    let s := blinkLED s
    let s := P1_DATA_IN s
    let s := readData env s
    let s := { s with status := 0 }
    ([p1, s], s)
  else if s.command = CMD_SET_UP then
    runSetUpTraced env { s with command := 0 }
  else if s.command = CMD_SET_SHREG then
    ([], setShiftRegsCtrl { s with command := 0 })
  else if s.command = CMD_SET_ADDR then
    ([], setAddr { s with command := 0 })
  else if s.command = CMD_SET_DATA then
    ([], setP1 s.data (P1_DATA_OUT { s with command := 0 }))
  else ([], s)

/-- The state `s` with the endpoint-0 buffer holding `e`, as after a request that the
USB interrupt has answered through that buffer. -/
def withEp0 (e : Nat → Nat) (s : Dev) : Dev := { s with Ep0Buffer := e }

/-- The events of a run in which the host also polls while the device is busy: an event
of `HostStep`, or a pass of the dispatch loop during which the USB interrupt answers
GET_DATA requests, the only requests that the host tool sends while an operation is
running (prog_pc.c:396-410).  Such a request writes the endpoint-0 buffer and nothing
else, and no routine of the pass reads or writes that buffer; `e` is its content at the
end of the pass. -/
inductive PollStep
  | quiet (e : HostStep)
  | polled (e : Nat → Nat)

/-- Effect of one event of a run with polls on the device. -/
def pollStep (env : Env) (s : Dev) : PollStep → Dev
  | PollStep.quiet e => deviceStep env s e
  | PollStep.polled e => withEp0 e (mainLoopPass env s)

/-- The device after power-up and a sequence of events, some of them passes during
which the host polled. -/
def deviceAfterPolls (env : Env) (steps : List PollStep) : Dev :=
  steps.foldl (pollStep env) (mainInit powerOn)

/-- The device after power-up, a WRITE request for address `0x1240` in bank 3 and its
data phase: a bulk write is pending, the dispatch loop has not run yet. -/
def writeArmed : Dev :=
  deviceAfterPolls envReady
    [PollStep.quiet (HostStep.request (usbRequest CMD_WRITE 0x1240 3)),
      PollStep.quiet (HostStep.dataPhase (usbRequest CMD_WRITE 0x1240 3) (fun i => i))]

/-! # Theorems

The bus driver in closed form. -/

theorem bitVal_bitOf (x k : Nat) : bitVal (bitOf x k) = x / 2 ^ k % 2 := by
  unfold bitVal bitOf
  rcases Nat.mod_two_eq_zero_or_one (x / 2 ^ k) with h | h <;> simp [h]

theorem bitOf_congr (x y j k : Nat) (h : x / 2 ^ j % 2 = y / 2 ^ k % 2) :
    bitOf x j = bitOf y k := by
  simp only [bitOf, h]

theorem sh8_eight (u b : Nat) : sh8 u b 8 = b % 256 := by
  simp only [sh8]; norm_num; omega

theorem sh8_first (u b : Nat) : (2 * u + bitVal (bitOf b 7)) % 256 = sh8 u b 1 := by
  simp only [sh8, bitVal_bitOf]; norm_num

theorem sh8_step (u b j : Nat) (hj : j < 7) :
    (2 * sh8 u b (j + 1) + bitVal (bitOf b (6 - j))) % 256 = sh8 u b (j + 2) := by
  interval_cases j <;> simp only [sh8, bitVal_bitOf] <;> norm_num <;> omega

theorem sh8_out (u b j : Nat) (hj : j < 7) :
    bitOf (sh8 u b (j + 1)) 7 = bitOf u (6 - j) := by
  apply bitOf_congr
  interval_cases j <;> simp only [sh8] <;> norm_num <;> omega

theorem u3_shift8 (u c : Nat) : ((((((((u / 2 % 128 + 128 * bitVal (bitOf c 0)) / 2 % 128 + 128 * bitVal (bitOf c 1)) / 2 % 128 + 128 * bitVal (bitOf c 2)) / 2 % 128 + 128 * bitVal (bitOf c 3)) / 2 % 128 + 128 * bitVal (bitOf c 4)) / 2 % 128 + 128 * bitVal (bitOf c 5)) / 2 % 128 + 128 * bitVal (bitOf c 6)) / 2 % 128 + 128 * bitVal (bitOf c 7)) = c % 256 := by
  simp only [bitVal_bitOf]
  have h0 : (u / 2 % 128 + 128 * (c / 2 ^ 0 % 2)) = u / 2 % 128 + 128 * (c % 2) := by
    norm_num
  have h1 : ((u / 2 % 128 + 128 * (c % 2)) / 2 % 128 + 128 * (c / 2 ^ 1 % 2)) = u / 4 % 64 + 64 * (c % 4) := by
    norm_num; omega
  have h2 : ((u / 4 % 64 + 64 * (c % 4)) / 2 % 128 + 128 * (c / 2 ^ 2 % 2)) = u / 8 % 32 + 32 * (c % 8) := by
    norm_num; omega
  have h3 : ((u / 8 % 32 + 32 * (c % 8)) / 2 % 128 + 128 * (c / 2 ^ 3 % 2)) = u / 16 % 16 + 16 * (c % 16) := by
    norm_num; omega
  have h4 : ((u / 16 % 16 + 16 * (c % 16)) / 2 % 128 + 128 * (c / 2 ^ 4 % 2)) = u / 32 % 8 + 8 * (c % 32) := by
    norm_num; omega
  have h5 : ((u / 32 % 8 + 8 * (c % 32)) / 2 % 128 + 128 * (c / 2 ^ 5 % 2)) = u / 64 % 4 + 4 * (c % 64) := by
    norm_num; omega
  have h6 : ((u / 64 % 4 + 4 * (c % 64)) / 2 % 128 + 128 * (c / 2 ^ 6 % 2)) = u / 128 % 2 + 2 * (c % 128) := by
    norm_num; omega
  have h7 : ((u / 128 % 2 + 2 * (c % 128)) / 2 % 128 + 128 * (c / 2 ^ 7 % 2)) = c % 256 := by
    norm_num; omega
  rw [h0, h1, h2, h3, h4, h5, h6, h7]

theorem ctrlBit_eq (b k : Nat) (s : Dev) : ctrlBit b k s =
    { s with
      SH2_CLK := true
      SDATA1 := bitOf b k
      U3 := s.U3 / 2 % 128 + 128 * bitVal (bitOf b k)
      pins := s.pins ++ ctrlBitTrace b k } := by
  simp [ctrlBit, setbSH2_CLK, clrSH2_CLK, setSDATA1, ctrlBitTrace]

theorem setShiftRegsCtrl_eq (s : Dev) : setShiftRegsCtrl s =
    { s with
      ST_CLK := true
      SH2_CLK := true
      SDATA1 := bitOf s.ctrl 7
      U3 := s.ctrl % 256
      Q1 := s.U1
      Q2 := s.U2
      Q3 := s.ctrl % 256
      weSeen := s.weSeen || (!s.FLCE && weLow (s.ctrl % 256))
      pins := s.pins ++ ctrlTrace s.ctrl } := by
  simp only [setShiftRegsCtrl, ctrlBit_eq, clrST_CLK, setbST_CLK, u3_shift8]
  simp [ctrlTrace]

theorem addrBit_eq (b k : Nat) (s : Dev) : addrBit b k s =
    { s with
      SH1_CLK := true
      SDATA1 := bitOf b k
      U1 := (2 * s.U1 + bitVal (bitOf b k)) % 256
      U2 := if sh1bLow s.Q3 then (2 * s.U2 + bitVal (bitOf s.U1 7)) % 256 else s.U2
      pins := s.pins ++ addrBitTrace b k } := by
  have h : s.U1 / 128 % 2 = bitVal (bitOf s.U1 7) := by
    simp only [bitVal_bitOf]; norm_num
  simp [addrBit, setbSH1_CLK, clrSH1_CLK, setSDATA1, addrBitTrace, h]

theorem addrByte_eq (b : Nat) (s : Dev) : addrByte b s =
    { s with
      SH1_CLK := true
      SDATA1 := bitOf b 0
      U1 := b % 256
      U2 := if sh1bLow s.Q3 then s.U1 % 256 else s.U2
      pins := s.pins ++ addrByteTrace b } := by
  have e1 := sh8_step s.U1 b 0 (by norm_num)
  have e2 := sh8_step s.U1 b 1 (by norm_num)
  have e3 := sh8_step s.U1 b 2 (by norm_num)
  have e4 := sh8_step s.U1 b 3 (by norm_num)
  have e5 := sh8_step s.U1 b 4 (by norm_num)
  have e6 := sh8_step s.U1 b 5 (by norm_num)
  have e7 := sh8_step s.U1 b 6 (by norm_num)
  have f1 := sh8_step s.U2 s.U1 0 (by norm_num)
  have f2 := sh8_step s.U2 s.U1 1 (by norm_num)
  have f3 := sh8_step s.U2 s.U1 2 (by norm_num)
  have f4 := sh8_step s.U2 s.U1 3 (by norm_num)
  have f5 := sh8_step s.U2 s.U1 4 (by norm_num)
  have f6 := sh8_step s.U2 s.U1 5 (by norm_num)
  have f7 := sh8_step s.U2 s.U1 6 (by norm_num)
  have o1 := sh8_out s.U1 b 0 (by norm_num)
  have o2 := sh8_out s.U1 b 1 (by norm_num)
  have o3 := sh8_out s.U1 b 2 (by norm_num)
  have o4 := sh8_out s.U1 b 3 (by norm_num)
  have o5 := sh8_out s.U1 b 4 (by norm_num)
  have o6 := sh8_out s.U1 b 5 (by norm_num)
  have o7 := sh8_out s.U1 b 6 (by norm_num)
  simp only [Nat.zero_add, Nat.reduceAdd, Nat.reduceSub, Nat.sub_zero]
    at e1 e2 e3 e4 e5 e6 e7 f1 f2 f3 f4 f5 f6 f7 o1 o2 o3 o4 o5 o6 o7
  simp only [addrByte, addrBit_eq]
  by_cases h : sh1bLow s.Q3 = true
  · simp only [h, if_true, sh8_first, e1, e2, e3, e4, e5, e6, e7, o1, o2, o3, o4, o5, o6, o7,
      f1, f2, f3, f4, f5, f6, f7, sh8_eight]
    simp [addrByteTrace]
  · simp only [h, sh8_first, e1, e2, e3, e4, e5, e6, e7, sh8_eight]
    simp [addrByteTrace]

theorem setShiftRegsAddr_eq (s : Dev) : setShiftRegsAddr s =
    { s with
      ST_CLK := true
      SH1_CLK := true
      SDATA1 := bitOf s.addrL 0
      U1 := s.addrL % 256
      U2 := if sh1bLow s.Q3 then s.addrH % 256 else s.U2
      Q1 := s.addrL % 256
      Q2 := if sh1bLow s.Q3 then s.addrH % 256 else s.U2
      Q3 := s.U3
      weSeen := s.weSeen || (!s.FLCE && weLow s.U3)
      pins := s.pins ++ addrTrace s.addrH s.addrL
      ops := s.ops ++ [ShiftOp.full s.Q3] } := by
  simp only [setShiftRegsAddr, addrByte_eq, clrST_CLK, setbST_CLK]
  by_cases h : sh1bLow s.Q3 = true <;> simp [h, addrTrace]

theorem setShiftRegsAddrLow_eq (s : Dev) : setShiftRegsAddrLow s =
    { s with
      ST_CLK := true
      SH1_CLK := true
      SDATA1 := bitOf s.addrL 0
      U1 := s.addrL % 256
      U2 := if sh1bLow s.Q3 then s.U1 % 256 else s.U2
      Q1 := s.addrL % 256
      Q2 := if sh1bLow s.Q3 then s.U1 % 256 else s.U2
      Q3 := s.U3
      weSeen := s.weSeen || (!s.FLCE && weLow s.U3)
      pins := s.pins ++ addrLowTrace s.addrL
      ops := s.ops ++ [ShiftOp.low s.Q3] } := by
  simp only [setShiftRegsAddrLow, addrByte_eq, clrST_CLK, setbST_CLK]
  by_cases h : sh1bLow s.Q3 = true <;> simp [h, addrLowTrace]

theorem shiftOneBit_eq (x : Bool) (s : Dev) : shiftOneBit x s =
    { s with
      ST_CLK := true
      SH1_CLK := true
      SDATA1 := x
      U1 := (2 * s.U1 + bitVal x) % 256
      U2 := if sh1bLow s.Q3 then (2 * s.U2 + s.U1 / 128 % 2) % 256 else s.U2
      Q1 := (2 * s.U1 + bitVal x) % 256
      Q2 := if sh1bLow s.Q3 then (2 * s.U2 + s.U1 / 128 % 2) % 256 else s.U2
      Q3 := s.U3
      weSeen := s.weSeen || (!s.FLCE && weLow s.U3)
      pins := s.pins ++ oneBitTrace x
      ops := s.ops ++ [ShiftOp.bit s.Q3] } := by
  simp [shiftOneBit, clrST_CLK, setbST_CLK, clrSH1_CLK, setbSH1_CLK, setSDATA1, oneBitTrace]

theorem cePulse_eq (d : Nat) (s : Dev) : cePulse d s =
    { s with
      FLCE := true
      P1 := d % 256
      weSeen := if s.FLCE then weLow s.Q3 else s.weSeen
      bus := s.bus ++ [BusEv.ce s.adr s.Q3 (d % 256) (if s.FLCE then weLow s.Q3 else s.weSeen)]
      pins := s.pins ++ [(Pin.FLCE, false), (Pin.FLCE, true)] } := by
  simp [cePulse, clrFLCE, setbFLCE, setP1, Dev.adr]

/-! ## Mask operations as arithmetic -/

theorem land_byte (c m : Nat) (hm : m < 256) : c &&& m = (c % 256) &&& m := by
  have h1 : (255 : Nat) &&& m = m := by
    interval_cases m <;> rfl
  have h2 : c &&& 255 = c % 256 := Nat.and_pow_two_sub_one_eq_mod c 8
  rw [← h2, Nat.land_assoc, h1]

set_option maxRecDepth 100000 in
theorem land_FD (c : Nat) : c &&& 0xFD = c % 256 - 2 * (c / 2 % 2) := by
  have h : ∀ x < 256, x &&& 0xFD = x - 2 * (x / 2 % 2) := by decide
  rw [land_byte c 0xFD (by norm_num), h _ (Nat.mod_lt _ (by norm_num))]
  omega

set_option maxRecDepth 100000 in
theorem land_F7 (c : Nat) : c &&& 0xF7 = c % 256 - 8 * (c / 8 % 2) := by
  have h : ∀ x < 256, x &&& 0xF7 = x - 8 * (x / 8 % 2) := by decide
  rw [land_byte c 0xF7 (by norm_num), h _ (Nat.mod_lt _ (by norm_num))]
  omega

set_option maxRecDepth 100000 in
theorem land_FB (c : Nat) : c &&& 0xFB = c % 256 - 4 * (c / 4 % 2) := by
  have h : ∀ x < 256, x &&& 0xFB = x - 4 * (x / 4 % 2) := by decide
  rw [land_byte c 0xFB (by norm_num), h _ (Nat.mod_lt _ (by norm_num))]
  omega

set_option maxRecDepth 100000 in
theorem land_FE (c : Nat) : c &&& 0xFE = c % 256 - c % 2 := by
  have h : ∀ x < 256, x &&& 0xFE = x - x % 2 := by decide
  rw [land_byte c 0xFE (by norm_num), h _ (Nat.mod_lt _ (by norm_num))]
  omega

theorem land_0F (c : Nat) : c &&& 0x0F = c % 16 :=
  Nat.and_pow_two_sub_one_eq_mod c 4

set_option maxRecDepth 100000 in
theorem lor_bit (x k : Nat) (hx : x < 256) (hk : k < 4) :
    x ||| 2 ^ k = x + 2 ^ k * (1 - x / 2 ^ k % 2) := by
  have h : ∀ k < 4, ∀ x < 256, x ||| 2 ^ k = x + 2 ^ k * (1 - x / 2 ^ k % 2) := by decide
  exact h k hk x hx

theorem lor_bank (x b : Nat) (hx : x < 16) : x ||| 16 * b = x + 16 * b := by
  rw [Nat.or_comm]
  have := Nat.mul_add_lt_is_or (i := 4) hx b
  simpa [Nat.add_comm] using this.symm

theorem ctlAddr_eq (c b : Nat) : ctlAddr c (16 * b) = c % 16 - 2 * (c / 2 % 2) + 16 * b := by
  unfold ctlAddr
  rw [land_0F, land_FD, lor_bank _ _ (Nat.mod_lt _ (by norm_num))]
  omega

theorem ctlAddr_zero (c : Nat) : ctlAddr c 0 = c % 16 - 2 * (c / 2 % 2) := by
  have := ctlAddr_eq c 0
  simpa using this

theorem sh1bLow_ctlAddr (c b : Nat) : sh1bLow (ctlAddr c (16 * b) % 256) = true := by
  simp only [sh1bLow, bitOf, ctlAddr_eq]
  simp only [Bool.not_eq_true', decide_eq_false_iff_not]
  norm_num
  omega

theorem weLow_land_F7 (c : Nat) : weLow ((c &&& 0xF7) % 256) = true := by
  simp only [weLow, bitOf, land_F7]
  simp only [Bool.not_eq_true', decide_eq_false_iff_not]
  norm_num
  omega

theorem ctlAddr_fold (c bank : Nat) : (c &&& 253 &&& 15 ||| bank) = ctlAddr c bank := rfl

theorem setAddr_eq (s : Dev) : setAddr s =
    { s with
      ctrl := ctlAddr s.ctrl s.addrBank
      ST_CLK := true
      SH1_CLK := true
      SH2_CLK := true
      SDATA1 := bitOf s.addrL 0
      U1 := s.addrL % 256
      U2 := if sh1bLow (ctlAddr s.ctrl s.addrBank % 256) then s.addrH % 256 else s.U2
      U3 := ctlAddr s.ctrl s.addrBank % 256
      Q1 := s.addrL % 256
      Q2 := if sh1bLow (ctlAddr s.ctrl s.addrBank % 256) then s.addrH % 256 else s.U2
      Q3 := ctlAddr s.ctrl s.addrBank % 256
      weSeen := s.weSeen || (!s.FLCE && weLow (ctlAddr s.ctrl s.addrBank % 256))
      pins := s.pins ++ ctrlTrace (ctlAddr s.ctrl s.addrBank) ++ addrTrace s.addrH s.addrL
      ops := s.ops ++ [ShiftOp.full (ctlAddr s.ctrl s.addrBank % 256)] } := by
  simp only [setAddr, setShiftRegsCtrl_eq, setShiftRegsAddr_eq, ctlAddr_fold]
  simp

theorem writeByte_nonzero (a d : Nat) (s : Dev) (ha : a ≠ 0) : writeByte a d s =
    writeByte 0 d { s with addrH := a / 256 % 256, addrL := a % 256, addrBank := 0 } := by
  simp [writeByte, ha]

theorem writeByte_zero (d : Nat) (s : Dev) (b : Nat) (hb : s.addrBank = 16 * b) :
    writeByte 0 d s =
    { s with
      ctrl := wrCtl s.ctrl (16 * b)
      P1 := d % 256
      ST_CLK := true
      SH1_CLK := true
      SH2_CLK := true
      SDATA1 := bitOf (wrCtl s.ctrl (16 * b)) 7
      FLCE := true
      U1 := s.addrL % 256
      U2 := s.addrH % 256
      U3 := wrCtl s.ctrl (16 * b) % 256
      Q1 := s.addrL % 256
      Q2 := s.addrH % 256
      Q3 := wrCtl s.ctrl (16 * b) % 256
      weSeen := true
      bus := s.bus ++ [BusEv.ce (s.addrH % 256 * 256 + s.addrL % 256)
                (wrCtl s.ctrl (16 * b) % 256) (d % 256) true]
      pins := s.pins ++ writeByteTrace s.ctrl (16 * b) s.addrH s.addrL
      ops := s.ops ++ [ShiftOp.full (ctlAddr s.ctrl (16 * b) % 256)] } := by
  simp only [writeByte, setAddr_eq, setShiftRegsCtrl_eq, clrFLCE, setbFLCE, setP1]
  simp [hb, sh1bLow_ctlAddr, weLow_land_F7, wrCtl, writeByteTrace, Dev.adr]

/-! ## Bulk write -/

theorem progByte_eq (i pl ph q : Nat) (t : Dev) (hq : t.Q3 = q) (hu : t.U3 = q)
    (hl : sh1bLow q = true) (hf : t.FLCE = true) :
    progByte i pl ph t =
    { t with
      addrH := ph
      addrL := pl
      P1 := t.rwBuffer i % 256
      ST_CLK := true
      SH1_CLK := true
      SDATA1 := bitOf pl 0
      FLCE := true
      U1 := pl % 256
      U2 := ph % 256
      Q1 := pl % 256
      Q2 := ph % 256
      Q3 := q
      weSeen := weLow q
      bus := t.bus ++ byteEvents q (weLow q) (ph % 256 * 256 + pl % 256) (t.rwBuffer i % 256)
      pins := t.pins ++ progByteTrace ph pl
      ops := t.ops ++ [ShiftOp.full q, ShiftOp.bit q, ShiftOp.bit q, ShiftOp.full q] } := by
  simp only [progByte, programPulse, unlockPulses, setShiftRegsAddr_eq, shiftOneBit_eq,
    cePulse_eq]
  simp [hq, hu, hl, hf, Dev.adr, bitVal, byteEvents, progByteTrace, cePulseTrace]

theorem waitReady_ne_zero (rdy : Nat → Bool) (c k0 : Nat) :
    waitReady rdy c k0 ≠ 0 ↔ ∃ k, k < c ∧ rdy (k0 + k) = true := by
  induction c generalizing k0 with
  | zero => simp [waitReady]
  | succ c ih =>
    simp only [waitReady]
    by_cases h : rdy k0 = true
    · simp only [h, if_true]
      constructor
      · intro _
        exact ⟨0, Nat.succ_pos c, by simpa using h⟩
      · intro _
        exact Nat.succ_ne_zero c
    · simp only [h]
      rw [if_neg (by simp), ih (k0 + 1)]
      constructor
      · rintro ⟨k, hk, hr⟩
        exact ⟨k + 1, by omega, by rw [← hr]; congr 1; omega⟩
      · rintro ⟨k, hk, hr⟩
        cases k with
        | zero => exact absurd (by simpa using hr) h
        | succ k => exact ⟨k, by omega, by rw [← hr]; congr 1; omega⟩

theorem waitReady_eq_zero (env : Env) (hist : List BusEv) :
    waitReady (env.ready hist) 0xFF 0 = 0 ↔ ¬ pollOk env hist := by
  have := waitReady_ne_zero (env.ready hist) 0xFF 0
  simp only [Nat.zero_add] at this
  unfold pollOk
  rw [← this]
  simp

theorem progEvents_zero (q : Nat) (w : Bool) (B : Nat → Nat) (h l i : Nat) :
    progEvents q w B h l i 0 = [] := by
  simp [progEvents]

theorem progEvents_succ (q : Nat) (w : Bool) (B : Nat → Nat) (h l i n : Nat) :
    progEvents q w B h l i (n + 1) =
      byteEvents q w (chunkAddr h l i) (B i % 256) ++ progEvents q w B h l (i + 1) n := by
  simp [progEvents, List.range'_succ]

theorem setShiftRegsAddr_bus (s : Dev) : (setShiftRegsAddr s).bus = s.bus := by
  rw [setShiftRegsAddr_eq]

theorem writeDataLoop_spec (env : Env) (q h l : Nat) (B : Nat → Nat)
    (hl : sh1bLow q = true) :
    ∀ (n i pl : Nat) (t : Dev), pl % 256 = (l + i) % 256 →
      t.Q3 = q → t.U3 = q → t.FLCE = true → t.rwBuffer = B →
      (∀ j, j ≤ n →
        (∀ j', j' < j → pollOk env (t.bus ++ progEvents q (weLow q) B h l i j')) →
        ¬ pollOk env (t.bus ++ progEvents q (weLow q) B h l i j) →
        (writeDataLoop env n i pl h t).1 = 1 ∧
        (writeDataLoop env n i pl h t).2.bus
          = t.bus ++ progEvents q (weLow q) B h l i j) ∧
      ((∀ j, j ≤ n → pollOk env (t.bus ++ progEvents q (weLow q) B h l i j)) →
        (writeDataLoop env n i pl h t).1 = 0 ∧
        (writeDataLoop env n i pl h t).2.bus
          = t.bus ++ progEvents q (weLow q) B h l i n) := by
  intro n
  induction n with
  | zero =>
    intro i pl t _ _ _ _ _
    constructor
    · intro j hj _ hbad
      have hj0 : j = 0 := by omega
      subst hj0
      simp only [progEvents_zero, List.append_nil] at hbad ⊢
      simp [writeDataLoop, (waitReady_eq_zero env t.bus).2 hbad]
    · intro hall
      have h0 := hall 0 (le_refl 0)
      simp only [progEvents_zero, List.append_nil] at h0 ⊢
      have : ¬ waitReady (env.ready t.bus) 0xFF 0 = 0 := by
        rw [waitReady_eq_zero]; exact not_not.2 h0
      simp [writeDataLoop, this]
  | succ n ih =>
    intro i pl t hpl hq hu hf hB
    have hstep : ((pl + 1) % 256) % 256 = (l + (i + 1)) % 256 := by omega
    have hbody := progByte_eq i pl h q t hq hu hl hf
    have hev : (progByte i pl h t).bus
        = t.bus ++ byteEvents q (weLow q) (chunkAddr h l i) (B i % 256) := by
      rw [hbody]; simp [chunkAddr, hB, hpl]
    have IH := ih (i + 1) ((pl + 1) % 256) (progByte i pl h t) hstep
      (by rw [hbody]) (by rw [hbody]; exact hu) (by rw [hbody]) (by rw [hbody]; exact hB)
    rw [hev] at IH
    have hloop : ¬ waitReady (env.ready t.bus) 0xFF 0 = 0 →
        writeDataLoop env (n + 1) i pl h t
          = writeDataLoop env n (i + 1) ((pl + 1) % 256) h (progByte i pl h t) := by
      intro hz
      simp only [writeDataLoop, setShiftRegsAddr_bus, hz, if_false]
      rfl
    constructor
    · intro j hj hprev hbad
      cases j with
      | zero =>
        simp only [progEvents_zero, List.append_nil] at hbad ⊢
        have hz := (waitReady_eq_zero env t.bus).2 hbad
        simp [writeDataLoop, setShiftRegsAddr_bus, hz]
      | succ j =>
        have h0 := hprev 0 (Nat.succ_pos j)
        simp only [progEvents_zero, List.append_nil] at h0
        have hz : ¬ waitReady (env.ready t.bus) 0xFF 0 = 0 := by
          rw [waitReady_eq_zero]; exact not_not.2 h0
        rw [hloop hz]
        have := IH.1 j (by omega)
          (by
            intro j' hj'
            have := hprev (j' + 1) (by omega)
            simpa [progEvents_succ, List.append_assoc] using this)
          (by simpa [progEvents_succ, List.append_assoc] using hbad)
        simpa [progEvents_succ, List.append_assoc] using this
    · intro hall
      have h0 := hall 0 (Nat.zero_le _)
      simp only [progEvents_zero, List.append_nil] at h0
      have hz : ¬ waitReady (env.ready t.bus) 0xFF 0 = 0 := by
        rw [waitReady_eq_zero]; exact not_not.2 h0
      rw [hloop hz]
      have := IH.2
        (by
          intro j hj
          have := hall (j + 1) (by omega)
          simpa [progEvents_succ, List.append_assoc] using this)
      simpa [progEvents_succ, List.append_assoc] using this

/-- The state in which `writeData` and `writeDataSlow` enter their loop. -/
theorem writeData_unfold (env : Env) (s : Dev) :
    writeData env s = writeDataLoop env 64 0 s.addrL s.addrH
      (setShiftRegsCtrl { s with P1_DIR_PU := 0xFF, ctrl := ctlAddr s.ctrl s.addrBank }) := by
  rfl

theorem writeData_spec (env : Env) (s : Dev) (b : Nat) (hb : s.addrBank = 16 * b)
    (hf : s.FLCE = true) :
    (∀ j, j ≤ 64 →
      (∀ j', j' < j → pollOk env (s.bus ++ progEvents (ctlAddr s.ctrl (16 * b) % 256)
          (weLow (ctlAddr s.ctrl (16 * b) % 256)) s.rwBuffer s.addrH s.addrL 0 j')) →
      ¬ pollOk env (s.bus ++ progEvents (ctlAddr s.ctrl (16 * b) % 256)
          (weLow (ctlAddr s.ctrl (16 * b) % 256)) s.rwBuffer s.addrH s.addrL 0 j) →
      (writeData env s).1 = 1 ∧
      (writeData env s).2.bus = s.bus ++ progEvents (ctlAddr s.ctrl (16 * b) % 256)
          (weLow (ctlAddr s.ctrl (16 * b) % 256)) s.rwBuffer s.addrH s.addrL 0 j) ∧
    ((∀ j, j ≤ 64 → pollOk env (s.bus ++ progEvents (ctlAddr s.ctrl (16 * b) % 256)
          (weLow (ctlAddr s.ctrl (16 * b) % 256)) s.rwBuffer s.addrH s.addrL 0 j)) →
      (writeData env s).1 = 0 ∧
      (writeData env s).2.bus = s.bus ++ progEvents (ctlAddr s.ctrl (16 * b) % 256)
          (weLow (ctlAddr s.ctrl (16 * b) % 256)) s.rwBuffer s.addrH s.addrL 0 64) := by
  have h := writeDataLoop_spec env (ctlAddr s.ctrl (16 * b) % 256) s.addrH s.addrL s.rwBuffer
    (sh1bLow_ctlAddr s.ctrl b) 64 0 s.addrL
    (setShiftRegsCtrl { s with P1_DIR_PU := 0xFF, ctrl := ctlAddr s.ctrl s.addrBank })
    (by simp) (by rw [setShiftRegsCtrl_eq]; simp [hb]) (by rw [setShiftRegsCtrl_eq]; simp [hb])
    (by rw [setShiftRegsCtrl_eq]; simp [hf]) (by rw [setShiftRegsCtrl_eq])
  have hbus : (setShiftRegsCtrl
      { s with P1_DIR_PU := 0xFF, ctrl := ctlAddr s.ctrl s.addrBank }).bus = s.bus := by
    rw [setShiftRegsCtrl_eq]
  rw [hbus] at h
  rw [writeData_unfold]
  exact h

theorem pollOk_of_ready (env : Env) (hr : ∀ hist k, env.ready hist k = true)
    (hist : List BusEv) : pollOk env hist :=
  ⟨0, by norm_num, hr hist 0⟩

theorem writeDataLoop_ready (env : Env) (hr : ∀ hist k, env.ready hist k = true) :
    ∀ (n i pl ph : Nat) (t : Dev),
      writeDataLoop env n i pl ph t = (0, writeDataSlowLoop n i pl ph t) := by
  intro n
  induction n with
  | zero =>
    intro i pl ph t
    have : ¬ waitReady (env.ready t.bus) 0xFF 0 = 0 := by
      rw [waitReady_eq_zero]; exact not_not.2 (pollOk_of_ready env hr _)
    simp [writeDataLoop, writeDataSlowLoop, this]
  | succ n ih =>
    intro i pl ph t
    have : ¬ waitReady (env.ready (setShiftRegsAddr { t with addrH := 0xA, addrL := 0xAA }).bus)
        0xFF 0 = 0 := by
      rw [waitReady_eq_zero]; exact not_not.2 (pollOk_of_ready env hr _)
    simp only [writeDataLoop, writeDataSlowLoop, this, if_false]
    exact ih _ _ _ _

theorem writeData_ready (env : Env) (hr : ∀ hist k, env.ready hist k = true) (s : Dev) :
    writeData env s = writeDataSlow s := by
  simp only [writeData, writeDataSlow, writeDataLoop_ready env hr]

theorem writeData_pollHist (env : Env) (s : Dev) (b : Nat) (hb : s.addrBank = 16 * b)
    (hf : s.FLCE = true) :
    (∀ j, j ≤ 64 → (∀ j', j' < j → pollOk env (pollHist s j')) →
      ¬ pollOk env (pollHist s j) →
      (writeData env s).1 = 1 ∧ (writeData env s).2.bus = pollHist s j) ∧
    ((∀ j, j ≤ 64 → pollOk env (pollHist s j)) →
      (writeData env s).1 = 0 ∧ (writeData env s).2.bus = pollHist s 64) := by
  have h := writeData_spec env s b hb hf
  simp only [pollHist, hb]
  exact h

theorem progEvents_target (q : Nat) (w : Bool) (B : Nat → Nat) (h l : Nat) :
    ∀ (n i k : Nat), k < n →
      (progEvents q w B h l i n)[4 * k + 3]? =
        some (BusEv.ce (chunkAddr h l (i + k)) q (B (i + k) % 256) w) := by
  intro n
  induction n with
  | zero => intro i k hk; omega
  | succ n ih =>
    intro i k hk
    rw [progEvents_succ]
    cases k with
    | zero => simp [byteEvents]
    | succ k =>
      have hlen : (byteEvents q w (chunkAddr h l i) (B i % 256)).length = 4 := rfl
      rw [List.getElem?_append_right (by rw [hlen]; omega), hlen]
      have e : 4 * (k + 1) + 3 - 4 = 4 * k + 3 := by omega
      have e2 : i + 1 + k = i + (k + 1) := by omega
      rw [e, ih (i + 1) k (by omega), e2]

theorem progEvents_length (q : Nat) (w : Bool) (B : Nat → Nat) (h l : Nat) :
    ∀ (n i : Nat), (progEvents q w B h l i n).length = 4 * n := by
  intro n
  induction n with
  | zero => intro i; simp [progEvents_zero]
  | succ n ih =>
    intro i
    rw [progEvents_succ, List.length_append, ih]
    simp [byteEvents]
    omega

theorem blinkLED_frame (s : Dev) :
    (blinkLED s).addrBank = s.addrBank ∧ (blinkLED s).addrH = s.addrH ∧
    (blinkLED s).addrL = s.addrL ∧ (blinkLED s).FLCE = s.FLCE ∧
    (blinkLED s).bus = s.bus ∧ (blinkLED s).rwBuffer = s.rwBuffer ∧
    (blinkLED s).data = s.data ∧ (blinkLED s).P1_DIR_PU = s.P1_DIR_PU := by
  by_cases h0 : s.addrH % 64 = 0 <;> by_cases h1 : s.addrH % 64 = 0x20 <;>
    simp [blinkLED, h0, h1, setShiftRegsCtrl_eq]

theorem mainLoopPass_write (env : Env) (s : Dev) (hc : s.command = CMD_WRITE) :
    mainLoopPass env s =
      { (writeData env (writeEntry s)).2 with status := (writeData env (writeEntry s)).1 } := by
  simp [mainLoopPass, hc, writeEntry, CMD_WRITE, CMD_WRITE_SLOW]

theorem mainLoopPass_write_fail (env : Env) (s : Dev) (b j : Nat)
    (hc : s.command = CMD_WRITE) (hb : s.addrBank = 16 * b) (hf : s.FLCE = true)
    (hj : j ≤ 64) (hprev : ∀ j', j' < j → pollOk env (pollHist (writeEntry s) j'))
    (hbad : ¬ pollOk env (pollHist (writeEntry s) j)) :
    (mainLoopPass env s).status = 1 ∧
    (mainLoopPass env s).bus = pollHist (writeEntry s) j ∧
    (handleVendorControlTransfer reqGetData (mainLoopPass env s)).1 = some 2 ∧
    (handleVendorControlTransfer reqGetData (mainLoopPass env s)).2.Ep0Buffer 1 = 1 := by
  have hfr := blinkLED_frame { s with command := 0, status := CMD_WRITE }
  have h := (writeData_pollHist env (writeEntry s) b
    (by rw [writeEntry, hfr.1]; exact hb)
    (by rw [writeEntry, hfr.2.2.2.1]; exact hf)).1 j hj hprev hbad
  rw [mainLoopPass_write env s hc]
  refine ⟨h.1, h.2, ?_, ?_⟩
  · simp [handleVendorControlTransfer, reqGetData, CMD_GET_DATA, CMD_SET_SHREG, CMD_SET_ADDR,
      CMD_SET_DATA]
  · simp [handleVendorControlTransfer, reqGetData, CMD_GET_DATA, CMD_SET_SHREG, CMD_SET_ADDR,
      CMD_SET_DATA, h.1]

theorem pollOk_envStuck (hist : List BusEv) : ¬ pollOk envStuck hist := by
  rintro ⟨k, _, hk⟩
  simp [envStuck] at hk

theorem writeData_bus_ready (env : Env) (s : Dev) (b : Nat)
    (hr : ∀ hist k, env.ready hist k = true) (hb : s.addrBank = 16 * b)
    (hf : s.FLCE = true) :
    (writeData env s).1 = 0 ∧ (writeData env s).2.bus = pollHist s 64 :=
  (writeData_pollHist env s b hb hf).2 (fun _ _ => pollOk_of_ready env hr _)

theorem pollHist_explicit (s : Dev) (b : Nat) (hb : s.addrBank = 16 * b) :
    pollHist s 64 = s.bus ++ (List.range 64).flatMap (fun i =>
      [BusEv.ce 0x0AAA (ctlAddr s.ctrl (16 * b) % 256) 0xAA (weLow (ctlAddr s.ctrl (16 * b) % 256)),
       BusEv.ce 0x1555 (ctlAddr s.ctrl (16 * b) % 256) 0x55 (weLow (ctlAddr s.ctrl (16 * b) % 256)),
       BusEv.ce 0x2AAA (ctlAddr s.ctrl (16 * b) % 256) 0xA0 (weLow (ctlAddr s.ctrl (16 * b) % 256)),
       BusEv.ce (s.addrH % 256 * 256 + (s.addrL + i) % 256) (ctlAddr s.ctrl (16 * b) % 256)
         (s.rwBuffer i % 256) (weLow (ctlAddr s.ctrl (16 * b) % 256))]) := by
  simp only [pollHist, progEvents, hb, List.range_eq_range', byteEvents, chunkAddr]

/-- Claim C1 (amended): with READY always high, the bank register holding a bank nibble
and the chip deselected on entry, `writeData` and likewise `writeDataSlow` issue for each
of the 64 bytes, in order, exactly four chip-enable pulses: data 0xAA while the 16-bit
address chain holds 0x0AAA, data 0x55 while it holds 0x1555, data 0xA0 while it holds
0x2AAA, then the target byte at the target address.  The chain values of the second and
third pulse are not 0x555 and 0xAAA; only their low 12 bits are. -/
theorem writeData_unlock_sequence (env : Env) (s : Dev) (b : Nat)
    (hr : ∀ hist k, env.ready hist k = true) (hb : s.addrBank = 16 * b)
    (hf : s.FLCE = true) :
    (writeData env s).2.bus = s.bus ++ (List.range 64).flatMap (fun i =>
      [BusEv.ce 0x0AAA (ctlAddr s.ctrl (16 * b) % 256) 0xAA (weLow (ctlAddr s.ctrl (16 * b) % 256)),
       BusEv.ce 0x1555 (ctlAddr s.ctrl (16 * b) % 256) 0x55 (weLow (ctlAddr s.ctrl (16 * b) % 256)),
       BusEv.ce 0x2AAA (ctlAddr s.ctrl (16 * b) % 256) 0xA0 (weLow (ctlAddr s.ctrl (16 * b) % 256)),
       BusEv.ce (s.addrH % 256 * 256 + (s.addrL + i) % 256) (ctlAddr s.ctrl (16 * b) % 256)
         (s.rwBuffer i % 256) (weLow (ctlAddr s.ctrl (16 * b) % 256))]) ∧
    (writeDataSlow s).2.bus = (writeData env s).2.bus ∧
    0x1555 % 4096 = 0x555 ∧ 0x2AAA % 4096 = 0xAAA := by
  refine ⟨?_, ?_, by norm_num, by norm_num⟩
  · rw [(writeData_bus_ready env s b hr hb hf).2, pollHist_explicit s b hb]
  · rw [writeData_ready env hr s]

/-- Witness for C1 (amended): the power-on state with READY always high. -/
theorem writeData_unlock_sequence_witness :
    (∀ hist k, envReady.ready hist k = true) ∧ powerOn.addrBank = 16 * 0 ∧
    powerOn.FLCE = true ∧
    (writeData envReady powerOn).2.bus = powerOn.bus ++ (List.range 64).flatMap (fun i =>
      [BusEv.ce 0x0AAA (ctlAddr powerOn.ctrl (16 * 0) % 256) 0xAA
         (weLow (ctlAddr powerOn.ctrl (16 * 0) % 256)),
       BusEv.ce 0x1555 (ctlAddr powerOn.ctrl (16 * 0) % 256) 0x55
         (weLow (ctlAddr powerOn.ctrl (16 * 0) % 256)),
       BusEv.ce 0x2AAA (ctlAddr powerOn.ctrl (16 * 0) % 256) 0xA0
         (weLow (ctlAddr powerOn.ctrl (16 * 0) % 256)),
       BusEv.ce (powerOn.addrH % 256 * 256 + (powerOn.addrL + i) % 256)
         (ctlAddr powerOn.ctrl (16 * 0) % 256)
         (powerOn.rwBuffer i % 256) (weLow (ctlAddr powerOn.ctrl (16 * 0) % 256))]) ∧
    (writeDataSlow powerOn).2.bus = (writeData envReady powerOn).2.bus ∧
    0x1555 % 4096 = 0x555 ∧ 0x2AAA % 4096 = 0xAAA :=
  ⟨fun _ _ => rfl, rfl, rfl,
    writeData_unlock_sequence envReady powerOn 0 (fun _ _ => rfl) rfl rfl⟩

/-- Counterexample to C1 as stated: from the power-on state with READY always high the
bus log of `writeData` is not the sequence with the address chain at 0xAAA, 0x555,
0xAAA for the unlock pulses, whatever control byte and write flag the pulses carry: the
second pulse is issued while the chain holds 0x1555. -/
theorem writeData_unlock_stated_counterexample :
    ¬ ∃ (q : Nat) (w : Bool),
      (writeData envReady powerOn).2.bus = powerOn.bus ++ (List.range 64).flatMap (fun i =>
        [BusEv.ce 0xAAA q 0xAA w, BusEv.ce 0x555 q 0x55 w, BusEv.ce 0xAAA q 0xA0 w,
         BusEv.ce (powerOn.addrH % 256 * 256 + (powerOn.addrL + i) % 256) q
           (powerOn.rwBuffer i % 256) w]) := by
  rintro ⟨q, w, h⟩
  rw [(writeData_bus_ready envReady powerOn 0 (fun _ _ => rfl) rfl rfl).2,
    pollHist_explicit powerOn 0 rfl] at h
  have e : List.range 64 = 0 :: List.range' 1 63 := by rfl
  rw [e] at h
  simp only [List.flatMap_cons] at h
  have h1 := congrArg (fun l => l[1]?) h
  simp [powerOn] at h1

/-- Claim C2: with READY always high and the chip deselected on entry, for a start
address with bank nibble `b`, high byte `h` and low byte `l`, the `i`-th target pulse of
`writeData` (the fourth pulse of byte `i`) carries `rwBuffer[i]` while the address
outputs hold `h*256 + ((l+i) mod 256)` and control bits 7..4 hold `b`; when `l <= 192`
this is the 20-bit address `A + i` with `A = b*65536 + h*256 + l`. -/
theorem writeData_target_pulses (env : Env) (s : Dev) (b h l : Nat)
    (hr : ∀ hist k, env.ready hist k = true) (hf : s.FLCE = true)
    (hb : s.addrBank = 16 * b) (hbn : b < 16)
    (hh : s.addrH = h) (hhn : h < 256) (hl : s.addrL = l) (hln : l < 256) :
    ∀ i, i < 64 →
      (writeData env s).2.bus[s.bus.length + (4 * i + 3)]? =
        some (BusEv.ce (h * 256 + (l + i) % 256) (ctlAddr s.ctrl (16 * b) % 256)
          (s.rwBuffer i % 256) (weLow (ctlAddr s.ctrl (16 * b) % 256))) ∧
      ctlAddr s.ctrl (16 * b) % 256 / 16 = b ∧
      (l ≤ 192 → ctlAddr s.ctrl (16 * b) % 256 / 16 * 65536 + (h * 256 + (l + i) % 256)
        = b * 65536 + h * 256 + l + i) := by
  intro i hi
  have hq : ctlAddr s.ctrl (16 * b) % 256 / 16 = b := by
    rw [ctlAddr_eq]; omega
  refine ⟨?_, hq, ?_⟩
  · rw [(writeData_bus_ready env s b hr hb hf).2, pollHist,
      List.getElem?_append_right (by omega)]
    have e : s.bus.length + (4 * i + 3) - s.bus.length = 4 * i + 3 := by omega
    rw [e, progEvents_target _ _ _ _ _ 64 0 i hi, hb, hh, hl]
    simp [chunkAddr, Nat.mod_eq_of_lt hhn]
  · intro hl192
    rw [hq]
    omega

/-- Witness for C2: the power-on state (bank 0, address 0) with READY always high. -/
theorem writeData_target_pulses_witness :
    (∀ hist k, envReady.ready hist k = true) ∧ powerOn.FLCE = true ∧
    powerOn.addrBank = 16 * 0 ∧ 0 < 16 ∧ powerOn.addrH = 0 ∧ 0 < 256 ∧
    powerOn.addrL = 0 ∧ 0 < 256 ∧
    ∀ i, i < 64 →
      (writeData envReady powerOn).2.bus[powerOn.bus.length + (4 * i + 3)]? =
        some (BusEv.ce (0 * 256 + (0 + i) % 256) (ctlAddr powerOn.ctrl (16 * 0) % 256)
          (powerOn.rwBuffer i % 256) (weLow (ctlAddr powerOn.ctrl (16 * 0) % 256))) ∧
      ctlAddr powerOn.ctrl (16 * 0) % 256 / 16 = 0 ∧
      (0 ≤ 192 → ctlAddr powerOn.ctrl (16 * 0) % 256 / 16 * 65536 + (0 * 256 + (0 + i) % 256)
        = 0 * 65536 + 0 * 256 + 0 + i) :=
  ⟨fun _ _ => rfl, rfl, rfl, by norm_num, rfl, by norm_num, rfl, by norm_num,
    writeData_target_pulses envReady powerOn 0 0 0 (fun _ _ => rfl) rfl rfl (by norm_num)
      rfl (by norm_num) rfl (by norm_num)⟩

/-- Claim C6: `writeData` returns 0 exactly when at each of its 65 poll points (before
each of the 64 bytes and after the last one) READY is sampled high within the first 255
samples; otherwise it returns non-zero at the first poll point `j` that fails, and the
bus then carries the complete four-pulse sequences of the bytes `0 .. j-1` and nothing
after them. -/
theorem writeData_return_value (env : Env) (s : Dev) (b : Nat)
    (hb : s.addrBank = 16 * b) (hf : s.FLCE = true) :
    ((writeData env s).1 = 0 ↔ ∀ j, j ≤ 64 → pollOk env (pollHist s j)) ∧
    (∀ j, j ≤ 64 → (∀ j', j' < j → pollOk env (pollHist s j')) →
      ¬ pollOk env (pollHist s j) →
      (writeData env s).1 ≠ 0 ∧ (writeData env s).2.bus = pollHist s j) := by
  have h := writeData_pollHist env s b hb hf
  constructor
  · constructor
    · intro h0
      by_contra hne
      have hex : ∃ j, j ≤ 64 ∧ ¬ pollOk env (pollHist s j) := by
        by_contra hno
        apply hne
        intro j hj
        by_contra hp
        exact hno ⟨j, hj, hp⟩
      classical
      have hmin := Nat.find_spec hex
      have hlt : ∀ j', j' < Nat.find hex → pollOk env (pollHist s j') := by
        intro j' hj'
        have := Nat.find_min hex hj'
        by_contra hp
        exact this ⟨by omega, hp⟩
      have := (h.1 (Nat.find hex) hmin.1 hlt hmin.2).1
      omega
    · intro hall
      exact (h.2 hall).1
  · intro j hj hprev hbad
    have := h.1 j hj hprev hbad
    exact ⟨by omega, this.2⟩

/-- Witness for C6: the power-on state. -/
theorem writeData_return_value_witness :
    powerOn.addrBank = 16 * 0 ∧ powerOn.FLCE = true ∧
    (((writeData envStuck powerOn).1 = 0 ↔ ∀ j, j ≤ 64 → pollOk envStuck (pollHist powerOn j)) ∧
    (∀ j, j ≤ 64 → (∀ j', j' < j → pollOk envStuck (pollHist powerOn j')) →
      ¬ pollOk envStuck (pollHist powerOn j) →
      (writeData envStuck powerOn).1 ≠ 0 ∧ (writeData envStuck powerOn).2.bus = pollHist powerOn j)) :=
  ⟨rfl, rfl, writeData_return_value envStuck powerOn 0 rfl rfl⟩

/-- Claim C5 (amended): when during a ready-polled bulk write READY is not seen high
within the spin bound at some poll point, the write stops there and the status that the
dispatch loop stores, and that GET_DATA then returns, is the return value 1 of
`writeData` (the number of STATUS_ERASE), not STATUS_PROGRAM_FAIL = 4. -/
theorem dispatch_write_failure_status (env : Env) (s : Dev) (b j : Nat)
    (hc : s.command = CMD_WRITE) (hb : s.addrBank = 16 * b) (hf : s.FLCE = true)
    (hj : j ≤ 64) (hprev : ∀ j', j' < j → pollOk env (pollHist (writeEntry s) j'))
    (hbad : ¬ pollOk env (pollHist (writeEntry s) j)) :
    (mainLoopPass env s).status = 1 ∧
    (mainLoopPass env s).bus = pollHist (writeEntry s) j ∧
    (handleVendorControlTransfer reqGetData (mainLoopPass env s)).1 = some 2 ∧
    (handleVendorControlTransfer reqGetData (mainLoopPass env s)).2.Ep0Buffer 1 = 1 :=
  mainLoopPass_write_fail env s b j hc hb hf hj hprev hbad

/-- Witness for C5 (amended): a pending write at power-on with READY stuck low fails at
the first poll point. -/
theorem dispatch_write_failure_status_witness :
    ({ powerOn with command := CMD_WRITE } : Dev).command = CMD_WRITE ∧
    ({ powerOn with command := CMD_WRITE } : Dev).addrBank = 16 * 0 ∧
    ({ powerOn with command := CMD_WRITE } : Dev).FLCE = true ∧ 0 ≤ 64 ∧
    (∀ j', j' < 0 →
      pollOk envStuck (pollHist (writeEntry { powerOn with command := CMD_WRITE }) j')) ∧
    ¬ pollOk envStuck (pollHist (writeEntry { powerOn with command := CMD_WRITE }) 0) ∧
    (mainLoopPass envStuck { powerOn with command := CMD_WRITE }).status = 1 ∧
    (mainLoopPass envStuck { powerOn with command := CMD_WRITE }).bus
      = pollHist (writeEntry { powerOn with command := CMD_WRITE }) 0 ∧
    (handleVendorControlTransfer reqGetData
      (mainLoopPass envStuck { powerOn with command := CMD_WRITE })).1 = some 2 ∧
    (handleVendorControlTransfer reqGetData
      (mainLoopPass envStuck { powerOn with command := CMD_WRITE })).2.Ep0Buffer 1 = 1 :=
  ⟨rfl, rfl, rfl, by norm_num, fun _ h => absurd h (Nat.not_lt_zero _), pollOk_envStuck _,
    dispatch_write_failure_status envStuck { powerOn with command := CMD_WRITE } 0 0
      rfl rfl rfl (by norm_num) (fun _ h => absurd h (Nat.not_lt_zero _)) (pollOk_envStuck _)⟩

/-- Counterexample to C5 as stated: with READY stuck low, a pending write at power-on
leaves a status that is not STATUS_PROGRAM_FAIL. -/
theorem dispatch_write_failure_counterexample :
    (mainLoopPass envStuck { powerOn with command := CMD_WRITE }).status
      ≠ STATUS_PROGRAM_FAIL := by
  rw [(mainLoopPass_write_fail envStuck { powerOn with command := CMD_WRITE } 0 0
      rfl rfl rfl (by norm_num) (fun _ h => absurd h (Nat.not_lt_zero _))
      (pollOk_envStuck _)).1]
  decide

/-! ## Bulk read -/

theorem readStep_eq (env : Env) (i q h a : Nat) (t : Dev) (hq : t.Q3 = q) (hu : t.U3 = q)
    (hs : sh1bLow q = false) (hf : t.FLCE = true) (h2 : t.Q2 = h) (hu2 : t.U2 = h)
    (h1 : t.Q1 = a) :
    readStep env i t =
    { t with
      rwBuffer := Function.update t.rwBuffer i
        (sampleAt env t.P1_DIR_PU t.P1 q (h * 256 + a) t.bus)
      addrL := (t.addrL + 1) % 256
      ST_CLK := true
      SH1_CLK := true
      SDATA1 := bitOf ((t.addrL + 1) % 256) 0
      FLCE := true
      U1 := (t.addrL + 1) % 256
      Q1 := (t.addrL + 1) % 256
      weSeen := weLow q
      bus := t.bus ++ [BusEv.rd (h * 256 + a) q
                (sampleAt env t.P1_DIR_PU t.P1 q (h * 256 + a) t.bus),
              BusEv.ce (h * 256 + a) q t.P1 (weLow q)]
      pins := t.pins ++ readStepTrace ((t.addrL + 1) % 256)
      ops := t.ops ++ [ShiftOp.low q] } := by
  simp only [readStep, setShiftRegsAddrLow_eq, clrFLCE, setbFLCE, logRead, portValue]
  simp [hq, hu, hs, hf, h2, hu2, h1, Dev.adr, sampleAt, readStepTrace, cePulseTrace]

theorem readHist_shift (env : Env) (dir p1 q : Nat) (w : Bool) (h l : Nat)
    (hist0 : List BusEv) (i0 : Nat) :
    ∀ n, readHist env dir p1 q w h l hist0 i0 (n + 1) =
      readHist env dir p1 q w h l (readHist env dir p1 q w h l hist0 i0 1) (i0 + 1) n := by
  intro n
  induction n with
  | zero => rfl
  | succ n ih =>
    have e : i0 + (n + 1) = i0 + 1 + n := by omega
    rw [readHist, ih, e]
    rfl

theorem readDataLoop_succ (env : Env) (n i : Nat) (t : Dev) :
    readDataLoop env (n + 1) i t = readDataLoop env n (i + 1) (readStep env i t) := rfl

theorem readDataLoop_spec (env : Env) (dir p1 q h l : Nat) (hs : sh1bLow q = false)
    (hh : h < 256) :
    ∀ (n i : Nat) (t : Dev), t.Q3 = q → t.U3 = q → t.FLCE = true → t.Q2 = h → t.U2 = h →
      t.Q1 = (l + i) % 256 → t.addrL % 256 = (l + i) % 256 →
      t.P1_DIR_PU = dir → t.P1 = p1 →
      (readDataLoop env n i t).bus = readHist env dir p1 q (weLow q) h l t.bus i n ∧
      (∀ j, j < i → (readDataLoop env n i t).rwBuffer j = t.rwBuffer j) ∧
      (∀ k, k < n → (readDataLoop env n i t).rwBuffer (i + k) =
        sampleAt env dir p1 q (chunkAddr h l (i + k))
          (readHist env dir p1 q (weLow q) h l t.bus i k)) := by
  intro n
  induction n with
  | zero =>
    intro i t _ _ _ _ _ _ _ _ _
    refine ⟨rfl, fun _ _ => rfl, fun k hk => absurd hk (Nat.not_lt_zero _)⟩
  | succ n ih =>
    intro i t hq hu hf h2 hu2 h1 ha hd hp
    have hstep := readStep_eq env i q h ((l + i) % 256) t hq hu hs hf h2 hu2 h1
    have hca : h * 256 + (l + i) % 256 = chunkAddr h l i := by
      simp [chunkAddr, Nat.mod_eq_of_lt hh]
    rw [hca, hd, hp] at hstep
    have hbus : (readStep env i t).bus = readHist env dir p1 q (weLow q) h l t.bus i 1 := by
      rw [hstep]; simp [readHist]
    have IH := ih (i + 1) (readStep env i t) (by rw [hstep]; exact hq) (by rw [hstep]; exact hu)
      (by rw [hstep]) (by rw [hstep]; exact h2) (by rw [hstep]; exact hu2)
      (by rw [hstep]; simp only []; omega) (by rw [hstep]; simp only []; omega)
      (by rw [hstep]) (by rw [hstep])
    rw [hbus] at IH
    rw [readDataLoop_succ]
    refine ⟨?_, ?_, ?_⟩
    · rw [IH.1]
      exact (readHist_shift env dir p1 q (weLow q) h l t.bus i n).symm
    · intro j hj
      rw [IH.2.1 j (by omega), hstep]
      simp only []
      rw [Function.update_noteq (by omega)]
    · intro k hk
      cases k with
      | zero =>
        simp only [Nat.add_zero]
        rw [IH.2.1 i (by omega), hstep]
        simp [readHist]
      | succ k =>
        have e : i + (k + 1) = i + 1 + k := by omega
        rw [e, IH.2.2 k (by omega)]
        rw [readHist_shift env dir p1 q (weLow q) h l t.bus i k]

theorem rdCtl_eq (c b : Nat) (hb : b < 16) :
    rdCtl c (16 * b) = c % 16 - 2 * (c / 2 % 2) + 16 * b + 2 := by
  have h := lor_bit (ctlAddr c (16 * b)) 1 (by rw [ctlAddr_eq]; omega) (by norm_num)
  simp only [pow_one] at h
  rw [rdCtl, CTRL_SH1B, h, ctlAddr_eq]
  omega

theorem sh1bLow_rdCtl (c b : Nat) (hb : b < 16) :
    sh1bLow (rdCtl c (16 * b) % 256) = false := by
  simp only [sh1bLow, bitOf, rdCtl_eq c b hb]
  simp only [Bool.not_eq_false', decide_eq_true_eq]
  norm_num
  omega

theorem readHist_length (env : Env) (dir p1 q : Nat) (w : Bool) (h l : Nat)
    (hist0 : List BusEv) (i0 : Nat) :
    ∀ n, (readHist env dir p1 q w h l hist0 i0 n).length = hist0.length + 2 * n := by
  intro n
  induction n with
  | zero => rfl
  | succ n ih => rw [readHist, List.length_append, ih]; simp; omega

theorem readHist_get (env : Env) (dir p1 q : Nat) (w : Bool) (h l : Nat)
    (hist0 : List BusEv) (i0 : Nat) :
    ∀ n k, k < n →
      (readHist env dir p1 q w h l hist0 i0 n)[hist0.length + 2 * k]? =
        some (BusEv.rd (chunkAddr h l (i0 + k)) q
          (sampleAt env dir p1 q (chunkAddr h l (i0 + k))
            (readHist env dir p1 q w h l hist0 i0 k))) ∧
      (readHist env dir p1 q w h l hist0 i0 n)[hist0.length + 2 * k + 1]? =
        some (BusEv.ce (chunkAddr h l (i0 + k)) q p1 w) := by
  intro n
  induction n with
  | zero => intro k hk; omega
  | succ n ih =>
    intro k hk
    have hlen := readHist_length env dir p1 q w h l hist0 i0 n
    rw [readHist]
    by_cases hkn : k < n
    · rw [List.getElem?_append_left (by rw [hlen]; omega),
        List.getElem?_append_left (by rw [hlen]; omega)]
      exact ih k hkn
    · have hk' : k = n := by omega
      subst hk'
      rw [List.getElem?_append_right (by rw [hlen]),
        List.getElem?_append_right (by rw [hlen]; omega), hlen]
      simp

theorem readHist_prefix (env : Env) (dir p1 q : Nat) (w : Bool) (h l : Nat)
    (hist0 : List BusEv) (i0 : Nat) :
    ∀ n, ∃ new, readHist env dir p1 q w h l hist0 i0 n = hist0 ++ new ∧
      new.length = 2 * n := by
  intro n
  induction n with
  | zero => exact ⟨[], by simp [readHist], rfl⟩
  | succ n ih =>
    obtain ⟨new, hnew, hl⟩ := ih
    refine ⟨new ++ [BusEv.rd (chunkAddr h l (i0 + n)) q
        (sampleAt env dir p1 q (chunkAddr h l (i0 + n))
          (readHist env dir p1 q w h l hist0 i0 n)),
      BusEv.ce (chunkAddr h l (i0 + n)) q p1 w], ?_, ?_⟩
    · rw [readHist, hnew, List.append_assoc]
    · simp [hl]; omega

theorem readData_spec (env : Env) (s : Dev) (b : Nat) (hb : s.addrBank = 16 * b)
    (hbn : b < 16) (hf : s.FLCE = true) :
    (readData env s).bus =
      readHist env s.P1_DIR_PU s.P1 (rdCtl s.ctrl (16 * b) % 256)
        (weLow (rdCtl s.ctrl (16 * b) % 256)) (s.addrH % 256) s.addrL s.bus 0 64 ∧
    (∀ k, k < 64 → (readData env s).rwBuffer k =
      sampleAt env s.P1_DIR_PU s.P1 (rdCtl s.ctrl (16 * b) % 256)
        (chunkAddr (s.addrH % 256) s.addrL k)
        (readHist env s.P1_DIR_PU s.P1 (rdCtl s.ctrl (16 * b) % 256)
          (weLow (rdCtl s.ctrl (16 * b) % 256)) (s.addrH % 256) s.addrL s.bus 0 k)) := by
  have h := readDataLoop_spec env s.P1_DIR_PU s.P1 (rdCtl s.ctrl (16 * b) % 256)
    (s.addrH % 256) s.addrL (sh1bLow_rdCtl s.ctrl b hbn) (Nat.mod_lt _ (by norm_num)) 64 0
    (setShiftRegsCtrl { setAddr s with ctrl := (setAddr s).ctrl ||| CTRL_SH1B })
    (by rw [setShiftRegsCtrl_eq, setAddr_eq]; simp [hb, rdCtl])
    (by rw [setShiftRegsCtrl_eq, setAddr_eq]; simp [hb, rdCtl])
    (by rw [setShiftRegsCtrl_eq, setAddr_eq]; simp [hf])
    (by rw [setShiftRegsCtrl_eq, setAddr_eq]; simp [hb, sh1bLow_ctlAddr])
    (by rw [setShiftRegsCtrl_eq, setAddr_eq]; simp [hb, sh1bLow_ctlAddr])
    (by rw [setShiftRegsCtrl_eq, setAddr_eq]; simp)
    (by rw [setShiftRegsCtrl_eq, setAddr_eq]; simp)
    (by rw [setShiftRegsCtrl_eq, setAddr_eq])
    (by rw [setShiftRegsCtrl_eq, setAddr_eq])
  have hbus : (setShiftRegsCtrl { setAddr s with ctrl := (setAddr s).ctrl ||| CTRL_SH1B }).bus
      = s.bus := by
    rw [setShiftRegsCtrl_eq, setAddr_eq]
  rw [hbus] at h
  have hun : readData env s = readDataLoop env 64 0
      (setShiftRegsCtrl { setAddr s with ctrl := (setAddr s).ctrl ||| CTRL_SH1B }) := rfl
  rw [hun]
  refine ⟨h.1, ?_⟩
  intro k hk
  have := h.2.2 k hk
  rw [Nat.zero_add] at this
  exact this

theorem handle_readBuffer (s : Dev) :
    handleVendorControlTransfer reqReadBuffer s =
      (some 64, { s with
        Ep0Buffer := fun k => if k < 64 then s.rwBuffer k else s.Ep0Buffer k }) := by
  simp [handleVendorControlTransfer, reqReadBuffer, CMD_READ, CMD_SET_SHREG, CMD_SET_ADDR,
    CMD_SET_DATA, CMD_GET_DATA, CMD_BOOTLOADER, CMD_SET_UP, CMD_WRITE]

/-- Claim C4: for a start address with bank nibble `b`, high byte `h` and low byte `l`
(chip deselected on entry) `readData` reads the data port exactly 64 times: it adds 128
events to the bus log, the `i`-th pair being the read of P1 and the closing of the
chip-enable pulse; the value of the `i`-th read is what `rwBuffer[i]` holds afterwards,
and it is taken while the address outputs hold `h*256 + ((l+i) mod 256)` and control
bits 7..4 hold `b`.  The READ sub-1 request that follows returns length 64 with these 64
bytes in the endpoint buffer and changes nothing else. -/
theorem readData_samples (env : Env) (s : Dev) (b h l : Nat)
    (hf : s.FLCE = true) (hb : s.addrBank = 16 * b) (hbn : b < 16)
    (hh : s.addrH = h) (hhn : h < 256) (hl : s.addrL = l) :
    (∃ new : List BusEv, (readData env s).bus = s.bus ++ new ∧ new.length = 128 ∧
      ∀ i, i < 64 →
        new[2 * i]? = some (BusEv.rd (h * 256 + (l + i) % 256) (rdCtl s.ctrl (16 * b) % 256)
          ((readData env s).rwBuffer i)) ∧
        new[2 * i + 1]? = some (BusEv.ce (h * 256 + (l + i) % 256)
          (rdCtl s.ctrl (16 * b) % 256) s.P1 (weLow (rdCtl s.ctrl (16 * b) % 256)))) ∧
    rdCtl s.ctrl (16 * b) % 256 / 16 = b ∧
    handleVendorControlTransfer reqReadBuffer (readData env s) =
      (some 64, { readData env s with
        Ep0Buffer := fun k =>
          if k < 64 then (readData env s).rwBuffer k else (readData env s).Ep0Buffer k }) := by
  have hspec := readData_spec env s b hb hbn hf
  obtain ⟨new, hnew, hlen⟩ := readHist_prefix env s.P1_DIR_PU s.P1 (rdCtl s.ctrl (16 * b) % 256)
    (weLow (rdCtl s.ctrl (16 * b) % 256)) (s.addrH % 256) s.addrL s.bus 0 64
  refine ⟨⟨new, by rw [hspec.1, hnew], hlen, ?_⟩, ?_, handle_readBuffer _⟩
  · intro i hi
    have hg := readHist_get env s.P1_DIR_PU s.P1 (rdCtl s.ctrl (16 * b) % 256)
      (weLow (rdCtl s.ctrl (16 * b) % 256)) (s.addrH % 256) s.addrL s.bus 0 64 i hi
    rw [hnew, List.getElem?_append_right (by omega),
      List.getElem?_append_right (by omega)] at hg
    have e1 : s.bus.length + 2 * i - s.bus.length = 2 * i := by omega
    have e2 : s.bus.length + 2 * i + 1 - s.bus.length = 2 * i + 1 := by omega
    have hca : chunkAddr (s.addrH % 256) s.addrL (0 + i) = h * 256 + (l + i) % 256 := by
      simp [chunkAddr, hh, hl, Nat.mod_eq_of_lt hhn]
    rw [e1, e2, hca] at hg
    have hv := hspec.2 i hi
    rw [Nat.zero_add] at hca
    rw [hca] at hv
    rw [hv]
    exact hg
  · rw [rdCtl_eq s.ctrl b hbn]
    omega

/-- Witness for C4: the power-on state (bank 0, address 0). -/
theorem readData_samples_witness :
    powerOn.FLCE = true ∧ powerOn.addrBank = 16 * 0 ∧ 0 < 16 ∧ powerOn.addrH = 0 ∧
    0 < 256 ∧ powerOn.addrL = 0 ∧
    ((∃ new : List BusEv, (readData envReady powerOn).bus = powerOn.bus ++ new ∧
      new.length = 128 ∧
      ∀ i, i < 64 →
        new[2 * i]? = some (BusEv.rd (0 * 256 + (0 + i) % 256)
          (rdCtl powerOn.ctrl (16 * 0) % 256) ((readData envReady powerOn).rwBuffer i)) ∧
        new[2 * i + 1]? = some (BusEv.ce (0 * 256 + (0 + i) % 256)
          (rdCtl powerOn.ctrl (16 * 0) % 256) powerOn.P1
          (weLow (rdCtl powerOn.ctrl (16 * 0) % 256)))) ∧
    rdCtl powerOn.ctrl (16 * 0) % 256 / 16 = 0 ∧
    handleVendorControlTransfer reqReadBuffer (readData envReady powerOn) =
      (some 64, { readData envReady powerOn with
        Ep0Buffer := fun k =>
          if k < 64 then (readData envReady powerOn).rwBuffer k
          else (readData envReady powerOn).Ep0Buffer k })) :=
  ⟨rfl, rfl, by norm_num, rfl, by norm_num, rfl,
    readData_samples envReady powerOn 0 0 0 rfl rfl (by norm_num) rfl (by norm_num) rfl⟩

/-! ## Single-byte read cycle -/

theorem weLow_rbCtl (c b : Nat) :
    weLow (rbCtl c (16 * b) % 256) = weLow (ctlAddr c (16 * b) % 256) := by
  simp only [weLow, bitOf, rbCtl, land_FB, ctlAddr_eq]
  congr 2
  norm_num
  omega

theorem weLow_rbCtl_end (c b : Nat) :
    weLow ((rbCtl c (16 * b) ||| CTRL_OE) % 256) = weLow (ctlAddr c (16 * b) % 256) := by
  have h := lor_bit (rbCtl c (16 * b)) 2 (by rw [rbCtl, land_FB]; omega) (by norm_num)
  have e : (2 : Nat) ^ 2 = 4 := by norm_num
  rw [e] at h
  simp only [weLow, bitOf, CTRL_OE, h]
  simp only [rbCtl, land_FB, ctlAddr_eq]
  congr 2
  norm_num
  omega

theorem readByte_nonzero (env : Env) (a : Nat) (s : Dev) (ha : a ≠ 0) : readByte env a s =
    readByte env 0 { s with addrH := a / 256 % 256, addrL := a % 256, addrBank := 0 } := by
  simp [readByte, ha]

theorem readByte_zero (env : Env) (s : Dev) (b : Nat) (hb : s.addrBank = 16 * b)
    (hf : s.FLCE = true) :
    readByte env 0 s =
    { s with
      ctrl := rbCtl s.ctrl (16 * b) ||| CTRL_OE
      data := sampleAt env s.P1_DIR_PU s.P1 (rbCtl s.ctrl (16 * b) % 256)
        (s.addrH % 256 * 256 + s.addrL % 256) s.bus
      ST_CLK := true
      SH1_CLK := true
      SH2_CLK := true
      SDATA1 := bitOf (rbCtl s.ctrl (16 * b) ||| CTRL_OE) 7
      FLCE := true
      U1 := s.addrL % 256
      U2 := s.addrH % 256
      U3 := (rbCtl s.ctrl (16 * b) ||| CTRL_OE) % 256
      Q1 := s.addrL % 256
      Q2 := s.addrH % 256
      Q3 := (rbCtl s.ctrl (16 * b) ||| CTRL_OE) % 256
      weSeen := weLow (ctlAddr s.ctrl (16 * b) % 256)
      bus := s.bus ++ [BusEv.rd (s.addrH % 256 * 256 + s.addrL % 256)
                (rbCtl s.ctrl (16 * b) % 256)
                (sampleAt env s.P1_DIR_PU s.P1 (rbCtl s.ctrl (16 * b) % 256)
                  (s.addrH % 256 * 256 + s.addrL % 256) s.bus),
              BusEv.ce (s.addrH % 256 * 256 + s.addrL % 256)
                ((rbCtl s.ctrl (16 * b) ||| CTRL_OE) % 256) s.P1
                (weLow (ctlAddr s.ctrl (16 * b) % 256))]
      pins := s.pins ++ readByteTrace s.ctrl (16 * b) s.addrH s.addrL
      ops := s.ops ++ [ShiftOp.full (ctlAddr s.ctrl (16 * b) % 256)] } := by
  have w1 := weLow_rbCtl s.ctrl b
  have w2 := weLow_rbCtl_end s.ctrl b
  simp only [rbCtl] at w1 w2
  simp only [readByte, setAddr_eq, setShiftRegsCtrl_eq, clrFLCE, setbFLCE, sampleData, portValue]
  simp [hb, hf, sh1bLow_ctlAddr, w1, w2, rbCtl, readByteTrace, Dev.adr, sampleAt]

/-! ## The setup command -/

theorem ctlAddr_13 : ctlAddr 13 0 = 13 := by decide

theorem wrCtl_13 : wrCtl 13 0 = 13 := by decide

theorem ctrl_reset : CTRL_LED1 ||| CTRL_WE ||| CTRL_OE = 13 := by decide

theorem writeByte_lit (a d : Nat) (s : Dev) (ha : a ≠ 0) :
    writeByte a d s =
    { s with
      addrH := a / 256 % 256
      addrL := a % 256
      addrBank := 0
      ctrl := wrCtl s.ctrl 0
      P1 := d % 256
      ST_CLK := true
      SH1_CLK := true
      SH2_CLK := true
      SDATA1 := bitOf (wrCtl s.ctrl 0) 7
      FLCE := true
      U1 := a % 256
      U2 := a / 256 % 256
      U3 := wrCtl s.ctrl 0 % 256
      Q1 := a % 256
      Q2 := a / 256 % 256
      Q3 := wrCtl s.ctrl 0 % 256
      weSeen := true
      bus := s.bus ++ [BusEv.ce (a / 256 % 256 * 256 + a % 256) (wrCtl s.ctrl 0 % 256)
                (d % 256) true]
      pins := s.pins ++ writeByteTrace s.ctrl 0 (a / 256 % 256) (a % 256)
      ops := s.ops ++ [ShiftOp.full (ctlAddr s.ctrl 0 % 256)] } := by
  rw [writeByte_nonzero a d s ha, writeByte_zero d _ 0 rfl]
  simp

theorem setUpReset_eq (s : Dev) : setUpReset s =
    { s with
      addrH := 0
      addrL := 0
      addrBank := 0
      ctrl := 13
      P1 := 0xF0
      P1_DIR_PU := 0xFF
      ST_CLK := true
      SH1_CLK := true
      SH2_CLK := true
      SDATA1 := false
      FLCE := true
      U1 := 0x0F
      U2 := 0
      U3 := 13
      Q1 := 0x0F
      Q2 := 0
      Q3 := 13
      weSeen := true
      bus := s.bus ++ [BusEv.ce 0x000F 13 0xF0 true]
      pins := s.pins ++ setUpResetTrace
      ops := s.ops ++ [ShiftOp.full 13] } := by
  simp only [setUpReset, writeByte_lit _ _ _ (by norm_num : (0x0f : Nat) ≠ 0),
    setShiftRegsCtrl_eq, P1_DATA_OUT, ctrl_reset]
  simp [wrCtl_13, ctlAddr_13, setUpResetTrace, bitOf]

theorem setUpUnlock_eq (s : Dev) (hc : s.ctrl = 13) : setUpUnlock s =
    { s with
      addrH := 0x15
      addrL := 0x55
      addrBank := 0
      status := STATUS_INITIALISED
      P1 := 0x55
      P1_DIR_PU := 0xFF
      ST_CLK := true
      SH1_CLK := true
      SH2_CLK := true
      SDATA1 := false
      FLCE := true
      U1 := 0x55
      U2 := 0x15
      U3 := 13
      Q1 := 0x55
      Q2 := 0x15
      Q3 := 13
      weSeen := true
      bus := s.bus ++ [BusEv.ce 0x0AAA 13 0xAA true, BusEv.ce 0x1555 13 0x55 true]
      pins := s.pins ++ setUpUnlockTrace
      ops := s.ops ++ [ShiftOp.full 13, ShiftOp.full 13] } := by
  simp only [setUpUnlock, writeByte_lit _ _ _ (by norm_num : (0xAAA : Nat) ≠ 0),
    writeByte_lit _ _ _ (by norm_num : (0x1555 : Nat) ≠ 0), P1_DATA_OUT]
  simp [hc, wrCtl_13, ctlAddr_13, setUpUnlockTrace, bitOf]

theorem rbCtl_13 : rbCtl 13 0 = 9 := by decide

theorem rbCtl_13_end : (9 : Nat) ||| CTRL_OE = 13 := by decide

theorem weLow_13 : weLow 13 = false := by decide

theorem readByte_lit (env : Env) (a : Nat) (s : Dev) (ha : a ≠ 0) (hf : s.FLCE = true) :
    readByte env a s =
    { s with
      addrH := a / 256 % 256
      addrL := a % 256
      addrBank := 0
      ctrl := rbCtl s.ctrl 0 ||| CTRL_OE
      data := sampleAt env s.P1_DIR_PU s.P1 (rbCtl s.ctrl 0 % 256)
        (a / 256 % 256 * 256 + a % 256) s.bus
      ST_CLK := true
      SH1_CLK := true
      SH2_CLK := true
      SDATA1 := bitOf (rbCtl s.ctrl 0 ||| CTRL_OE) 7
      FLCE := true
      U1 := a % 256
      U2 := a / 256 % 256
      U3 := (rbCtl s.ctrl 0 ||| CTRL_OE) % 256
      Q1 := a % 256
      Q2 := a / 256 % 256
      Q3 := (rbCtl s.ctrl 0 ||| CTRL_OE) % 256
      weSeen := weLow (ctlAddr s.ctrl 0 % 256)
      bus := s.bus ++ [BusEv.rd (a / 256 % 256 * 256 + a % 256) (rbCtl s.ctrl 0 % 256)
                (sampleAt env s.P1_DIR_PU s.P1 (rbCtl s.ctrl 0 % 256)
                  (a / 256 % 256 * 256 + a % 256) s.bus),
              BusEv.ce (a / 256 % 256 * 256 + a % 256)
                ((rbCtl s.ctrl 0 ||| CTRL_OE) % 256) s.P1
                (weLow (ctlAddr s.ctrl 0 % 256))]
      pins := s.pins ++ readByteTrace s.ctrl 0 (a / 256 % 256) (a % 256)
      ops := s.ops ++ [ShiftOp.full (ctlAddr s.ctrl 0 % 256)] } := by
  rw [readByte_nonzero env a s ha, readByte_zero env _ 0 rfl (by exact hf)]
  simp

theorem eraseChipCycles_eq (s : Dev) (hc : s.ctrl = 13) : eraseChipCycles s =
    { s with
      addrH := 0x0A
      addrL := 0xAA
      addrBank := 0
      status := STATUS_ERASE
      P1 := 0x10
      ST_CLK := true
      SH1_CLK := true
      SH2_CLK := true
      SDATA1 := false
      FLCE := true
      U1 := 0xAA
      U2 := 0x0A
      U3 := 13
      Q1 := 0xAA
      Q2 := 0x0A
      Q3 := 13
      weSeen := true
      bus := s.bus ++ [BusEv.ce 0x0AAA 13 0x80 true, BusEv.ce 0x0AAA 13 0xAA true,
        BusEv.ce 0x0555 13 0x55 true, BusEv.ce 0x0AAA 13 0x10 true]
      pins := s.pins ++ eraseChipTrace
      ops := s.ops ++ [ShiftOp.full 13, ShiftOp.full 13, ShiftOp.full 13, ShiftOp.full 13] } := by
  simp only [eraseChipCycles, writeByte_lit _ _ _ (by norm_num : (0xAAA : Nat) ≠ 0),
    writeByte_lit _ _ _ (by norm_num : (0x555 : Nat) ≠ 0)]
  simp [hc, wrCtl_13, ctlAddr_13, eraseChipTrace, bitOf]

theorem eraseSectorCycles_eq (b oh ol : Nat) (s : Dev) (hc : s.ctrl = 13) :
    eraseSectorCycles (16 * b) oh ol s =
    { s with
      addrH := oh
      addrL := ol
      addrBank := 16 * b
      ctrl := wrCtl 13 (16 * b)
      status := STATUS_ERASE
      P1 := 0x30
      ST_CLK := true
      SH1_CLK := true
      SH2_CLK := true
      SDATA1 := bitOf (wrCtl 13 (16 * b)) 7
      FLCE := true
      U1 := ol % 256
      U2 := oh % 256
      U3 := wrCtl 13 (16 * b) % 256
      Q1 := ol % 256
      Q2 := oh % 256
      Q3 := wrCtl 13 (16 * b) % 256
      weSeen := true
      bus := s.bus ++ [BusEv.ce 0x0AAA 13 0x80 true, BusEv.ce 0x0AAA 13 0xAA true,
        BusEv.ce 0x0555 13 0x55 true,
        BusEv.ce (oh % 256 * 256 + ol % 256) (wrCtl 13 (16 * b) % 256) 0x30 true]
      pins := s.pins ++ eraseSectorTrace (16 * b) oh ol
      ops := s.ops ++ [ShiftOp.full 13, ShiftOp.full 13, ShiftOp.full 13,
        ShiftOp.full (ctlAddr 13 (16 * b) % 256)] } := by
  simp only [eraseSectorCycles, writeByte_lit _ _ _ (by norm_num : (0xAAA : Nat) ≠ 0),
    writeByte_lit _ _ _ (by norm_num : (0x555 : Nat) ≠ 0)]
  rw [writeByte_zero 0x30 _ b rfl]
  simp [hc, wrCtl_13, ctlAddr_13, eraseSectorTrace, bitOf]

theorem runSetUp_erase (env : Env) (s : Dev) (hd : s.data = SETUP_ERASE) :
    runSetUp env s = waitForErase env (eraseChipCycles (setUpUnlock (setUpReset s))) := by
  have h1 : (setUpReset s).data = 4 := by rw [setUpReset_eq]; exact hd
  have h2 : (setUpUnlock (setUpReset s)).data = 4 := by
    rw [setUpUnlock_eq _ (by rw [setUpReset_eq]), setUpReset_eq]; exact hd
  simp [runSetUp, h1, h2, SETUP_READY, SETUP_READ, SETUP_WRITE, SETUP_MANUF_ID,
    SETUP_DEVICE_ID, SETUP_SECTOR_VERIFY, SETUP_ERASE]

theorem runSetUp_erase_sector (env : Env) (s : Dev) (hd : s.data = SETUP_ERASE_SECTOR) :
    runSetUp env s = waitForErase env
      (eraseSectorCycles s.addrBank s.addrH s.addrL (setUpUnlock (setUpReset s))) := by
  have h1 : (setUpReset s).data = 5 := by rw [setUpReset_eq]; exact hd
  have h2 : (setUpUnlock (setUpReset s)).data = 5 := by
    rw [setUpUnlock_eq _ (by rw [setUpReset_eq]), setUpReset_eq]; exact hd
  simp [runSetUp, h1, h2, SETUP_READY, SETUP_READ, SETUP_WRITE, SETUP_MANUF_ID,
    SETUP_DEVICE_ID, SETUP_SECTOR_VERIFY, SETUP_ERASE, SETUP_ERASE_SECTOR]

theorem wrCtl_bank (c b : Nat) (hb : b < 16) : wrCtl c (16 * b) % 256 / 16 = b := by
  have h1 : ctlAddr c (16 * b) &&& 0xF7 < 256 := by rw [land_F7]; omega
  have h := lor_bit (ctlAddr c (16 * b) &&& 0xF7) 3 h1 (by norm_num)
  have e : (2 : Nat) ^ 3 = 8 := by norm_num
  rw [e] at h
  rw [wrCtl, CTRL_WE, h, land_F7, ctlAddr_eq]
  omega

/-- Claim C8: for setup mode erase-chip `runSetUp` first issues the soft reset and the
two unlock cycles; then, from a state `s0` whose status is already ERASE_IN_PROGRESS, it
issues as write cycles 0x80, 0xAA (both at 0xAAA), 0x55 at 0x555 and 0x10 at 0xAAA, in
that order, all with control byte 13 (bank bits 0); the state `s1` after these four
cycles is the one in which the bounded poll `waitForErase` is entered. -/
theorem runSetUp_erase_chip (env : Env) (s : Dev) (hd : s.data = SETUP_ERASE) :
    ∃ s0 s1 : Dev,
      s0.status = STATUS_ERASE ∧
      s0.bus = s.bus ++ [BusEv.ce 0x000F 13 0xF0 true, BusEv.ce 0x0AAA 13 0xAA true,
        BusEv.ce 0x1555 13 0x55 true] ∧
      s1 = writeByte 0xAAA 0x10 (writeByte 0x555 0x55 (writeByte 0xAAA 0xAA
        (writeByte 0xAAA 0x80 s0))) ∧
      s1.bus = s0.bus ++ [BusEv.ce 0x0AAA 13 0x80 true, BusEv.ce 0x0AAA 13 0xAA true,
        BusEv.ce 0x0555 13 0x55 true, BusEv.ce 0x0AAA 13 0x10 true] ∧
      s1.status = STATUS_ERASE ∧ (13 : Nat) / 16 = 0 ∧
      runSetUp env s = waitForErase env s1 := by
  have hc : (setUpUnlock (setUpReset s)).ctrl = 13 := by
    rw [setUpUnlock_eq _ (by rw [setUpReset_eq]), setUpReset_eq]
  refine ⟨{ setUpUnlock (setUpReset s) with status := STATUS_ERASE },
    eraseChipCycles (setUpUnlock (setUpReset s)), rfl, ?_, rfl, ?_, ?_, by norm_num,
    runSetUp_erase env s hd⟩
  · rw [setUpUnlock_eq _ (by rw [setUpReset_eq]), setUpReset_eq]
    simp
  · rw [eraseChipCycles_eq _ hc]
  · rw [eraseChipCycles_eq _ hc]

/-- Witness for C8: a pending erase-chip setup at power-on. -/
theorem runSetUp_erase_chip_witness :
    ({ powerOn with data := SETUP_ERASE } : Dev).data = SETUP_ERASE ∧
    ∃ s0 s1 : Dev,
      s0.status = STATUS_ERASE ∧
      s0.bus = ({ powerOn with data := SETUP_ERASE } : Dev).bus ++
        [BusEv.ce 0x000F 13 0xF0 true, BusEv.ce 0x0AAA 13 0xAA true,
        BusEv.ce 0x1555 13 0x55 true] ∧
      s1 = writeByte 0xAAA 0x10 (writeByte 0x555 0x55 (writeByte 0xAAA 0xAA
        (writeByte 0xAAA 0x80 s0))) ∧
      s1.bus = s0.bus ++ [BusEv.ce 0x0AAA 13 0x80 true, BusEv.ce 0x0AAA 13 0xAA true,
        BusEv.ce 0x0555 13 0x55 true, BusEv.ce 0x0AAA 13 0x10 true] ∧
      s1.status = STATUS_ERASE ∧ (13 : Nat) / 16 = 0 ∧
      runSetUp envReady { powerOn with data := SETUP_ERASE } = waitForErase envReady s1 :=
  ⟨rfl, runSetUp_erase_chip envReady { powerOn with data := SETUP_ERASE } rfl⟩

/-- Claim C9: for setup mode erase-sector with request address bank nibble `b`, high
byte `h`, low byte `l`, `runSetUp` issues after the soft reset and the two unlock
cycles the same prefix as chip erase (0x80 at 0xAAA, 0xAA at 0xAAA, 0x55 at 0x555, all
with control byte 13, bank bits 0), and its final write cycle carries 0x30 while the
address outputs hold `h*256 + l` and control bits 7..4 hold `b`, although the address
registers were zeroed for the preamble; the state after it is the one in which the
bounded poll `waitForErase` is entered. -/
theorem runSetUp_erase_sector_target (env : Env) (s : Dev) (b h l : Nat)
    (hd : s.data = SETUP_ERASE_SECTOR) (hb : s.addrBank = 16 * b) (hbn : b < 16)
    (hh : s.addrH = h) (hhn : h < 256) (hl : s.addrL = l) (hln : l < 256) :
    ∃ s1 : Dev,
      s1.bus = s.bus ++ [BusEv.ce 0x000F 13 0xF0 true, BusEv.ce 0x0AAA 13 0xAA true,
        BusEv.ce 0x1555 13 0x55 true, BusEv.ce 0x0AAA 13 0x80 true,
        BusEv.ce 0x0AAA 13 0xAA true, BusEv.ce 0x0555 13 0x55 true,
        BusEv.ce (h * 256 + l) (wrCtl 13 (16 * b) % 256) 0x30 true] ∧
      wrCtl 13 (16 * b) % 256 / 16 = b ∧ (13 : Nat) / 16 = 0 ∧
      s1.status = STATUS_ERASE ∧
      runSetUp env s = waitForErase env s1 := by
  have hc : (setUpUnlock (setUpReset s)).ctrl = 13 := by
    rw [setUpUnlock_eq _ (by rw [setUpReset_eq]), setUpReset_eq]
  refine ⟨eraseSectorCycles s.addrBank s.addrH s.addrL (setUpUnlock (setUpReset s)),
    ?_, wrCtl_bank 13 b hbn, by norm_num, ?_, runSetUp_erase_sector env s hd⟩
  · rw [hb, eraseSectorCycles_eq b _ _ _ hc, setUpUnlock_eq _ (by rw [setUpReset_eq]),
      setUpReset_eq]
    simp [hh, hl, Nat.mod_eq_of_lt hhn, Nat.mod_eq_of_lt hln]
  · rw [hb, eraseSectorCycles_eq b _ _ _ hc]

/-- Witness for C9: sector erase requested at bank 3, address 0x4000. -/
theorem runSetUp_erase_sector_target_witness :
    sectorEraseRequest.data
      = SETUP_ERASE_SECTOR ∧
    sectorEraseRequest.addrBank
      = 16 * 3 ∧ 3 < 16 ∧
    sectorEraseRequest.addrH
      = 0x40 ∧ 0x40 < 256 ∧
    sectorEraseRequest.addrL
      = 0 ∧ 0 < 256 ∧
    ∃ s1 : Dev,
      s1.bus = sectorEraseRequest.bus ++
        [BusEv.ce 0x000F 13 0xF0 true, BusEv.ce 0x0AAA 13 0xAA true,
        BusEv.ce 0x1555 13 0x55 true, BusEv.ce 0x0AAA 13 0x80 true,
        BusEv.ce 0x0AAA 13 0xAA true, BusEv.ce 0x0555 13 0x55 true,
        BusEv.ce (0x40 * 256 + 0) (wrCtl 13 (16 * 3) % 256) 0x30 true] ∧
      wrCtl 13 (16 * 3) % 256 / 16 = 3 ∧ (13 : Nat) / 16 = 0 ∧
      s1.status = STATUS_ERASE ∧
      runSetUp envReady sectorEraseRequest = waitForErase envReady s1 :=
  ⟨rfl, rfl, by norm_num, rfl, by norm_num, rfl, by norm_num,
    runSetUp_erase_sector_target envReady
      sectorEraseRequest 3 0x40 0
      rfl rfl (by norm_num) rfl (by norm_num) rfl (by norm_num)⟩

theorem handle_getData (s : Dev) :
    handleVendorControlTransfer reqGetData s =
      (some 2, { s with
        Ep0Buffer := Function.update (Function.update s.Ep0Buffer 0 s.data) 1 s.status }) := by
  simp [handleVendorControlTransfer, reqGetData, CMD_GET_DATA, CMD_SET_SHREG, CMD_SET_ADDR,
    CMD_SET_DATA]

theorem identifyEntry_eq (s : Dev) :
    P1_DATA_IN (writeByte 0x2AAA 0x90 (setUpUnlock (setUpReset s))) =
    { s with
      addrH := 0x2A
      addrL := 0xAA
      addrBank := 0
      ctrl := 13
      status := STATUS_INITIALISED
      P1 := 0x90
      P1_DIR_PU := 0
      ST_CLK := true
      SH1_CLK := true
      SH2_CLK := true
      SDATA1 := false
      FLCE := true
      U1 := 0xAA
      U2 := 0x2A
      U3 := 13
      Q1 := 0xAA
      Q2 := 0x2A
      Q3 := 13
      weSeen := true
      bus := s.bus ++ identifyWrites
      pins := s.pins ++ setUpResetTrace ++ setUpUnlockTrace ++ writeByteTrace 13 0 0x2A 0xAA
      ops := s.ops ++ [ShiftOp.full 13, ShiftOp.full 13, ShiftOp.full 13, ShiftOp.full 13] } := by
  rw [writeByte_lit _ _ _ (by norm_num : (0x2AAA : Nat) ≠ 0),
    setUpUnlock_eq _ (by rw [setUpReset_eq]), setUpReset_eq]
  simp [P1_DATA_IN, wrCtl_13, ctlAddr_13, identifyWrites, bitOf]

theorem runSetUp_manuf (env : Env) (s : Dev) (hd : s.data = 0) :
    runSetUp env s =
      { readByte env 0x100 (P1_DATA_IN (writeByte 0x2AAA 0x90 (setUpUnlock (setUpReset s))))
        with status := 0xF0 } := by
  have h1 : (setUpReset s).data = 0 := by rw [setUpReset_eq]; exact hd
  have h2 : (setUpUnlock (setUpReset s)).data = 0 := by
    rw [setUpUnlock_eq _ (by rw [setUpReset_eq]), setUpReset_eq]; exact hd
  simp [runSetUp, h1, h2, SETUP_READY, SETUP_READ, SETUP_WRITE, SETUP_MANUF_ID]

theorem runSetUp_device (env : Env) (s : Dev) (hd : s.data = 1) :
    runSetUp env s =
      { readByte env 0x102 (P1_DATA_IN (writeByte 0x2AAA 0x90 (setUpUnlock (setUpReset s))))
        with status := 0xF1 } := by
  have h1 : (setUpReset s).data = 1 := by rw [setUpReset_eq]; exact hd
  have h2 : (setUpUnlock (setUpReset s)).data = 1 := by
    rw [setUpUnlock_eq _ (by rw [setUpReset_eq]), setUpReset_eq]; exact hd
  simp [runSetUp, h1, h2, SETUP_READY, SETUP_READ, SETUP_WRITE, SETUP_MANUF_ID,
    SETUP_DEVICE_ID]

theorem runSetUp_identify_spec (env : Env) (s : Dev) (m : Nat) (hm : m < 2)
    (hd : s.data = m) :
    (runSetUp env s).bus = s.bus ++ identifyWrites ++
      [BusEv.rd (0x100 + 2 * m) 9 (runSetUp env s).data,
       BusEv.ce (0x100 + 2 * m) 13 0x90 false] ∧
    (runSetUp env s).data
      = env.port (s.bus ++ identifyWrites) false 9 (0x100 + 2 * m) % 256 ∧
    (runSetUp env s).status = 0xF0 + m := by
  have hm' : m = 0 ∨ m = 1 := by omega
  rcases hm' with h | h
  · subst h
    rw [runSetUp_manuf env s hd, readByte_lit env _ _ (by norm_num) (by rw [identifyEntry_eq]),
      identifyEntry_eq]
    simp [rbCtl_13, rbCtl_13_end, ctlAddr_13, weLow_13, sampleAt]
  · subst h
    rw [runSetUp_device env s hd, readByte_lit env _ _ (by norm_num) (by rw [identifyEntry_eq]),
      identifyEntry_eq]
    simp [rbCtl_13, rbCtl_13_end, ctlAddr_13, weLow_13, sampleAt]

/-- Claim C10 (amended): for the setup modes identify-manufacturer (`m = 0`) and
identify-device (`m = 1`), `runSetUp` issues after the soft reset the write cycles 0xAA
at 0xAAA, 0x55 at 0x1555 and 0x90 while the address outputs hold 0x2AAA (low 12 bits
0xAAA), in that order, then performs exactly one read of the data port, while the
address outputs hold `0x100 + 2*m` (low byte 0 resp. 2) and OE# is low, and stores the
sampled byte in `data`, which GET_DATA returns as its first byte. -/
theorem runSetUp_identify (env : Env) (s : Dev) (m : Nat) (hm : m < 2) (hd : s.data = m) :
    (runSetUp env s).bus = s.bus ++
      [BusEv.ce 0x000F 13 0xF0 true, BusEv.ce 0x0AAA 13 0xAA true,
       BusEv.ce 0x1555 13 0x55 true, BusEv.ce 0x2AAA 13 0x90 true,
       BusEv.rd (0x100 + 2 * m) 9 (runSetUp env s).data,
       BusEv.ce (0x100 + 2 * m) 13 0x90 false] ∧
    (runSetUp env s).data = env.port (s.bus ++
      [BusEv.ce 0x000F 13 0xF0 true, BusEv.ce 0x0AAA 13 0xAA true,
       BusEv.ce 0x1555 13 0x55 true, BusEv.ce 0x2AAA 13 0x90 true])
      false 9 (0x100 + 2 * m) % 256 ∧
    (handleVendorControlTransfer reqGetData (runSetUp env s)).1 = some 2 ∧
    (handleVendorControlTransfer reqGetData (runSetUp env s)).2.Ep0Buffer 0
      = (runSetUp env s).data ∧
    0x2AAA % 4096 = 0xAAA ∧ (0x100 + 2 * m) % 256 = 2 * m := by
  have h := runSetUp_identify_spec env s m hm hd
  refine ⟨?_, ?_, ?_, ?_, by norm_num, by omega⟩
  · rw [h.1]; simp [identifyWrites]
  · rw [h.2.1]; simp [identifyWrites]
  · rw [handle_getData]
  · rw [handle_getData]; simp

/-- Witness for C10 (amended): identify-manufacturer requested at power-on. -/
theorem runSetUp_identify_witness :
    0 < 2 ∧ powerOn.data = 0 ∧
    (runSetUp envReady powerOn).bus = powerOn.bus ++
      [BusEv.ce 0x000F 13 0xF0 true, BusEv.ce 0x0AAA 13 0xAA true,
       BusEv.ce 0x1555 13 0x55 true, BusEv.ce 0x2AAA 13 0x90 true,
       BusEv.rd (0x100 + 2 * 0) 9 (runSetUp envReady powerOn).data,
       BusEv.ce (0x100 + 2 * 0) 13 0x90 false] ∧
    (runSetUp envReady powerOn).data = envReady.port (powerOn.bus ++
      [BusEv.ce 0x000F 13 0xF0 true, BusEv.ce 0x0AAA 13 0xAA true,
       BusEv.ce 0x1555 13 0x55 true, BusEv.ce 0x2AAA 13 0x90 true])
      false 9 (0x100 + 2 * 0) % 256 ∧
    (handleVendorControlTransfer reqGetData (runSetUp envReady powerOn)).1 = some 2 ∧
    (handleVendorControlTransfer reqGetData (runSetUp envReady powerOn)).2.Ep0Buffer 0
      = (runSetUp envReady powerOn).data ∧
    0x2AAA % 4096 = 0xAAA ∧ (0x100 + 2 * 0) % 256 = 2 * 0 :=
  ⟨by norm_num, rfl, runSetUp_identify envReady powerOn 0 (by norm_num) rfl⟩

/-- Counterexample to C10 as stated: for identify-manufacturer at power-on the fourth
write cycle is not issued while the address outputs hold 0xAAA, and the read cycle is
not performed at address 0, whatever control byte, flag and value the events carry. -/
theorem runSetUp_identify_stated_counterexample :
    (¬ ∃ (q : Nat) (w : Bool),
      (runSetUp envReady powerOn).bus[3]? = some (BusEv.ce 0xAAA q 0x90 w)) ∧
    (¬ ∃ (q v : Nat), (runSetUp envReady powerOn).bus[4]? = some (BusEv.rd 0 q v)) := by
  have h := (runSetUp_identify_spec envReady powerOn 0 (by norm_num) rfl).1
  constructor
  · rintro ⟨q, w, hq⟩
    rw [h] at hq
    simp [powerOn, identifyWrites] at hq
  · rintro ⟨q, v, hq⟩
    rw [h] at hq
    simp [powerOn, identifyWrites] at hq

/-! ## Erase polling -/

theorem waitForEraseLoop_succ (env : Env) (cnt : Nat) (s : Dev) (hd : s.data ≠ 0xFF) :
    waitForEraseLoop env (cnt + 1) s = waitForEraseLoop env cnt (erasePass env (cnt + 1) s) := by
  simp [waitForEraseLoop, hd, erasePass]

theorem waitForEraseLoop_count (env : Env) :
    ∀ (cnt : Nat) (s : Dev), s.data ≠ 0xFF →
      ((waitForEraseLoop env cnt s).1 ≠ 0 ↔
        ∃ k, 1 ≤ k ∧ k < cnt ∧ (eraseState env k cnt s).data = 0xFF) := by
  intro cnt
  induction cnt with
  | zero =>
    intro s _
    simp [waitForEraseLoop]
  | succ cnt ih =>
    intro s hd
    rw [waitForEraseLoop_succ env cnt s hd]
    by_cases h1 : (erasePass env (cnt + 1) s).data = 0xFF
    · cases cnt with
      | zero =>
        simp only [waitForEraseLoop]
        constructor
        · intro h; exact absurd rfl h
        · rintro ⟨k, hk1, hk2, _⟩; omega
      | succ c =>
        have : waitForEraseLoop env (c + 1) (erasePass env (c + 1 + 1) s)
            = (c + 1, erasePass env (c + 1 + 1) s) := by
          simp [waitForEraseLoop, h1]
        rw [this]
        constructor
        · intro _
          exact ⟨1, le_refl 1, by omega, h1⟩
        · intro _
          exact Nat.succ_ne_zero c
    · rw [ih _ h1]
      constructor
      · rintro ⟨k, hk1, hk2, hk3⟩
        exact ⟨k + 1, by omega, by omega, hk3⟩
      · rintro ⟨k, hk1, hk2, hk3⟩
        cases k with
        | zero => omega
        | succ k =>
          cases k with
          | zero => exact absurd hk3 h1
          | succ k => exact ⟨k + 1, by omega, by omega, hk3⟩

theorem waitForErase_status (env : Env) (s : Dev) :
    (waitForErase env s).status =
      if (waitForEraseLoop env 100 (eraseEntry s)).1 ≠ 0 then STATUS_INITIALISED
      else STATUS_ERASE_FAIL := rfl

theorem waitForErase_status_iff (env : Env) (s : Dev) :
    ((waitForErase env s).status = STATUS_INITIALISED ↔
      ∃ k, 1 ≤ k ∧ k ≤ 99 ∧ (eraseState env k 100 (eraseEntry s)).data = 0xFF) ∧
    ((waitForErase env s).status ≠ STATUS_INITIALISED →
      (waitForErase env s).status = STATUS_ERASE_FAIL) := by
  have hd : (eraseEntry s).data ≠ 0xFF := by
    simp [eraseEntry]
  have h := waitForEraseLoop_count env 100 (eraseEntry s) hd
  rw [waitForErase_status]
  by_cases hc : (waitForEraseLoop env 100 (eraseEntry s)).1 ≠ 0
  · rw [if_pos hc]
    refine ⟨⟨fun _ => ?_, fun _ => rfl⟩, fun hne => absurd rfl hne⟩
    obtain ⟨k, hk1, hk2, hk3⟩ := h.1 hc
    exact ⟨k, hk1, by omega, hk3⟩
  · rw [if_neg hc]
    refine ⟨⟨fun hbad => absurd hbad (by decide), ?_⟩, fun _ => rfl⟩
    rintro ⟨k, hk1, hk2, hk3⟩
    exact absurd (h.2 ⟨k, hk1, by omega, hk3⟩) hc

theorem countP_isRead_pass (hist : List BusEv) (a q v a2 q2 d : Nat) (w : Bool) :
    (hist ++ [BusEv.rd a q v, BusEv.ce a2 q2 d w]).countP isRead
      = hist.countP isRead + 1 := by
  simp [List.countP_append, List.countP_cons, isRead]

theorem erasePass_envLate (cnt : Nat) (t : Dev) (hf : t.FLCE = true)
    (hp : t.P1_DIR_PU = 0) :
    (erasePass envLate cnt t).FLCE = true ∧ (erasePass envLate cnt t).P1_DIR_PU = 0 ∧
    (erasePass envLate cnt t).bus.countP isRead = t.bus.countP isRead + 1 ∧
    (erasePass envLate cnt t).data = if t.bus.countP isRead = 99 then 0xFF else 0 := by
  rw [erasePass, readByte_lit envLate 1 _ (by norm_num) (by exact hf)]
  refine ⟨rfl, hp, ?_, ?_⟩
  · simp only []
    exact countP_isRead_pass _ _ _ _ _ _ _ _
  · simp only [sampleAt, hp, envLate]
    split_ifs <;> rfl

theorem eraseState_envLate :
    ∀ (k cnt : Nat) (t : Dev), t.FLCE = true → t.P1_DIR_PU = 0 →
      (eraseState envLate k cnt t).FLCE = true ∧ (eraseState envLate k cnt t).P1_DIR_PU = 0 ∧
      (eraseState envLate k cnt t).bus.countP isRead = t.bus.countP isRead + k ∧
      (1 ≤ k → (eraseState envLate k cnt t).data
        = if t.bus.countP isRead + (k - 1) = 99 then 0xFF else 0) := by
  intro k
  induction k with
  | zero =>
    intro cnt t hf hp
    exact ⟨hf, hp, rfl, fun h => absurd h (by norm_num)⟩
  | succ k ih =>
    intro cnt t hf hp
    have hpass := erasePass_envLate cnt t hf hp
    have IH := ih (cnt - 1) (erasePass envLate cnt t) hpass.1 hpass.2.1
    simp only [eraseState]
    refine ⟨IH.1, IH.2.1, by rw [IH.2.2.1, hpass.2.2.1]; omega, ?_⟩
    intro _
    cases k with
    | zero => simpa [eraseState] using hpass.2.2.2
    | succ k =>
      rw [IH.2.2.2 (by omega), hpass.2.2.1]
      have e : t.bus.countP isRead + 1 + (k + 1 - 1) = t.bus.countP isRead + (k + 1 + 1 - 1) := by
        omega
      rw [e]

/-- Claim C7, the code at the failing input: when the flash answers 0xFF for the first
time on the 100th, last permitted read-back of `waitForErase`, the status is set to
ERASE_FAILED although one of the at most 100 read-backs returned 0xFF. -/
theorem waitForErase_last_readback_fails :
    (∀ k, 1 ≤ k → k ≤ 99 → (eraseState envLate k 100 (eraseEntry powerOn)).data ≠ 0xFF) ∧
    (eraseState envLate 100 100 (eraseEntry powerOn)).data = 0xFF ∧
    (waitForErase envLate powerOn).status = STATUS_ERASE_FAIL := by
  have hf : (eraseEntry powerOn).FLCE = true := by
    simp [eraseEntry, setShiftRegsCtrl_eq, P1_DATA_IN, powerOn]
  have hp : (eraseEntry powerOn).P1_DIR_PU = 0 := by
    simp [eraseEntry, setShiftRegsCtrl_eq, P1_DATA_IN]
  have hb : (eraseEntry powerOn).bus.countP isRead = 0 := by
    simp [eraseEntry, setShiftRegsCtrl_eq, P1_DATA_IN, powerOn]
  have hdata : ∀ k, 1 ≤ k →
      (eraseState envLate k 100 (eraseEntry powerOn)).data = if k - 1 = 99 then 0xFF else 0 := by
    intro k hk
    have := (eraseState_envLate k 100 (eraseEntry powerOn) hf hp).2.2.2 hk
    rw [hb, Nat.zero_add] at this
    exact this
  have hnot : ∀ k, 1 ≤ k → k ≤ 99 →
      (eraseState envLate k 100 (eraseEntry powerOn)).data ≠ 0xFF := by
    intro k hk1 hk2
    rw [hdata k hk1, if_neg (by omega)]
    norm_num
  refine ⟨hnot, ?_, ?_⟩
  · rw [hdata 100 (by norm_num)]
    norm_num
  · have h := waitForErase_status_iff envLate powerOn
    apply h.2
    intro h0
    obtain ⟨k, hk1, hk2, hk3⟩ := h.1.1 h0
    exact hnot k hk1 hk2 hk3

/-! ## Round trip through the idealised flash -/

theorem weLow_ctlAddr (c b : Nat) : weLow (ctlAddr c (16 * b) % 256) = weLow c := by
  simp only [weLow, bitOf, ctlAddr_eq]
  congr 2
  norm_num
  omega

theorem runSetUp_write_eq (env : Env) (s : Dev) (hd : s.data = SETUP_WRITE) :
    runSetUp env s =
    { s with
      addrH := 0
      addrL := 0
      addrBank := 0
      ctrl := 5
      status := STATUS_INITIALISED
      P1 := 0xF0
      P1_DIR_PU := 0xFF
      ST_CLK := true
      SH1_CLK := true
      SH2_CLK := true
      SDATA1 := false
      FLCE := true
      U1 := 0x0F
      U2 := 0
      U3 := 5
      Q1 := 0x0F
      Q2 := 0
      Q3 := 5
      weSeen := true
      bus := s.bus ++ [BusEv.ce 0x000F 13 0xF0 true]
      pins := s.pins ++ setUpModeTrace 5
      ops := s.ops ++ [ShiftOp.full 13] } := by
  have h1 : (setUpReset s).data = 7 := by rw [setUpReset_eq]; exact hd
  have e : (13 : Nat) &&& 0xF7 = 5 := by decide
  have h2 : runSetUp env s = setShiftRegsCtrl
      { setUpReset s with status := STATUS_INITIALISED, ctrl := (setUpReset s).ctrl &&& 0xF7 } := by
    simp [runSetUp, h1, SETUP_READY, SETUP_READ, SETUP_WRITE]
  rw [h2, setShiftRegsCtrl_eq, setUpReset_eq]
  simp [e, setUpModeTrace, bitOf]

theorem runSetUp_read_eq (env : Env) (s : Dev) (hd : s.data = SETUP_READ) :
    runSetUp env s =
    { s with
      addrH := 0
      addrL := 0
      addrBank := 0
      ctrl := 9
      status := STATUS_INITIALISED
      P1 := 0xF0
      P1_DIR_PU := 0
      ST_CLK := true
      SH1_CLK := true
      SH2_CLK := true
      SDATA1 := false
      FLCE := true
      U1 := 0x0F
      U2 := 0
      U3 := 9
      Q1 := 0x0F
      Q2 := 0
      Q3 := 9
      weSeen := true
      bus := s.bus ++ [BusEv.ce 0x000F 13 0xF0 true]
      pins := s.pins ++ setUpModeTrace 9
      ops := s.ops ++ [ShiftOp.full 13] } := by
  have h1 : (setUpReset s).data = 6 := by rw [setUpReset_eq]; exact hd
  have e : (13 : Nat) &&& 0xFB = 9 := by decide
  have h2 : runSetUp env s = setShiftRegsCtrl
      { P1_DATA_IN { setUpReset s with status := STATUS_INITIALISED } with
        ctrl := (setUpReset s).ctrl &&& 0xFB } := by
    simp [runSetUp, h1, SETUP_READY, SETUP_READ, P1_DATA_IN]
  rw [h2, setShiftRegsCtrl_eq, setUpReset_eq]
  simp [e, setUpModeTrace, bitOf, P1_DATA_IN]

theorem deviceDo_setup (env : Env) (mode : Nat) (hm : mode < 256) (s : Dev) :
    deviceDo env (usbRequest CMD_SET_UP 0 (mode * 256)) s =
      runSetUp env { s with addrH := 0, addrL := 0, addrBank := 0, data := mode,
                            command := 0 } := by
  have e1 : mode * 256 / 256 % 256 = mode := by omega
  have e2 : mode * 256 % 256 = 0 := by omega
  simp [deviceDo, usbRequest, handleVendorControlTransfer, mainLoopPass, CMD_SET_UP,
    CMD_SET_SHREG, CMD_SET_ADDR, CMD_SET_DATA, CMD_GET_DATA, CMD_BOOTLOADER, CMD_WRITE,
    CMD_WRITE_SLOW, CMD_READ, e1, e2, Nat.mod_eq_of_lt hm]

theorem mainLoopPass_read (env : Env) (s : Dev) (hc : s.command = CMD_READ) :
    mainLoopPass env s =
      { readData env (P1_DATA_IN (blinkLED { s with command := 0, status := CMD_READ }))
        with status := 0 } := by
  simp [mainLoopPass, hc, CMD_WRITE, CMD_WRITE_SLOW, CMD_READ]

theorem writeRequest_eq (A k : Nat) (hk : k < 16) (B : Nat → Nat) (s : Dev) :
    handleVendorDataTransfer (usbRequest CMD_WRITE A k)
      (usbDataStage B (handleVendorControlTransfer (usbRequest CMD_WRITE A k) s).2) =
    { s with
      rwBuffer := fun i => if i < 64 then B i % 256 else s.rwBuffer i
      Ep0Buffer := fun i => if i < 64 then B i % 256 else s.Ep0Buffer i
      command := CMD_WRITE
      addrBank := 16 * k
      addrH := A / 256 % 256
      addrL := A % 256
      data := 0 } := by
  have e1 : k % 256 * 16 % 256 = 16 * k := by omega
  have e2 : k / 256 % 256 = 0 := by omega
  simp [handleVendorDataTransfer, usbDataStage, handleVendorControlTransfer, usbRequest,
    CMD_SET_UP, CMD_SET_SHREG, CMD_SET_ADDR, CMD_SET_DATA, CMD_GET_DATA, CMD_BOOTLOADER,
    CMD_WRITE, CMD_WRITE_SLOW, CMD_READ, e1, e2]
  funext i
  split_ifs <;> rfl

theorem addrTrace_spec (h l : Nat) : addrTrace h l = addrShiftSpec h l := rfl

theorem addrLowTrace_spec (l : Nat) : addrLowTrace l = addrLowShiftSpec l := rfl

theorem addrShiftSpec_pulses (h l : Nat) :
    clockPulses Pin.SH1_CLK (addrShiftSpec h l) = 16 ∧
    clockPulses Pin.SH2_CLK (addrShiftSpec h l) = 0 ∧
    (addrShiftSpec h l).length = 50 := by
  simp [clockPulses, addrShiftSpec, shiftBitsSpec, shiftBitSpec, List.count_cons]

theorem addrLowShiftSpec_pulses (l : Nat) :
    clockPulses Pin.SH1_CLK (addrLowShiftSpec l) = 8 ∧
    clockPulses Pin.SH2_CLK (addrLowShiftSpec l) = 0 ∧
    (addrLowShiftSpec l).length = 26 := by
  simp [clockPulses, addrLowShiftSpec, shiftBitsSpec, shiftBitSpec, List.count_cons]

/-- Claim C18 (`setShiftRegsAddr`).  The routine writes the pins exactly as specified:
ST_CLK low, then the 16 bits `addrH` bit 7 down to bit 0 followed by `addrL` bit 7 down
to bit 0, each as SH1_CLK low, SDATA1 set, SH1_CLK high (16 rising edges of SH1_CLK,
none of SH2_CLK), then ST_CLK high.  With SH1B low, whatever the registers held before,
the daisy-chained shift stages and the 16 address outputs hold `addrH * 256 + addrL`
afterwards. -/
theorem setShiftRegsAddr_sixteen_bits (s : Dev) :
    (setShiftRegsAddr s).pins = s.pins ++ addrShiftSpec s.addrH s.addrL ∧
    clockPulses Pin.SH1_CLK (addrShiftSpec s.addrH s.addrL) = 16 ∧
    clockPulses Pin.SH2_CLK (addrShiftSpec s.addrH s.addrL) = 0 ∧
    (sh1bLow s.Q3 = true →
      (setShiftRegsAddr s).chain = s.addrH % 256 * 256 + s.addrL % 256 ∧
      (setShiftRegsAddr s).adr = s.addrH % 256 * 256 + s.addrL % 256) := by
  refine ⟨?_, (addrShiftSpec_pulses _ _).1, (addrShiftSpec_pulses _ _).2.1, ?_⟩
  · rw [setShiftRegsAddr_eq, ← addrTrace_spec]
  · intro h
    rw [setShiftRegsAddr_eq]
    simp [Dev.chain, Dev.adr, h]

theorem setShiftRegsAddr_sixteen_bits_witness :
    sh1bLow shiftDemo.Q3 = true ∧
    (setShiftRegsAddr shiftDemo).chain = 0xA5 * 256 + 0x3C ∧
    (setShiftRegsAddr shiftDemo).adr = 0xA5 * 256 + 0x3C :=
  ⟨by decide, (setShiftRegsAddr_sixteen_bits shiftDemo).2.2.2 (by decide)⟩

/-- Claim C19 (`setShiftRegsAddrLow`).  The routine writes ST_CLK low, the 8 bits of
`addrL` bit 7 down to bit 0 on SH1_CLK (8 rising edges), ST_CLK high.  With SH1B high
the first register afterwards holds `addrL` and the second is unchanged; so if the
second register already holds `addrH`, shift stages and address outputs equal those
that the full shift `setShiftRegsAddr` produces for the same `addrH`, `addrL` from any
state with SH1B low. -/
theorem setShiftRegsAddrLow_low_byte (s : Dev) :
    (setShiftRegsAddrLow s).pins = s.pins ++ addrLowShiftSpec s.addrL ∧
    clockPulses Pin.SH1_CLK (addrLowShiftSpec s.addrL) = 8 ∧
    (sh1bLow s.Q3 = false →
      (setShiftRegsAddrLow s).U1 = s.addrL % 256 ∧
      (setShiftRegsAddrLow s).U2 = s.U2 ∧
      (setShiftRegsAddrLow s).Q1 = s.addrL % 256 ∧
      (setShiftRegsAddrLow s).Q2 = s.U2 ∧
      (s.U2 = s.addrH % 256 →
        ∀ t : Dev, sh1bLow t.Q3 = true → t.addrH = s.addrH → t.addrL = s.addrL →
          (setShiftRegsAddrLow s).chain = (setShiftRegsAddr t).chain ∧
          (setShiftRegsAddrLow s).adr = (setShiftRegsAddr t).adr)) := by
  refine ⟨?_, (addrLowShiftSpec_pulses _).1, ?_⟩
  · rw [setShiftRegsAddrLow_eq, ← addrLowTrace_spec]
  · intro h
    rw [setShiftRegsAddrLow_eq]
    refine ⟨rfl, by simp [h], rfl, by simp [h], ?_⟩
    intro hu t ht hh hl
    rw [setShiftRegsAddr_eq]
    simp [Dev.chain, Dev.adr, h, ht, hh, hl, hu]

theorem setShiftRegsAddrLow_low_byte_witness :
    sh1bLow shiftDemoLow.Q3 = false ∧
    (setShiftRegsAddrLow shiftDemoLow).U1 = 0x3C ∧
    (setShiftRegsAddrLow shiftDemoLow).U2 = 0xA5 ∧
    (setShiftRegsAddrLow shiftDemoLow).adr = (setShiftRegsAddr shiftDemo).adr :=
  ⟨by decide,
    ((setShiftRegsAddrLow_low_byte shiftDemoLow).2.2 (by decide)).1,
    ((setShiftRegsAddrLow_low_byte shiftDemoLow).2.2 (by decide)).2.1,
    (((setShiftRegsAddrLow_low_byte shiftDemoLow).2.2 (by decide)).2.2.2.2 (by decide)
      shiftDemo (by decide) rfl rfl).2⟩

theorem rbCtl_bank (c b : Nat) (hb : b < 16) : rbCtl c (16 * b) % 256 / 16 = b := by
  rw [rbCtl, land_FB, ctlAddr_eq]
  omega

theorem oeLow_rbCtl (c b : Nat) : oeLow (rbCtl c (16 * b) % 256) = true := by
  simp only [oeLow, bitOf, rbCtl, land_FB, ctlAddr_eq]
  norm_num
  omega

theorem lor_four (l : Nat) (hl : l < 256) :
    (l ||| 4) = l + 4 * (1 - l / 4 % 2) ∧ (l ||| 4) < 256 := by
  have h := lor_bit l 2 hl (by norm_num)
  have e : (2 : Nat) ^ 2 = 4 := by norm_num
  rw [e] at h
  rw [h]
  omega

theorem verifyEntry_eq (s : Dev) :
    verifyEntry s =
    { s with
      addrL := s.addrL ||| 4
      ctrl := 13
      status := SETUP_SECTOR_VERIFY
      P1 := 0x90
      P1_DIR_PU := 0
      ST_CLK := true
      SH1_CLK := true
      SH2_CLK := true
      SDATA1 := false
      FLCE := true
      U1 := 0xAA
      U2 := 0x0A
      U3 := 13
      Q1 := 0xAA
      Q2 := 0x0A
      Q3 := 13
      weSeen := true
      bus := s.bus ++ verifyWrites
      pins := s.pins ++ setUpResetTrace ++ setUpUnlockTrace ++ writeByteTrace 13 0 0x0A 0xAA
      ops := s.ops ++ [ShiftOp.full 13, ShiftOp.full 13, ShiftOp.full 13, ShiftOp.full 13] } := by
  rw [verifyEntry, writeByte_lit _ _ _ (by norm_num : (0xAAA : Nat) ≠ 0),
    setUpUnlock_eq _ (by rw [setUpReset_eq]), setUpReset_eq]
  simp [P1_DATA_IN, wrCtl_13, ctlAddr_13, verifyWrites, bitOf]

theorem runSetUp_verify (env : Env) (s : Dev) (hd : s.data = SETUP_SECTOR_VERIFY) :
    runSetUp env s = readByte env 0 (verifyEntry s) := by
  have h1 : (setUpReset s).data = 2 := by rw [setUpReset_eq]; exact hd
  have h2 : (setUpUnlock (setUpReset s)).data = 2 := by
    rw [setUpUnlock_eq _ (by rw [setUpReset_eq]), setUpReset_eq]; exact hd
  simp [runSetUp, verifyEntry, h1, h2, SETUP_READY, SETUP_READ, SETUP_WRITE,
    SETUP_MANUF_ID, SETUP_DEVICE_ID, SETUP_SECTOR_VERIFY, P1_DATA_IN]

theorem runSetUp_verify_spec (env : Env) (s : Dev) (b : Nat)
    (hd : s.data = SETUP_SECTOR_VERIFY) (hb : s.addrBank = 16 * b) :
    (runSetUp env s).bus = s.bus ++ verifyWrites ++
      [BusEv.rd (s.addrH % 256 * 256 + (s.addrL ||| 4) % 256) (rbCtl 13 (16 * b) % 256)
          (runSetUp env s).data,
        BusEv.ce (s.addrH % 256 * 256 + (s.addrL ||| 4) % 256)
          ((rbCtl 13 (16 * b) ||| CTRL_OE) % 256) 0x90 (weLow (ctlAddr 13 (16 * b) % 256))] ∧
    (runSetUp env s).data = env.port (s.bus ++ verifyWrites) false (rbCtl 13 (16 * b) % 256)
      (s.addrH % 256 * 256 + (s.addrL ||| 4) % 256) % 256 ∧
    (runSetUp env s).status = SETUP_SECTOR_VERIFY := by
  rw [runSetUp_verify env s hd,
    readByte_zero env (verifyEntry s) b (by rw [verifyEntry_eq]; exact hb)
      (by rw [verifyEntry_eq]),
    verifyEntry_eq]
  simp [sampleAt]

theorem rbCtl_13_bank (b : Nat) (hb : b < 16) :
    rbCtl 13 (16 * b) % 256 = 9 + 16 * b ∧ (rbCtl 13 (16 * b) ||| CTRL_OE) % 256 = 13 + 16 * b := by
  have h1 : rbCtl 13 (16 * b) = 9 + 16 * b := by
    rw [rbCtl, land_FB, ctlAddr_eq]; omega
  have h := lor_bit (9 + 16 * b) 2 (by omega) (by norm_num)
  have e : (2 : Nat) ^ 2 = 4 := by norm_num
  rw [e] at h
  rw [h1, CTRL_OE, h]
  omega

/-- Claim C11 (amended).  For setup mode verify-sector-protection with request address
bank nibble `b`, high byte `h`, low byte `l`, `runSetUp` issues the soft reset, the two
unlock cycles and 0x90 at 0xAAA, and then performs exactly one read of the data port,
with OE# low, in bank `b` while the address outputs hold `h*256 + (l | 4)`: the low byte
with bit 2 set.  This is `A + 4` exactly when bit 2 of `l` is clear, as for every
sector-aligned address; when bit 2 of `l` is set it is `A` itself. -/
theorem runSetUp_sector_verify_read (env : Env) (s : Dev) (b h l : Nat)
    (hd : s.data = SETUP_SECTOR_VERIFY) (hb : s.addrBank = 16 * b) (hbn : b < 16)
    (hh : s.addrH = h) (hhn : h < 256) (hl : s.addrL = l) (hln : l < 256) :
    (runSetUp env s).bus = s.bus ++
      [BusEv.ce 0x000F 13 0xF0 true, BusEv.ce 0x0AAA 13 0xAA true,
       BusEv.ce 0x1555 13 0x55 true, BusEv.ce 0x0AAA 13 0x90 true,
       BusEv.rd (h * 256 + (l ||| 4)) (9 + 16 * b) (runSetUp env s).data,
       BusEv.ce (h * 256 + (l ||| 4)) (13 + 16 * b) 0x90 false] ∧
    (9 + 16 * b) / 16 = b ∧ oeLow (9 + 16 * b) = true ∧
    (runSetUp env s).status = SETUP_SECTOR_VERIFY ∧
    (l / 4 % 2 = 0 → h * 256 + (l ||| 4) = h * 256 + l + 4) ∧
    (l / 4 % 2 = 1 → h * 256 + (l ||| 4) = h * 256 + l) := by
  have hs := runSetUp_verify_spec env s b hd hb
  have h4 := lor_four l hln
  have hq := rbCtl_13_bank b hbn
  have ho := oeLow_rbCtl 13 b
  rw [hq.1] at ho
  have hw : weLow (ctlAddr 13 (16 * b) % 256) = false := by
    rw [weLow_ctlAddr]; decide
  refine ⟨?_, by omega, ho, hs.2.2, ?_, ?_⟩
  · rw [hs.1, hq.1, hq.2, hw, hh, hl, Nat.mod_eq_of_lt hhn, Nat.mod_eq_of_lt h4.2]
    simp [verifyWrites]
  · intro h0
    rw [h4.1, h0]
    omega
  · intro h1
    rw [h4.1, h1]
    omega

/-- Witness for C11 (amended): the protection status of the sector at bank 3, address
`0x4000` is read at `0x4004`. -/
theorem runSetUp_sector_verify_read_witness :
    (runSetUp envReady sectorVerifyAligned).bus =
      [BusEv.ce 0x000F 13 0xF0 true, BusEv.ce 0x0AAA 13 0xAA true,
       BusEv.ce 0x1555 13 0x55 true, BusEv.ce 0x0AAA 13 0x90 true,
       BusEv.rd (0x40 * 256 + (0 ||| 4)) (9 + 16 * 3) (runSetUp envReady sectorVerifyAligned).data,
       BusEv.ce (0x40 * 256 + (0 ||| 4)) (13 + 16 * 3) 0x90 false] ∧
    0x40 * 256 + (0 ||| 4) = 0x40 * 256 + 0 + 4 :=
  ⟨(runSetUp_sector_verify_read envReady sectorVerifyAligned 3 0x40 0 rfl rfl
      (by norm_num) rfl (by norm_num) rfl (by norm_num)).1,
   (runSetUp_sector_verify_read envReady sectorVerifyAligned 3 0x40 0 rfl rfl
      (by norm_num) rfl (by norm_num) rfl (by norm_num)).2.2.2.2.1 (by norm_num)⟩

/-- Counterexample to C11 as stated: for the request address bank 3, `0x4004` the read
of the data port is performed at `0x4004`, and no read is performed at `A + 4 = 0x4008`. -/
theorem runSetUp_sector_verify_stated_counterexample :
    (∃ q v : Nat, (runSetUp envReady sectorVerifyRequest).bus[4]? = some (BusEv.rd 0x4004 q v)) ∧
    (¬ ∃ q v : Nat, BusEv.rd 0x4008 q v ∈ (runSetUp envReady sectorVerifyRequest).bus) := by
  have h := (runSetUp_verify_spec envReady sectorVerifyRequest 3 rfl rfl).1
  have e : (sectorVerifyRequest.addrL ||| 4) = 4 := by decide
  have e2 : sectorVerifyRequest.addrH = 0x40 := rfl
  have e3 : sectorVerifyRequest.bus = [] := rfl
  rw [e, e2, e3] at h
  constructor
  · refine ⟨rbCtl 13 (16 * 3) % 256, (runSetUp envReady sectorVerifyRequest).data, ?_⟩
    rw [h]
    simp [verifyWrites]
  · rintro ⟨q, v, hq⟩
    rw [h] at hq
    simp [verifyWrites] at hq

/-- Claim C12.  For every prior device state, `runSetUp` in the modes begin-read and
begin-write issues exactly one bus cycle, the soft reset `0xF0` written at address
`0x0F`, ends with status INITIALISED and with bank, high and low address registers 0.
After begin-read the control register, in the variable and on the outputs of U3, has
OUTPUT_ENABLE asserted (bit 0x04 clear) and WRITE_ENABLE deasserted (bit 0x08 set) and
the data port is an input; after begin-write it has WRITE_ENABLE asserted (bit 0x08
clear) and OUTPUT_ENABLE deasserted (bit 0x04 set) and the data port is an output. -/
theorem runSetUp_begin_read_write (env : Env) (s : Dev)
    (hd : s.data = SETUP_READ ∨ s.data = SETUP_WRITE) :
    (runSetUp env s).bus = s.bus ++ [BusEv.ce 0x000F 13 0xF0 true] ∧
    (runSetUp env s).status = STATUS_INITIALISED ∧
    (runSetUp env s).addrBank = 0 ∧ (runSetUp env s).addrH = 0 ∧
    (runSetUp env s).addrL = 0 ∧
    (runSetUp env s).Q3 = (runSetUp env s).ctrl ∧
    (s.data = SETUP_READ →
      (runSetUp env s).Q3 &&& CTRL_OE = 0 ∧ (runSetUp env s).Q3 &&& CTRL_WE = CTRL_WE ∧
      (runSetUp env s).P1_DIR_PU = 0) ∧
    (s.data = SETUP_WRITE →
      (runSetUp env s).Q3 &&& CTRL_WE = 0 ∧ (runSetUp env s).Q3 &&& CTRL_OE = CTRL_OE ∧
      (runSetUp env s).P1_DIR_PU = 0xFF) := by
  rcases hd with h | h
  · have e := runSetUp_read_eq env s h
    refine ⟨by rw [e], by rw [e], by rw [e], by rw [e], by rw [e], by rw [e], ?_, ?_⟩
    · intro _
      rw [e]
      exact ⟨(by decide : (9 : Nat) &&& CTRL_OE = 0),
        (by decide : (9 : Nat) &&& CTRL_WE = CTRL_WE), rfl⟩
    · intro h2
      rw [h] at h2
      exact absurd h2 (by decide)
  · have e := runSetUp_write_eq env s h
    refine ⟨by rw [e], by rw [e], by rw [e], by rw [e], by rw [e], by rw [e], ?_, ?_⟩
    · intro h2
      rw [h] at h2
      exact absurd h2 (by decide)
    · intro _
      rw [e]
      exact ⟨(by decide : (5 : Nat) &&& CTRL_WE = 0),
        (by decide : (5 : Nat) &&& CTRL_OE = CTRL_OE), rfl⟩

/-- Witness for C12: begin-read and begin-write requested while the chip is selected
and an address and a bank are loaded. -/
theorem runSetUp_begin_read_write_witness :
    ((runSetUp envStuck readBusy).Q3 &&& CTRL_OE = 0 ∧
      (runSetUp envStuck readBusy).bus = [BusEv.ce 0x000F 13 0xF0 true]) ∧
    ((runSetUp envStuck writeBusy).Q3 &&& CTRL_WE = 0 ∧
      (runSetUp envStuck writeBusy).bus = [BusEv.ce 0x000F 13 0xF0 true]) :=
  ⟨⟨((runSetUp_begin_read_write envStuck readBusy (Or.inl rfl)).2.2.2.2.2.2.1 rfl).1,
     (runSetUp_begin_read_write envStuck readBusy (Or.inl rfl)).1⟩,
   ⟨((runSetUp_begin_read_write envStuck writeBusy (Or.inr rfl)).2.2.2.2.2.2.2 rfl).1,
     (runSetUp_begin_read_write envStuck writeBusy (Or.inr rfl)).1⟩⟩

/-! ## The request handlers -/

theorem topNibble_op (r : UsbReq) :
    r.UsbIntrSetupReq % 256 / 16 * 16 = topNibble r * 16 ∧ topNibble r < 16 := by
  refine ⟨rfl, ?_⟩
  unfold topNibble
  omega

theorem handler_unsupported (r : UsbReq) (s : Dev)
    (h : topNibble r ≠ 1 ∧ topNibble r ≠ 2 ∧ topNibble r ≠ 3 ∧ topNibble r ≠ 4 ∧
      topNibble r ≠ 5 ∧ topNibble r ≠ 6 ∧ topNibble r ≠ 0xB ∧ topNibble r ≠ 0xF) :
    handleVendorControlTransfer r s = (some 0xFF, s) := by
  obtain ⟨h1, h2, h3, h4, h5, h6, hb, hf⟩ := h
  have e := (topNibble_op r).1
  have c1 : ¬ topNibble r * 16 = 0x10 := by omega
  have c2 : ¬ topNibble r * 16 = 0x20 := by omega
  have c3 : ¬ topNibble r * 16 = 0x30 := by omega
  have c4 : ¬ topNibble r * 16 = 0x40 := by omega
  have c5 : ¬ topNibble r * 16 = 0x50 := by omega
  have c6 : ¬ topNibble r * 16 = 0x60 := by omega
  have cb : ¬ topNibble r * 16 = 0xB0 := by omega
  have cf : ¬ topNibble r * 16 = 0xF0 := by omega
  simp only [handleVendorControlTransfer, e, CMD_SET_SHREG, CMD_SET_ADDR, CMD_SET_DATA,
    CMD_GET_DATA, CMD_BOOTLOADER, CMD_SET_UP, CMD_WRITE, CMD_READ]
  simp [c1, c2, c3, c4, c5, c6, cb, cf]

theorem handler_op (r : UsbReq) (s : Dev) (n : Nat) (hn : topNibble r = n) :
    handleVendorControlTransfer r s =
      (if n * 16 = CMD_SET_SHREG then
        (some 0, { s with ctrl := r.wValueL % 256, command := CMD_SET_SHREG })
      else if n * 16 = CMD_SET_ADDR then
        (some 0, { s with
          addrH := r.wValueH % 256
          addrL := r.wValueL % 256
          addrBank := r.wIndexL * 16 % 256
          command := CMD_SET_ADDR })
      else if n * 16 = CMD_SET_DATA then
        (some 0, { s with data := r.wValueL % 256, command := CMD_SET_DATA })
      else if n * 16 = CMD_GET_DATA then
        (some 2, { s with
          Ep0Buffer := Function.update (Function.update s.Ep0Buffer 0 s.data) 1 s.status })
      else if n * 16 = CMD_BOOTLOADER then
        (none, s)
      else if n * 16 = CMD_SET_UP then
        (some 0, { s with
          addrH := r.wValueH % 256
          addrL := r.wValueL % 256
          addrBank := r.wIndexL * 16 % 256
          data := r.wIndexH % 256
          command := CMD_SET_UP })
      else if n * 16 = CMD_WRITE then
        (some 0, { s with
          addrH := r.wValueH % 256
          addrL := r.wValueL % 256
          addrBank := r.wIndexL * 16 % 256
          data := r.wIndexH % 256 })
      else if n * 16 = CMD_READ then
        if r.UsbIntrSetupReq % 16 = 0 then
          (some 0, { s with
            addrH := r.wValueH % 256
            addrL := r.wValueL % 256
            addrBank := r.wIndexL * 16 % 256
            command := CMD_READ })
        else
          (some 64, { s with
            Ep0Buffer := fun i => if i < 64 then s.rwBuffer i else s.Ep0Buffer i })
      else
        (some 0xFF, s)) := by
  have e := (topNibble_op r).1
  rw [hn] at e
  simp only [handleVendorControlTransfer, e]

/-- Claim C14 (amended).  For every request byte whose top nibble is not one of 0x1,
0x2, 0x3, 0x4, 0x5, 0x6, 0xB, 0xF the handler returns the sentinel 0xFF and leaves the
whole device state unchanged.  For the top nibbles 0x1, 0x2, 0x3, 0x5 and 0xF it returns
0, for 0x4 it returns 2, for 0x6 it returns 0 (low nibble 0) or 64 (otherwise), never
0xFF.  For 0xB it jumps to the bootloader and returns no value at all. -/
theorem handleVendorControlTransfer_return (r : UsbReq) (s : Dev) :
    ((topNibble r ≠ 1 ∧ topNibble r ≠ 2 ∧ topNibble r ≠ 3 ∧ topNibble r ≠ 4 ∧
      topNibble r ≠ 5 ∧ topNibble r ≠ 6 ∧ topNibble r ≠ 0xB ∧ topNibble r ≠ 0xF) →
      handleVendorControlTransfer r s = (some 0xFF, s)) ∧
    ((topNibble r = 1 ∨ topNibble r = 2 ∨ topNibble r = 3 ∨ topNibble r = 5 ∨
      topNibble r = 0xF) → (handleVendorControlTransfer r s).1 = some 0) ∧
    (topNibble r = 4 → (handleVendorControlTransfer r s).1 = some 2) ∧
    (topNibble r = 6 →
      (r.UsbIntrSetupReq % 16 = 0 → (handleVendorControlTransfer r s).1 = some 0) ∧
      (r.UsbIntrSetupReq % 16 ≠ 0 → (handleVendorControlTransfer r s).1 = some 64)) ∧
    (topNibble r = 0xB → handleVendorControlTransfer r s = (none, s)) := by
  refine ⟨handler_unsupported r s, ?_, ?_, ?_, ?_⟩
  · rintro (h | h | h | h | h) <;> rw [handler_op r s _ h] <;>
      simp [CMD_SET_SHREG, CMD_SET_ADDR, CMD_SET_DATA, CMD_GET_DATA, CMD_BOOTLOADER,
        CMD_SET_UP, CMD_WRITE, CMD_READ]
  · intro h
    rw [handler_op r s _ h]
    simp [CMD_SET_SHREG, CMD_SET_ADDR, CMD_SET_DATA, CMD_GET_DATA]
  · intro h
    rw [handler_op r s _ h]
    constructor <;> intro h0 <;>
      simp [CMD_SET_SHREG, CMD_SET_ADDR, CMD_SET_DATA, CMD_GET_DATA, CMD_BOOTLOADER,
        CMD_SET_UP, CMD_WRITE, CMD_READ, h0]
  · intro h
    rw [handler_op r s _ h]
    simp [CMD_SET_SHREG, CMD_SET_ADDR, CMD_SET_DATA, CMD_GET_DATA, CMD_BOOTLOADER]

/-- Witness for C14 (amended): the unsupported request byte `0x70`, the supported
request SET_DATA and the bootloader request at power-on. -/
theorem handleVendorControlTransfer_return_witness :
    handleVendorControlTransfer (usbRequest 0x70 0x1234 0x0507) powerOn
      = (some 0xFF, powerOn) ∧
    (handleVendorControlTransfer (usbRequest CMD_SET_DATA 0x55 0) powerOn).1 = some 0 ∧
    (handleVendorControlTransfer (usbRequest CMD_GET_DATA 0 0) powerOn).1 = some 2 ∧
    (handleVendorControlTransfer (usbRequest (CMD_READ + 1) 0 0) powerOn).1 = some 64 ∧
    handleVendorControlTransfer (usbRequest CMD_BOOTLOADER 0 0) powerOn = (none, powerOn) :=
  ⟨(handleVendorControlTransfer_return (usbRequest 0x70 0x1234 0x0507) powerOn).1
      (by decide),
    (handleVendorControlTransfer_return (usbRequest CMD_SET_DATA 0x55 0) powerOn).2.1
      (by decide),
    (handleVendorControlTransfer_return (usbRequest CMD_GET_DATA 0 0) powerOn).2.2.1
      (by decide),
    ((handleVendorControlTransfer_return (usbRequest (CMD_READ + 1) 0 0) powerOn).2.2.2.1
      (by decide)).2 (by decide),
    (handleVendorControlTransfer_return (usbRequest CMD_BOOTLOADER 0 0) powerOn).2.2.2.2
      (by decide)⟩

/-- Counterexample to C14 as stated: the request byte `0xB0` has a supported top nibble,
and the handler returns no value for it. -/
theorem handleVendorControlTransfer_bootloader_counterexample :
    topNibble (usbRequest CMD_BOOTLOADER 0 0) = 0xB ∧
    ¬ ∃ v : Nat, (handleVendorControlTransfer (usbRequest CMD_BOOTLOADER 0 0) powerOn).1
      = some v := by
  refine ⟨by decide, ?_⟩
  rintro ⟨v, hv⟩
  rw [handler_op _ powerOn 0xB (by decide)] at hv
  simp [CMD_SET_SHREG, CMD_SET_ADDR, CMD_SET_DATA, CMD_GET_DATA, CMD_BOOTLOADER] at hv

theorem writePending_eq :
    writePending =
      { powerOn with
        rwBuffer := fun i => if i < 64 then i % 256 else 0
        Ep0Buffer := fun i => if i < 64 then i % 256 else 0
        command := CMD_WRITE
        addrBank := 0x30
        addrH := 0x12
        addrL := 0x40
        data := 0 } := by
  rw [writePending, writeRequest_eq 0x1240 3 (by norm_num)]
  rfl

/-- Claim C13 (amended).  There is one command slot and no gate on it: in every device
state, whether or not a command is pending, a state-writing request overwrites the
command state.  SET_SHREG, SET_ADDR, SET_DATA, SET_UP and READ with low nibble 0 store
their own opcode in `command` and their parameters in the registers they carry; WRITE
stores address, bank and data byte and keeps `command`.  So a request that arrives
while a command is pending replaces that command or its parameters. -/
theorem handler_overwrites_pending (r : UsbReq) (s : Dev) :
    (topNibble r = 1 →
      (handleVendorControlTransfer r s).2.command = CMD_SET_SHREG ∧
      (handleVendorControlTransfer r s).2.ctrl = r.wValueL % 256) ∧
    (topNibble r = 2 →
      (handleVendorControlTransfer r s).2.command = CMD_SET_ADDR ∧
      (handleVendorControlTransfer r s).2.addrH = r.wValueH % 256 ∧
      (handleVendorControlTransfer r s).2.addrL = r.wValueL % 256 ∧
      (handleVendorControlTransfer r s).2.addrBank = r.wIndexL * 16 % 256) ∧
    (topNibble r = 3 →
      (handleVendorControlTransfer r s).2.command = CMD_SET_DATA ∧
      (handleVendorControlTransfer r s).2.data = r.wValueL % 256) ∧
    (topNibble r = 0xF →
      (handleVendorControlTransfer r s).2.command = CMD_SET_UP ∧
      (handleVendorControlTransfer r s).2.addrH = r.wValueH % 256 ∧
      (handleVendorControlTransfer r s).2.addrL = r.wValueL % 256 ∧
      (handleVendorControlTransfer r s).2.addrBank = r.wIndexL * 16 % 256 ∧
      (handleVendorControlTransfer r s).2.data = r.wIndexH % 256) ∧
    (topNibble r = 5 →
      (handleVendorControlTransfer r s).2.command = s.command ∧
      (handleVendorControlTransfer r s).2.addrH = r.wValueH % 256 ∧
      (handleVendorControlTransfer r s).2.addrL = r.wValueL % 256 ∧
      (handleVendorControlTransfer r s).2.addrBank = r.wIndexL * 16 % 256 ∧
      (handleVendorControlTransfer r s).2.data = r.wIndexH % 256) ∧
    (topNibble r = 6 → r.UsbIntrSetupReq % 16 = 0 →
      (handleVendorControlTransfer r s).2.command = CMD_READ ∧
      (handleVendorControlTransfer r s).2.addrH = r.wValueH % 256 ∧
      (handleVendorControlTransfer r s).2.addrL = r.wValueL % 256 ∧
      (handleVendorControlTransfer r s).2.addrBank = r.wIndexL * 16 % 256) := by
  refine ⟨?_, ?_, ?_, ?_, ?_, ?_⟩
  · intro h
    rw [handler_op r s _ h]
    simp [CMD_SET_SHREG]
  · intro h
    rw [handler_op r s _ h]
    simp [CMD_SET_SHREG, CMD_SET_ADDR]
  · intro h
    rw [handler_op r s _ h]
    simp [CMD_SET_SHREG, CMD_SET_ADDR, CMD_SET_DATA]
  · intro h
    rw [handler_op r s _ h]
    simp [CMD_SET_SHREG, CMD_SET_ADDR, CMD_SET_DATA, CMD_GET_DATA, CMD_BOOTLOADER,
      CMD_SET_UP]
  · intro h
    rw [handler_op r s _ h]
    simp [CMD_SET_SHREG, CMD_SET_ADDR, CMD_SET_DATA, CMD_GET_DATA, CMD_BOOTLOADER,
      CMD_SET_UP, CMD_WRITE]
  · intro h h0
    rw [handler_op r s _ h]
    simp [CMD_SET_SHREG, CMD_SET_ADDR, CMD_SET_DATA, CMD_GET_DATA, CMD_BOOTLOADER,
      CMD_SET_UP, CMD_WRITE, CMD_READ, h0]

/-- Witness for C13 (amended): SET_DATA arriving while a bulk write is pending. -/
theorem handler_overwrites_pending_witness :
    writePending.command = CMD_WRITE ∧
    (handleVendorControlTransfer (usbRequest CMD_SET_DATA 0x55 0) writePending).2.command
      = CMD_SET_DATA ∧
    (handleVendorControlTransfer (usbRequest CMD_SET_DATA 0x55 0) writePending).2.data
      = 0x55 % 256 :=
  ⟨by rw [writePending_eq],
    (handler_overwrites_pending (usbRequest CMD_SET_DATA 0x55 0) writePending).2.2.1
      (by decide)⟩

/-- Counterexample to C13 as stated: a bulk write for bank 3, address `0x1240` is
pending when SET_DATA `0x55` arrives.  Handling the request replaces the pending opcode
and the data byte, and the next pass of the dispatch loop drives `0x55` on the data port
instead of programming the flash: no bus cycle is issued. -/
theorem handler_pending_write_counterexample :
    writePending.command = CMD_WRITE ∧ writePending.data = 0 ∧
    (handleVendorControlTransfer (usbRequest CMD_SET_DATA 0x55 0) writePending).2.command
      ≠ writePending.command ∧
    (handleVendorControlTransfer (usbRequest CMD_SET_DATA 0x55 0) writePending).2.data
      ≠ writePending.data ∧
    (deviceDo envReady (usbRequest CMD_SET_DATA 0x55 0) writePending).bus = [] ∧
    (deviceDo envReady (usbRequest CMD_SET_DATA 0x55 0) writePending).P1 = 0x55 := by
  have hs : (handleVendorControlTransfer (usbRequest CMD_SET_DATA 0x55 0) writePending).2
      = { writePending with command := CMD_SET_DATA, data := 0x55 } := by
    rw [handler_op _ _ 3 (by decide)]
    simp [CMD_SET_SHREG, CMD_SET_ADDR, CMD_SET_DATA, usbRequest]
  have hc : writePending.command = CMD_WRITE := by rw [writePending_eq]
  have hd : writePending.data = 0 := by rw [writePending_eq]
  have hb : writePending.bus = [] := by rw [writePending_eq]; rfl
  refine ⟨hc, hd, ?_, ?_, ?_, ?_⟩
  · rw [hs, hc]; decide
  · rw [hs, hd]; decide
  · rw [deviceDo, hs]
    simp [mainLoopPass, CMD_WRITE, CMD_WRITE_SLOW, CMD_READ, CMD_SET_UP, CMD_SET_SHREG,
      CMD_SET_ADDR, CMD_SET_DATA, setP1, P1_DATA_OUT, hb]
  · rw [deviceDo, hs]
    simp [mainLoopPass, CMD_WRITE, CMD_WRITE_SLOW, CMD_READ, CMD_SET_UP, CMD_SET_SHREG,
      CMD_SET_ADDR, CMD_SET_DATA, setP1, P1_DATA_OUT]

/-- Claim C15.  A WRITE control request (request byte 0x50) returns length 0, stores
address, bank and the upper byte of `wIndex` (the slow flag) and leaves the pending
command and the buffer unchanged, so that with no command pending a pass of the dispatch
loop does nothing.  Handling the data phase copies the 64 bytes of the endpoint buffer
into `rwBuffer`, keeps address and bank and sets the pending command to CMD_WRITE_SLOW
iff the upper byte of `wIndex` is non-zero, to CMD_WRITE otherwise. -/
theorem write_request_armed_by_data_phase (r : UsbReq) (s : Dev) (B : Nat → Nat)
    (hr : r.UsbIntrSetupReq = CMD_WRITE) :
    (handleVendorControlTransfer r s).1 = some 0 ∧
    (handleVendorControlTransfer r s).2.command = s.command ∧
    (handleVendorControlTransfer r s).2.rwBuffer = s.rwBuffer ∧
    (handleVendorControlTransfer r s).2.addrH = r.wValueH % 256 ∧
    (handleVendorControlTransfer r s).2.addrL = r.wValueL % 256 ∧
    (handleVendorControlTransfer r s).2.addrBank = r.wIndexL * 16 % 256 ∧
    (handleVendorControlTransfer r s).2.data = r.wIndexH % 256 ∧
    (s.command = 0 → ∀ env,
      mainLoopPass env (handleVendorControlTransfer r s).2
        = (handleVendorControlTransfer r s).2) ∧
    (∀ i, i < 64 →
      (handleVendorDataTransfer r
        (usbDataStage B (handleVendorControlTransfer r s).2)).rwBuffer i = B i % 256) ∧
    (handleVendorDataTransfer r
        (usbDataStage B (handleVendorControlTransfer r s).2)).command
      = (if r.wIndexH % 256 ≠ 0 then CMD_WRITE_SLOW else CMD_WRITE) ∧
    (handleVendorDataTransfer r
        (usbDataStage B (handleVendorControlTransfer r s).2)).addrH = r.wValueH % 256 ∧
    (handleVendorDataTransfer r
        (usbDataStage B (handleVendorControlTransfer r s).2)).addrL = r.wValueL % 256 ∧
    (handleVendorDataTransfer r
        (usbDataStage B (handleVendorControlTransfer r s).2)).addrBank
      = r.wIndexL * 16 % 256 := by
  have hn : topNibble r = 5 := by rw [topNibble, hr]; decide
  have hd : CMD_WRITE = r.UsbIntrSetupReq % 256 := by rw [hr]; decide
  have h := handler_op r s 5 hn
  simp only [CMD_SET_SHREG, CMD_SET_ADDR, CMD_SET_DATA, CMD_GET_DATA, CMD_BOOTLOADER,
    CMD_SET_UP, CMD_WRITE] at h
  norm_num at h
  rw [h]
  refine ⟨rfl, rfl, rfl, rfl, rfl, rfl, rfl, ?_, ?_, ?_, ?_, ?_, ?_⟩
  · intro hc env
    simp [mainLoopPass, hc, CMD_WRITE, CMD_WRITE_SLOW, CMD_READ, CMD_SET_UP, CMD_SET_SHREG,
      CMD_SET_ADDR, CMD_SET_DATA]
  · intro i hi
    simp [handleVendorDataTransfer, usbDataStage, hd, hi]
  · simp [handleVendorDataTransfer, usbDataStage, hd]
  · simp [handleVendorDataTransfer, usbDataStage, hd]
  · simp [handleVendorDataTransfer, usbDataStage, hd]
  · simp [handleVendorDataTransfer, usbDataStage, hd]

/-- Witness for C15: a ready-polled and a fixed-delay WRITE request at power-on. -/
theorem write_request_armed_by_data_phase_witness :
    (handleVendorControlTransfer (usbRequest CMD_WRITE 0x1240 3) powerOn).2.command = 0 ∧
    (handleVendorDataTransfer (usbRequest CMD_WRITE 0x1240 3)
      (usbDataStage (fun i => i)
        (handleVendorControlTransfer (usbRequest CMD_WRITE 0x1240 3) powerOn).2)).command
      = CMD_WRITE ∧
    (handleVendorDataTransfer (usbRequest CMD_WRITE 0x1240 0x0103)
      (usbDataStage (fun i => i)
        (handleVendorControlTransfer (usbRequest CMD_WRITE 0x1240 0x0103) powerOn).2)).command
      = CMD_WRITE_SLOW :=
  ⟨(write_request_armed_by_data_phase (usbRequest CMD_WRITE 0x1240 3) powerOn
      (fun i => i) (by decide)).2.1,
    (write_request_armed_by_data_phase (usbRequest CMD_WRITE 0x1240 3) powerOn
      (fun i => i) (by decide)).2.2.2.2.2.2.2.2.2.1,
    (write_request_armed_by_data_phase (usbRequest CMD_WRITE 0x1240 0x0103) powerOn
      (fun i => i) (by decide)).2.2.2.2.2.2.2.2.2.1⟩

/-! ## Frame of the bus routines: command slot, status byte and number of pin writes -/

theorem Keeps.andThen {s t u : Dev} {n m : Nat} (h1 : Keeps s t n) (h2 : Keeps t u m) :
    Keeps s u (n + m) := by
  obtain ⟨a1, a2, a3⟩ := h1
  obtain ⟨b1, b2, b3⟩ := h2
  exact ⟨b1.trans a1, b2.trans a2, by omega⟩

theorem Keeps.weaken {s t : Dev} {n m : Nat} (h : Keeps s t n) (hnm : n ≤ m) : Keeps s t m :=
  ⟨h.1, h.2.1, by have := h.2.2; omega⟩

theorem Keeps.refl (s : Dev) : Keeps s s 0 := ⟨rfl, rfl, by omega⟩

theorem Keeps.same {s t : Dev} (hc : t.command = s.command) (hs : t.status = s.status)
    (hp : t.pins = s.pins) : Keeps s t 0 :=
  ⟨hc, hs, by rw [hp]; exact Nat.le_add_right _ _⟩

theorem ctrlTrace_length (c : Nat) : (ctrlTrace c).length = 26 := rfl

theorem addrTrace_length (h l : Nat) : (addrTrace h l).length = 50 := rfl

theorem addrLowTrace_length (l : Nat) : (addrLowTrace l).length = 26 := rfl

theorem oneBitTrace_length (x : Bool) : (oneBitTrace x).length = 5 := rfl

theorem keeps_ctrl (s : Dev) : Keeps s (setShiftRegsCtrl s) 26 := by
  rw [setShiftRegsCtrl_eq]
  exact ⟨rfl, rfl, by simp [ctrlTrace_length]⟩

theorem keeps_addr (s : Dev) : Keeps s (setShiftRegsAddr s) 50 := by
  rw [setShiftRegsAddr_eq]
  exact ⟨rfl, rfl, by simp [addrTrace_length]⟩

theorem keeps_addrLow (s : Dev) : Keeps s (setShiftRegsAddrLow s) 26 := by
  rw [setShiftRegsAddrLow_eq]
  exact ⟨rfl, rfl, by simp [addrLowTrace_length]⟩

theorem keeps_oneBit (x : Bool) (s : Dev) : Keeps s (shiftOneBit x s) 5 := by
  rw [shiftOneBit_eq]
  exact ⟨rfl, rfl, by simp [oneBitTrace_length]⟩

theorem keeps_cePulse (d : Nat) (s : Dev) : Keeps s (cePulse d s) 2 := by
  rw [cePulse_eq]
  exact ⟨rfl, rfl, by simp⟩

theorem keeps_setAddr (s : Dev) : Keeps s (setAddr s) 76 := by
  rw [setAddr_eq]
  exact ⟨rfl, rfl, by simp [ctrlTrace_length, addrTrace_length]⟩

theorem keeps_writeByte (a d : Nat) (s : Dev) : Keeps s (writeByte a d s) 130 := by
  simp only [writeByte, setAddr_eq, setShiftRegsCtrl_eq, clrFLCE, setbFLCE, setP1]
  exact ⟨rfl, rfl, by simp [ctrlTrace_length, addrTrace_length]⟩

theorem keeps_readByte (env : Env) (a : Nat) (s : Dev) : Keeps s (readByte env a s) 130 := by
  simp only [readByte, setAddr_eq, setShiftRegsCtrl_eq, clrFLCE, setbFLCE, sampleData]
  exact ⟨rfl, rfl, by simp [ctrlTrace_length, addrTrace_length]⟩

theorem keeps_unlockPulses (s : Dev) : Keeps s (unlockPulses s) 16 := by
  have h : Keeps s (unlockPulses s) (2 + 5 + 2 + (5 + 2)) :=
    (((keeps_cePulse 0xAA s).andThen (keeps_oneBit true _)).andThen
      (keeps_cePulse 0x55 _)).andThen ((keeps_oneBit false _).andThen (keeps_cePulse 0xA0 _))
  exact h

theorem keeps_programPulse (i pl ph : Nat) (s : Dev) :
    Keeps s (programPulse i pl ph s) 52 := by
  have h1 : Keeps s { s with addrL := pl, addrH := ph } 0 := Keeps.same rfl rfl rfl
  have h : Keeps s (programPulse i pl ph s) (0 + (50 + 2)) :=
    h1.andThen ((keeps_addr _).andThen (keeps_cePulse _ _))
  exact h

theorem keeps_writeDataLoop (env : Env) :
    ∀ (n i pl ph : Nat) (s : Dev),
      Keeps s (writeDataLoop env n i pl ph s).2 (n * 118) ∧
      ((writeDataLoop env n i pl ph s).1 = 0 ∨ (writeDataLoop env n i pl ph s).1 = 1) := by
  intro n
  induction n with
  | zero =>
    intro i pl ph s
    simp only [writeDataLoop]
    split_ifs
    · exact ⟨(Keeps.refl s).weaken (Nat.zero_le _), Or.inr rfl⟩
    · exact ⟨(Keeps.refl s).weaken (Nat.zero_le _), Or.inl rfl⟩
  | succ n ih =>
    intro i pl ph s
    have h0 : Keeps s { s with addrH := 0xA, addrL := 0xAA } 0 := Keeps.same rfl rfl rfl
    have h1 := h0.andThen (keeps_addr { s with addrH := 0xA, addrL := 0xAA })
    simp only [writeDataLoop]
    split_ifs
    · exact ⟨h1.weaken (by omega), Or.inr rfl⟩
    · have h2 := (h1.andThen (keeps_unlockPulses _)).andThen (keeps_programPulse i pl ph _)
      have IH := ih (i + 1) ((pl + 1) % 256) ph
        (programPulse i pl ph (unlockPulses
          (setShiftRegsAddr { s with addrH := 0xA, addrL := 0xAA })))
      exact ⟨(h2.andThen IH.1).weaken (by omega), IH.2⟩

theorem keeps_writeData (env : Env) (s : Dev) :
    Keeps s (writeData env s).2 7578 ∧
    ((writeData env s).1 = 0 ∨ (writeData env s).1 = 1) := by
  rw [writeData_unfold]
  have h0 : Keeps s { s with P1_DIR_PU := 0xFF, ctrl := ctlAddr s.ctrl s.addrBank } 0 :=
    Keeps.same rfl rfl rfl
  have h1 := h0.andThen (keeps_ctrl _)
  have h2 := keeps_writeDataLoop env 64 0 s.addrL s.addrH
    (setShiftRegsCtrl { s with P1_DIR_PU := 0xFF, ctrl := ctlAddr s.ctrl s.addrBank })
  exact ⟨(h1.andThen h2.1).weaken (by norm_num), h2.2⟩

theorem keeps_writeDataSlowLoop :
    ∀ (n i pl ph : Nat) (s : Dev), Keeps s (writeDataSlowLoop n i pl ph s) (n * 118) := by
  intro n
  induction n with
  | zero =>
    intro i pl ph s
    exact (Keeps.refl s).weaken (Nat.zero_le _)
  | succ n ih =>
    intro i pl ph s
    have h0 : Keeps s { s with addrH := 0xA, addrL := 0xAA } 0 := Keeps.same rfl rfl rfl
    have h1 := h0.andThen (keeps_addr { s with addrH := 0xA, addrL := 0xAA })
    have h2 := (h1.andThen (keeps_unlockPulses _)).andThen (keeps_programPulse i pl ph _)
    have IH := ih (i + 1) ((pl + 1) % 256) ph
      (programPulse i pl ph (unlockPulses
        (setShiftRegsAddr { s with addrH := 0xA, addrL := 0xAA })))
    simp only [writeDataSlowLoop]
    exact (h2.andThen IH).weaken (by omega)

theorem writeDataSlow_unfold (s : Dev) :
    writeDataSlow s = (0, writeDataSlowLoop 64 0 s.addrL s.addrH
      (setShiftRegsCtrl { s with P1_DIR_PU := 0xFF, ctrl := ctlAddr s.ctrl s.addrBank })) := by
  rfl

theorem keeps_writeDataSlow (s : Dev) :
    Keeps s (writeDataSlow s).2 7578 ∧ (writeDataSlow s).1 = 0 := by
  rw [writeDataSlow_unfold]
  have h0 : Keeps s { s with P1_DIR_PU := 0xFF, ctrl := ctlAddr s.ctrl s.addrBank } 0 :=
    Keeps.same rfl rfl rfl
  have h1 := h0.andThen (keeps_ctrl _)
  have h2 := keeps_writeDataSlowLoop 64 0 s.addrL s.addrH
    (setShiftRegsCtrl { s with P1_DIR_PU := 0xFF, ctrl := ctlAddr s.ctrl s.addrBank })
  exact ⟨(h1.andThen h2).weaken (by norm_num), rfl⟩

theorem keeps_readStep (env : Env) (i : Nat) (s : Dev) : Keeps s (readStep env i s) 28 := by
  simp only [readStep, setShiftRegsAddrLow_eq, clrFLCE, setbFLCE, logRead]
  exact ⟨rfl, rfl, by simp [addrLowTrace_length]⟩

theorem keeps_readDataLoop (env : Env) :
    ∀ (n i : Nat) (s : Dev), Keeps s (readDataLoop env n i s) (n * 28) := by
  intro n
  induction n with
  | zero =>
    intro i s
    exact (Keeps.refl s).weaken (Nat.zero_le _)
  | succ n ih =>
    intro i s
    rw [readDataLoop_succ]
    exact ((keeps_readStep env i s).andThen (ih (i + 1) _)).weaken (by omega)

theorem readData_unfold (env : Env) (s : Dev) :
    readData env s = readDataLoop env 64 0
      (setShiftRegsCtrl { setAddr s with ctrl := (setAddr s).ctrl ||| CTRL_SH1B }) := rfl

theorem keeps_readData (env : Env) (s : Dev) : Keeps s (readData env s) 1894 := by
  rw [readData_unfold]
  have h0 : Keeps (setAddr s) { setAddr s with ctrl := (setAddr s).ctrl ||| CTRL_SH1B } 0 :=
    Keeps.same rfl rfl rfl
  have h1 := ((keeps_setAddr s).andThen h0).andThen (keeps_ctrl _)
  exact (h1.andThen (keeps_readDataLoop env 64 0 _)).weaken (by norm_num)

theorem keeps_erasePass (env : Env) (cnt : Nat) (s : Dev) :
    Keeps s (erasePass env cnt s) 130 := by
  have h0 : Keeps s { s with
      ctrl := if cnt % 2 = 1 then s.ctrl ||| CTRL_LED1 else s.ctrl &&& 0xFE } 0 :=
    Keeps.same rfl rfl rfl
  have h : Keeps s (erasePass env cnt s) (0 + 130) := h0.andThen (keeps_readByte env 1 _)
  exact h

theorem keeps_waitForEraseLoop (env : Env) :
    ∀ (cnt : Nat) (s : Dev), Keeps s (waitForEraseLoop env cnt s).2 (cnt * 130) := by
  intro cnt
  induction cnt with
  | zero =>
    intro s
    exact (Keeps.refl s).weaken (Nat.zero_le _)
  | succ cnt ih =>
    intro s
    by_cases hd : s.data = 0xFF
    · have e : waitForEraseLoop env (cnt + 1) s = (cnt + 1, s) := by
        simp [waitForEraseLoop, hd]
      rw [e]
      exact (Keeps.refl s).weaken (Nat.zero_le _)
    · rw [waitForEraseLoop_succ env cnt s hd]
      exact ((keeps_erasePass env (cnt + 1) s).andThen (ih _)).weaken (by omega)

theorem keeps_eraseEntry (s : Dev) : Keeps s (eraseEntry s) 26 := by
  rw [eraseEntry, setShiftRegsCtrl_eq]
  exact ⟨rfl, rfl, by simp [P1_DATA_IN, ctrlTrace_length]⟩

theorem waitForErase_unfold (env : Env) (s : Dev) :
    waitForErase env s =
      { setShiftRegsCtrl { (waitForEraseLoop env 100 (eraseEntry s)).2 with
          ctrl := (waitForEraseLoop env 100 (eraseEntry s)).2.ctrl ||| CTRL_LED1 } with
        data := 0xFF
        status := if (waitForEraseLoop env 100 (eraseEntry s)).1 ≠ 0 then STATUS_INITIALISED
          else STATUS_ERASE_FAIL } := rfl

theorem waitForErase_frame (env : Env) (s : Dev) :
    (waitForErase env s).command = s.command ∧
    (waitForErase env s).pins.length ≤ s.pins.length + 13052 ∧
    ((waitForErase env s).status = STATUS_INITIALISED ∨
      (waitForErase env s).status = STATUS_ERASE_FAIL) := by
  have h1 := (keeps_eraseEntry s).andThen (keeps_waitForEraseLoop env 100 (eraseEntry s))
  have h0 : Keeps (waitForEraseLoop env 100 (eraseEntry s)).2
      { (waitForEraseLoop env 100 (eraseEntry s)).2 with
        ctrl := (waitForEraseLoop env 100 (eraseEntry s)).2.ctrl ||| CTRL_LED1 } 0 :=
    Keeps.same rfl rfl rfl
  have h2 := (h1.andThen h0).andThen (keeps_ctrl _)
  rw [waitForErase_unfold]
  refine ⟨h2.1, ?_, ?_⟩
  · have := h2.2.2
    simp only [] at this ⊢
    omega
  · simp only []
    split_ifs
    · exact Or.inl rfl
    · exact Or.inr rfl

theorem keeps_setUpReset (s : Dev) : Keeps s (setUpReset s) 156 := by
  rw [setUpReset_eq]
  refine ⟨rfl, rfl, ?_⟩
  have e : setUpResetTrace.length = 156 := rfl
  simp [e]

theorem writeByte_data (a d : Nat) (s : Dev) : (writeByte a d s).data = s.data := by
  simp only [writeByte, setAddr_eq, setShiftRegsCtrl_eq, clrFLCE, setbFLCE, setP1]

theorem setUpUnlock_unfold (s : Dev) :
    setUpUnlock s = writeByte 0x1555 0x55 (writeByte 0xAAA 0xAA
      (P1_DATA_OUT { s with status := STATUS_INITIALISED })) := rfl

theorem setUpUnlock_frame (s : Dev) :
    (setUpUnlock s).command = s.command ∧ (setUpUnlock s).status = STATUS_INITIALISED ∧
    (setUpUnlock s).pins.length ≤ s.pins.length + 260 ∧ (setUpUnlock s).data = s.data := by
  rw [setUpUnlock_unfold]
  have h := (keeps_writeByte 0xAAA 0xAA
    (P1_DATA_OUT { s with status := STATUS_INITIALISED })).andThen
      (keeps_writeByte 0x1555 0x55 _)
  refine ⟨h.1, h.2.1, h.2.2, ?_⟩
  rw [writeByte_data, writeByte_data]
  rfl

theorem runSetUp_ready (env : Env) (s : Dev) (hd : s.data = SETUP_READY) :
    runSetUp env s = setP1 0 (setUpReset s) := by
  have h1 : (setUpReset s).data = 10 := by rw [setUpReset_eq]; exact hd
  simp [runSetUp, h1, SETUP_READY]

theorem runSetUp_other (env : Env) (s : Dev) (h10 : s.data ≠ SETUP_READY)
    (h6 : s.data ≠ SETUP_READ) (h7 : s.data ≠ SETUP_WRITE) (h0 : s.data ≠ SETUP_MANUF_ID)
    (h1 : s.data ≠ SETUP_DEVICE_ID) (h2 : s.data ≠ SETUP_SECTOR_VERIFY)
    (h4 : s.data ≠ SETUP_ERASE) (h5 : s.data ≠ SETUP_ERASE_SECTOR) :
    runSetUp env s = setUpUnlock (setUpReset s) := by
  have e1 : (setUpReset s).data = s.data := by rw [setUpReset_eq]
  have e2 : (setUpUnlock (setUpReset s)).data = s.data := by
    rw [(setUpUnlock_frame _).2.2.2, e1]
  simp only [SETUP_READY, SETUP_READ, SETUP_WRITE, SETUP_MANUF_ID, SETUP_DEVICE_ID,
    SETUP_SECTOR_VERIFY, SETUP_ERASE, SETUP_ERASE_SECTOR] at h10 h6 h7 h0 h1 h2 h4 h5
  simp [runSetUp, e1, e2, h10, h6, h7, h0, h1, h2, h4, h5, SETUP_READY, SETUP_READ,
    SETUP_WRITE, SETUP_MANUF_ID, SETUP_DEVICE_ID, SETUP_SECTOR_VERIFY, SETUP_ERASE,
    SETUP_ERASE_SECTOR]

theorem Runs.followedBy {s t u : Dev} {n m : Nat} (h1 : Runs s t n) (h2 : Runs t u m) :
    Runs s u (n + m) := by
  obtain ⟨a1, a3⟩ := h1
  obtain ⟨b1, b3⟩ := h2
  exact ⟨b1.trans a1, by omega⟩

theorem Runs.relax {s t : Dev} {n m : Nat} (h : Runs s t n) (hnm : n ≤ m) : Runs s t m :=
  ⟨h.1, by have := h.2; omega⟩

theorem Keeps.runs {s t : Dev} {n : Nat} (h : Keeps s t n) : Runs s t n := ⟨h.1, h.2.2⟩

theorem Runs.unchanged {s t : Dev} (hc : t.command = s.command) (hp : t.pins = s.pins) :
    Runs s t 0 :=
  ⟨hc, by rw [hp]; exact Nat.le_add_right _ _⟩

theorem runs_setUpPrefix (s : Dev) :
    Runs s (setUpUnlock (setUpReset s)) 416 ∧
    (setUpUnlock (setUpReset s)).status = STATUS_INITIALISED := by
  have h1 := (keeps_setUpReset s).runs
  have h2 := setUpUnlock_frame (setUpReset s)
  exact ⟨h1.followedBy ⟨h2.1, h2.2.2.1⟩, h2.2.1⟩

theorem eraseChipCycles_unfold (s : Dev) :
    eraseChipCycles s = writeByte 0xAAA 0x10 (writeByte 0x555 0x55 (writeByte 0xAAA 0xAA
      (writeByte 0xAAA 0x80 { s with status := STATUS_ERASE }))) := rfl

theorem eraseSectorCycles_unfold (b h l : Nat) (s : Dev) :
    eraseSectorCycles b h l s = writeByte 0 0x30
      { writeByte 0x555 0x55 (writeByte 0xAAA 0xAA
          (writeByte 0xAAA 0x80 { s with status := STATUS_ERASE })) with
        addrBank := b, addrH := h, addrL := l } := rfl

theorem runs_eraseChipCycles (s : Dev) : Runs s (eraseChipCycles s) 520 := by
  rw [eraseChipCycles_unfold]
  have h0 : Runs s { s with status := STATUS_ERASE } 0 := Runs.unchanged rfl rfl
  have h := (((h0.followedBy (keeps_writeByte 0xAAA 0x80 _).runs).followedBy
    (keeps_writeByte 0xAAA 0xAA _).runs).followedBy (keeps_writeByte 0x555 0x55 _).runs).followedBy
    (keeps_writeByte 0xAAA 0x10 _).runs
  exact h

theorem runs_setTarget (x : Dev) (b h l : Nat) :
    Runs x { x with addrBank := b, addrH := h, addrL := l } 0 := Runs.unchanged rfl rfl

theorem runs_eraseSectorCycles (b h l : Nat) (s : Dev) :
    Runs s (eraseSectorCycles b h l s) 520 := by
  rw [eraseSectorCycles_unfold]
  have h0 : Runs s { s with status := STATUS_ERASE } 0 := Runs.unchanged rfl rfl
  have h1 := ((h0.followedBy (keeps_writeByte 0xAAA 0x80 _).runs).followedBy
    (keeps_writeByte 0xAAA 0xAA _).runs).followedBy (keeps_writeByte 0x555 0x55 _).runs
  exact (h1.followedBy (runs_setTarget _ b h l)).followedBy (keeps_writeByte 0 0x30 _).runs

theorem setUpModeTrace_length (c : Nat) : (setUpModeTrace c).length = 182 := rfl

theorem writeByteTrace_length (c b h l : Nat) : (writeByteTrace c b h l).length = 130 := by
  simp [writeByteTrace, ctrlTrace_length, addrTrace_length]

theorem runs_setStatus (x : Dev) (v : Nat) :
    Runs x { x with status := v } 0 ∧ ({ x with status := v } : Dev).status = v :=
  ⟨Runs.unchanged rfl rfl, rfl⟩

theorem runs_P1_DATA_IN (x : Dev) : Runs x (P1_DATA_IN x) 0 := Runs.unchanged rfl rfl

theorem runSetUp_frame (env : Env) (s : Dev) :
    Runs s (runSetUp env s) 13988 ∧
    ((runSetUp env s).status = s.status ∨ (runSetUp env s).status = 0 ∨
      (runSetUp env s).status = 2 ∨ (runSetUp env s).status = 0xF0 ∨
      (runSetUp env s).status = 0xF1) := by
  have hp := runs_setUpPrefix s
  by_cases h10 : s.data = SETUP_READY
  · rw [runSetUp_ready env s h10]
    have h := keeps_setUpReset s
    exact ⟨⟨h.1, by have := h.2.2; simp only [setP1] at this ⊢; omega⟩, Or.inl h.2.1⟩
  by_cases h6 : s.data = SETUP_READ
  · rw [runSetUp_read_eq env s h6]
    exact ⟨⟨rfl, by simp [setUpModeTrace_length]⟩, Or.inr (Or.inl rfl)⟩
  by_cases h7 : s.data = SETUP_WRITE
  · rw [runSetUp_write_eq env s h7]
    exact ⟨⟨rfl, by simp [setUpModeTrace_length]⟩, Or.inr (Or.inl rfl)⟩
  by_cases h0 : s.data = SETUP_MANUF_ID
  · rw [runSetUp_manuf env s h0]
    have h1 := (keeps_writeByte 0x2AAA 0x90 (setUpUnlock (setUpReset s))).runs
    have h2 := runs_P1_DATA_IN (writeByte 0x2AAA 0x90 (setUpUnlock (setUpReset s)))
    have h3 := (keeps_readByte env 0x100
      (P1_DATA_IN (writeByte 0x2AAA 0x90 (setUpUnlock (setUpReset s))))).runs
    have h4 := runs_setStatus (readByte env 0x100
      (P1_DATA_IN (writeByte 0x2AAA 0x90 (setUpUnlock (setUpReset s))))) 0xF0
    have h := (((hp.1.followedBy h1).followedBy h2).followedBy h3).followedBy h4.1
    exact ⟨h.relax (by norm_num), Or.inr (Or.inr (Or.inr (Or.inl h4.2)))⟩
  by_cases h1 : s.data = SETUP_DEVICE_ID
  · rw [runSetUp_device env s h1]
    have h1 := (keeps_writeByte 0x2AAA 0x90 (setUpUnlock (setUpReset s))).runs
    have h2 := runs_P1_DATA_IN (writeByte 0x2AAA 0x90 (setUpUnlock (setUpReset s)))
    have h3 := (keeps_readByte env 0x102
      (P1_DATA_IN (writeByte 0x2AAA 0x90 (setUpUnlock (setUpReset s))))).runs
    have h4 := runs_setStatus (readByte env 0x102
      (P1_DATA_IN (writeByte 0x2AAA 0x90 (setUpUnlock (setUpReset s))))) 0xF1
    have h := (((hp.1.followedBy h1).followedBy h2).followedBy h3).followedBy h4.1
    exact ⟨h.relax (by norm_num), Or.inr (Or.inr (Or.inr (Or.inr h4.2)))⟩
  by_cases h2 : s.data = SETUP_SECTOR_VERIFY
  · rw [runSetUp_verify env s h2]
    have h3 := keeps_readByte env 0 (verifyEntry s)
    have e : (setUpResetTrace ++ setUpUnlockTrace ++ writeByteTrace 13 0 0x0A 0xAA).length
        = 546 := by
      simp [setUpResetTrace, setUpUnlockTrace, writeByteTrace_length, ctrlTrace_length]
    have hv : Runs s (verifyEntry s) 546 ∧ (verifyEntry s).status = 2 := by
      rw [verifyEntry_eq]
      refine ⟨⟨rfl, ?_⟩, rfl⟩
      simp only [List.append_assoc, List.length_append] at e ⊢
      omega
    exact ⟨(hv.1.followedBy h3.runs).relax (by norm_num),
      Or.inr (Or.inr (Or.inl (h3.2.1.trans hv.2)))⟩
  by_cases h4 : s.data = SETUP_ERASE
  · rw [runSetUp_erase env s h4]
    have h1 := runs_eraseChipCycles (setUpUnlock (setUpReset s))
    have h2 := waitForErase_frame env (eraseChipCycles (setUpUnlock (setUpReset s)))
    have h := (hp.1.followedBy h1).followedBy ⟨h2.1, h2.2.1⟩
    refine ⟨h.relax (by norm_num), ?_⟩
    rcases h2.2.2 with h | h
    · exact Or.inr (Or.inl h)
    · exact Or.inr (Or.inr (Or.inl h))
  by_cases h5 : s.data = SETUP_ERASE_SECTOR
  · rw [runSetUp_erase_sector env s h5]
    have h1 := runs_eraseSectorCycles s.addrBank s.addrH s.addrL (setUpUnlock (setUpReset s))
    have h2 := waitForErase_frame env
      (eraseSectorCycles s.addrBank s.addrH s.addrL (setUpUnlock (setUpReset s)))
    have h := (hp.1.followedBy h1).followedBy ⟨h2.1, h2.2.1⟩
    refine ⟨h.relax (by norm_num), ?_⟩
    rcases h2.2.2 with h | h
    · exact Or.inr (Or.inl h)
    · exact Or.inr (Or.inr (Or.inl h))
  rw [runSetUp_other env s h10 h6 h7 h0 h1 h2 h4 h5]
  exact ⟨hp.1.relax (by norm_num), Or.inr (Or.inl hp.2)⟩

theorem keeps_blinkLED (s : Dev) : Keeps s (blinkLED s) 26 := by
  by_cases h0 : s.addrH % 64 = 0 <;> by_cases h1 : s.addrH % 64 = 0x20 <;>
    simp [Keeps, blinkLED, h0, h1, setShiftRegsCtrl_eq, ctrlTrace_length]

theorem mainLoopPass_write_slow (env : Env) (s : Dev) (hc : s.command = CMD_WRITE_SLOW) :
    mainLoopPass env s =
      { (writeDataSlow (writeEntry s)).2 with status := (writeDataSlow (writeEntry s)).1 } := by
  simp [mainLoopPass, hc, writeEntry, CMD_WRITE, CMD_WRITE_SLOW]

theorem mainLoopPass_setup (env : Env) (s : Dev) (hc : s.command = CMD_SET_UP) :
    mainLoopPass env s = runSetUp env { s with command := 0 } := by
  simp [mainLoopPass, hc, CMD_WRITE, CMD_WRITE_SLOW, CMD_READ, CMD_SET_UP]

theorem mainLoopPass_shreg (env : Env) (s : Dev) (hc : s.command = CMD_SET_SHREG) :
    mainLoopPass env s = setShiftRegsCtrl { s with command := 0 } := by
  simp [mainLoopPass, hc, CMD_WRITE, CMD_WRITE_SLOW, CMD_READ, CMD_SET_UP, CMD_SET_SHREG]

theorem mainLoopPass_addr (env : Env) (s : Dev) (hc : s.command = CMD_SET_ADDR) :
    mainLoopPass env s = setAddr { s with command := 0 } := by
  simp [mainLoopPass, hc, CMD_WRITE, CMD_WRITE_SLOW, CMD_READ, CMD_SET_UP, CMD_SET_SHREG,
    CMD_SET_ADDR]

theorem mainLoopPass_data (env : Env) (s : Dev) (hc : s.command = CMD_SET_DATA) :
    mainLoopPass env s = setP1 s.data (P1_DATA_OUT { s with command := 0 }) := by
  simp [mainLoopPass, hc, CMD_WRITE, CMD_WRITE_SLOW, CMD_READ, CMD_SET_UP, CMD_SET_SHREG,
    CMD_SET_ADDR, CMD_SET_DATA, P1_DATA_OUT]

theorem mainLoopPass_idle (env : Env) (s : Dev) (hc : s.command ∉ pendingCommands) :
    mainLoopPass env s = s := by
  simp only [pendingCommands, List.mem_cons, List.mem_singleton, not_or, List.mem_nil_iff,
    or_false] at hc
  obtain ⟨h1, h2, h3, h4, h5, h6, h7⟩ := hc
  simp only [mainLoopPass, h1, h2, h3, h4, h5, h6, h7, false_or, if_false]

theorem writeEntry_frame (s : Dev) :
    (writeEntry s).command = 0 ∧ (writeEntry s).pins.length ≤ s.pins.length + 26 := by
  have h := keeps_blinkLED { s with command := 0, status := CMD_WRITE }
  exact ⟨h.1, h.2.2⟩

theorem waitReady_samples (rdy rdy2 : Nat → Bool) :
    ∀ c k, (∀ j, k ≤ j → j < k + c → rdy j = rdy2 j) →
      waitReady rdy c k = waitReady rdy2 c k := by
  intro c
  induction c with
  | zero => intro k _; rfl
  | succ c ih =>
    intro k h
    simp only [waitReady]
    rw [h k (Nat.le_refl k) (by omega), ih (k + 1) (fun j h1 h2 => h j (by omega) (by omega))]

theorem mainLoopPass_frame (env : Env) (s : Dev) :
    (s.command ∈ pendingCommands → (mainLoopPass env s).command = 0) ∧
    (mainLoopPass env s).pins.length ≤ s.pins.length + 13988 ∧
    ((mainLoopPass env s).status = s.status ∨ (mainLoopPass env s).status = 0 ∨
      (mainLoopPass env s).status = 1 ∨ (mainLoopPass env s).status = 2 ∨
      (mainLoopPass env s).status = 0xF0 ∨ (mainLoopPass env s).status = 0xF1) := by
  by_cases hp : s.command ∈ pendingCommands
  swap
  · rw [mainLoopPass_idle env s hp]
    exact ⟨fun h => absurd h hp, Nat.le_add_right _ _, Or.inl rfl⟩
  refine ⟨fun _ => ?_, ?_, ?_⟩ <;>
    simp only [pendingCommands, List.mem_cons, List.mem_singleton, List.mem_nil_iff,
      or_false] at hp
  all_goals
    have hw := writeEntry_frame s
    rcases hp with h | h | h | h | h | h | h
  -- command slot
  · rw [mainLoopPass_write env s h]
    have h4 := runs_setStatus (writeData env (writeEntry s)).2 (writeData env (writeEntry s)).1
    exact h4.1.1.trans (((keeps_writeData env (writeEntry s)).1.1).trans hw.1)
  · rw [mainLoopPass_write_slow env s h]
    have h4 := runs_setStatus (writeDataSlow (writeEntry s)).2 (writeDataSlow (writeEntry s)).1
    exact h4.1.1.trans (((keeps_writeDataSlow (writeEntry s)).1.1).trans hw.1)
  · rw [mainLoopPass_read env s h]
    have h1 := keeps_blinkLED { s with command := 0, status := CMD_READ }
    have h2 := keeps_readData env
      (P1_DATA_IN (blinkLED { s with command := 0, status := CMD_READ }))
    have h3 := runs_P1_DATA_IN (blinkLED { s with command := 0, status := CMD_READ })
    have h4 := runs_setStatus (readData env
      (P1_DATA_IN (blinkLED { s with command := 0, status := CMD_READ }))) 0
    exact h4.1.1.trans (h2.1.trans (h3.1.trans h1.1))
  · rw [mainLoopPass_setup env s h]
    exact (runSetUp_frame env { s with command := 0 }).1.1
  · rw [mainLoopPass_shreg env s h]
    exact (keeps_ctrl { s with command := 0 }).1
  · rw [mainLoopPass_addr env s h]
    exact (keeps_setAddr { s with command := 0 }).1
  · rw [mainLoopPass_data env s h]
    rfl
  -- pin writes
  · rw [mainLoopPass_write env s h]
    have h4 := runs_setStatus (writeData env (writeEntry s)).2 (writeData env (writeEntry s)).1
    have h1 := (keeps_writeData env (writeEntry s)).1.2.2
    have h2 := hw.2
    refine le_trans h4.1.2 ?_
    omega
  · rw [mainLoopPass_write_slow env s h]
    have h4 := runs_setStatus (writeDataSlow (writeEntry s)).2 (writeDataSlow (writeEntry s)).1
    have h1 := (keeps_writeDataSlow (writeEntry s)).1.2.2
    have h2 := hw.2
    refine le_trans h4.1.2 ?_
    omega
  · rw [mainLoopPass_read env s h]
    have h1 := (keeps_blinkLED { s with command := 0, status := CMD_READ }).2.2
    have h2 := (keeps_readData env
      (P1_DATA_IN (blinkLED { s with command := 0, status := CMD_READ }))).2.2
    have h3 := (runs_P1_DATA_IN (blinkLED { s with command := 0, status := CMD_READ })).2
    have h4 := (runs_setStatus (readData env
      (P1_DATA_IN (blinkLED { s with command := 0, status := CMD_READ }))) 0).1.2
    have e : ({ s with command := 0, status := CMD_READ } : Dev).pins = s.pins := rfl
    rw [e] at h1
    refine le_trans h4 ?_
    omega
  · rw [mainLoopPass_setup env s h]
    exact (runSetUp_frame env { s with command := 0 }).1.2
  · rw [mainLoopPass_shreg env s h]
    have h1 := (keeps_ctrl { s with command := 0 }).2.2
    simp only [] at h1 ⊢
    omega
  · rw [mainLoopPass_addr env s h]
    have h1 := (keeps_setAddr { s with command := 0 }).2.2
    simp only [] at h1 ⊢
    omega
  · rw [mainLoopPass_data env s h]
    simp [setP1, P1_DATA_OUT]
  -- status byte
  · rw [mainLoopPass_write env s h]
    have h4 := (runs_setStatus (writeData env (writeEntry s)).2
      (writeData env (writeEntry s)).1).2
    rcases (keeps_writeData env (writeEntry s)).2 with h1 | h1
    · exact Or.inr (Or.inl (h4.trans h1))
    · exact Or.inr (Or.inr (Or.inl (h4.trans h1)))
  · rw [mainLoopPass_write_slow env s h]
    have h4 := (runs_setStatus (writeDataSlow (writeEntry s)).2
      (writeDataSlow (writeEntry s)).1).2
    exact Or.inr (Or.inl (h4.trans (keeps_writeDataSlow (writeEntry s)).2))
  · rw [mainLoopPass_read env s h]
    exact Or.inr (Or.inl (runs_setStatus _ 0).2)
  · rw [mainLoopPass_setup env s h]
    rcases (runSetUp_frame env { s with command := 0 }).2 with h1 | h1 | h1 | h1 | h1
    · exact Or.inl h1
    · exact Or.inr (Or.inl h1)
    · exact Or.inr (Or.inr (Or.inr (Or.inl h1)))
    · exact Or.inr (Or.inr (Or.inr (Or.inr (Or.inl h1))))
    · exact Or.inr (Or.inr (Or.inr (Or.inr (Or.inr h1))))
  · rw [mainLoopPass_shreg env s h]
    exact Or.inl (keeps_ctrl { s with command := 0 }).2.1
  · rw [mainLoopPass_addr env s h]
    exact Or.inl (keeps_setAddr { s with command := 0 }).2.1
  · rw [mainLoopPass_data env s h]
    exact Or.inl rfl

/-- Claim C17.  One pass of the dispatch loop is a total function of the device state
and of the outside world.  For every pending command and every behaviour of the
readiness line and of the data port it leaves the command slot cleared (`command = 0`)
after at most 13988 pin writes; every wait for the readiness line is decided by its
first 255 samples, and every erase poll makes at most 100 read-backs of 130 pin writes
each.  When no command is pending the pass changes nothing. -/
theorem mainLoopPass_returns_to_idle (env : Env) (s : Dev) :
    (s.command ∈ pendingCommands → (mainLoopPass env s).command = 0) ∧
    (s.command ∉ pendingCommands → mainLoopPass env s = s) ∧
    (mainLoopPass env s).pins.length ≤ s.pins.length + 13988 ∧
    (∀ rdy rdy2 : Nat → Bool, (∀ j, j < 255 → rdy j = rdy2 j) →
      waitReady rdy 0xFF 0 = waitReady rdy2 0xFF 0) ∧
    (∀ t : Dev, (waitForEraseLoop env 100 t).2.pins.length ≤ t.pins.length + 100 * 130) := by
  have h := mainLoopPass_frame env s
  refine ⟨h.1, mainLoopPass_idle env s, h.2.1, ?_, ?_⟩
  · intro rdy rdy2 hr
    exact waitReady_samples rdy rdy2 0xFF 0 (fun j _ h2 => hr j (by omega))
  · intro t
    exact (keeps_waitForEraseLoop env 100 t).2.2

/-- Witness for C17: a pending bulk write with the readiness line stuck low, and a
pending chip erase whose read-back never yields `0xFF`. -/
theorem mainLoopPass_returns_to_idle_witness :
    writePending.command = CMD_WRITE ∧
    (mainLoopPass envStuck writePending).command = 0 ∧
    erasePending.command = CMD_SET_UP ∧
    (mainLoopPass envDead erasePending).command = 0 :=
  ⟨by rw [writePending_eq],
    (mainLoopPass_returns_to_idle envStuck writePending).1
      (by rw [writePending_eq]; decide),
    by decide,
    (mainLoopPass_returns_to_idle envDead erasePending).1 (by decide)⟩

/-! ## Values of the status byte -/

theorem ite_snd_status {c : Prop} [Decidable c] (a b : Option Nat × Dev) :
    (if c then a else b).2.status = if c then a.2.status else b.2.status := by
  split_ifs <;> rfl

theorem handler_status (r : UsbReq) (s : Dev) :
    (handleVendorControlTransfer r s).2.status = s.status := by
  simp only [handleVendorControlTransfer, ite_snd_status, ite_self]

theorem dataTransfer_status (r : UsbReq) (B : Nat → Nat) (s : Dev) :
    (handleVendorDataTransfer r (usbDataStage B s)).status = s.status := by
  simp only [handleVendorDataTransfer, usbDataStage]
  split_ifs <;> rfl

theorem getStatus_eq (s : Dev) : getStatus s = s.status := by
  rw [getStatus, handle_getData]
  simp

theorem mainInit_unfold (s : Dev) :
    mainInit s = setP1 0 (setAddr (setShiftRegsCtrl
      { setbFLCE { s with addrH := 0, addrL := 0, addrBank := 0 } with
        ctrl := CTRL_LED1 ||| CTRL_WE ||| CTRL_OE })) := rfl

theorem mainInit_status (s : Dev) : (mainInit s).status = s.status := by
  rw [mainInit_unfold]
  have h1 := keeps_ctrl { setbFLCE { s with addrH := 0, addrL := 0, addrBank := 0 } with
        ctrl := CTRL_LED1 ||| CTRL_WE ||| CTRL_OE }
  have h2 := keeps_setAddr (setShiftRegsCtrl
      { setbFLCE { s with addrH := 0, addrL := 0, addrBank := 0 } with
        ctrl := CTRL_LED1 ||| CTRL_WE ||| CTRL_OE })
  have h := (h1.andThen h2).2.1
  simp only [setP1]
  rw [h]
  rfl

theorem deviceStep_status (env : Env) (s : Dev) (e : HostStep)
    (hs : s.status ∈ statusStored) : (deviceStep env s e).status ∈ statusStored := by
  cases e with
  | request r =>
    simp only [deviceStep]
    rw [handler_status]; exact hs
  | dataPhase r B =>
    simp only [deviceStep]
    rw [dataTransfer_status]; exact hs
  | dispatch =>
    simp only [deviceStep]
    rcases (mainLoopPass_frame env s).2.2 with h | h | h | h | h | h
    · rw [h]; exact hs
    all_goals rw [h]; decide

theorem foldl_status (env : Env) (steps : List HostStep) :
    ∀ s : Dev, s.status ∈ statusStored →
      (steps.foldl (deviceStep env) s).status ∈ statusStored := by
  induction steps with
  | nil => intro s hs; exact hs
  | cons e steps ih =>
    intro s hs
    rw [List.foldl_cons]
    exact ih _ (deviceStep_status env s e hs)

/-- Counterexample to C16 as stated: after the setup request for mode
identify-manufacturer and one pass of the dispatch loop GET_DATA returns the status
byte 0xF0, which is none of the five Status values. -/
theorem status_identify_counterexample :
    getStatus (deviceAfter envReady
      [HostStep.request (usbRequest CMD_SET_UP 0 (SETUP_MANUF_ID * 256)),
        HostStep.dispatch]) = 0xF0 ∧
    0xF0 ∉ statusEnum := by
  refine ⟨?_, by decide⟩
  rw [getStatus_eq]
  have e : deviceAfter envReady
      [HostStep.request (usbRequest CMD_SET_UP 0 (SETUP_MANUF_ID * 256)),
        HostStep.dispatch]
      = deviceDo envReady (usbRequest CMD_SET_UP 0 (SETUP_MANUF_ID * 256))
          (mainInit powerOn) := rfl
  rw [e, deviceDo_setup envReady SETUP_MANUF_ID (by decide)]
  exact (runSetUp_identify_spec envReady _ 0 (by norm_num) rfl).2.2

/-! ## The unlock shortcut and the two bulk-write variants -/

theorem shiftOneBit_chain_eq (x : Bool) (s : Dev) (hl : sh1bLow s.Q3 = true)
    (h1 : s.U1 < 256) :
    (shiftOneBit x s).chain = (2 * s.chain + bitVal x) % 65536 ∧
    (shiftOneBit x s).adr = (2 * s.chain + bitVal x) % 65536 ∧
    (shiftOneBit x s).Q3 = s.U3 ∧ (shiftOneBit x s).U3 = s.U3 ∧
    (shiftOneBit x s).U1 < 256 := by
  rw [shiftOneBit_eq]
  have hx : bitVal x ≤ 1 := by cases x <;> simp [bitVal]
  simp only [Dev.chain, Dev.adr, hl, if_true]
  refine ⟨?_, ?_, trivial, trivial, Nat.mod_lt _ (by norm_num)⟩ <;> omega

/-- Claim C27 (unlock shortcut).  With SH1B low and an 8-bit value in U1, one single-bit
shift of bit `x` maps the value `v` of the 16-bit address chain to `(2*v + x) mod 65536`,
on the shift stages and on the address outputs.  Starting from `0x0AAA`, with the control
register latched (its shift stage equal to its outputs), the shift of a 1 leaves `0x1555`
and the following shift of a 0 leaves `0x2AAA`; their low 12 bits are `0x555` and
`0xAAA`. -/
theorem shiftOneBit_unlock_arithmetic (x : Bool) (s : Dev) (hl : sh1bLow s.Q3 = true)
    (hu : s.U3 = s.Q3) (h1 : s.U1 < 256) :
    (shiftOneBit x s).chain = (2 * s.chain + bitVal x) % 65536 ∧
    (shiftOneBit x s).adr = (2 * s.chain + bitVal x) % 65536 ∧
    (s.chain = 0x0AAA →
      (shiftOneBit true s).chain = 0x1555 ∧
      (shiftOneBit false (shiftOneBit true s)).chain = 0x2AAA ∧
      (shiftOneBit true s).adr = 0x1555 ∧
      (shiftOneBit false (shiftOneBit true s)).adr = 0x2AAA) ∧
    0x1555 % 4096 = 0x555 ∧ 0x2AAA % 4096 = 0xAAA := by
  have h := shiftOneBit_chain_eq x s hl h1
  refine ⟨h.1, h.2.1, ?_, by norm_num, by norm_num⟩
  intro hc
  have ha := shiftOneBit_chain_eq true s hl h1
  have hl2 : sh1bLow (shiftOneBit true s).Q3 = true := by rw [ha.2.2.1, hu]; exact hl
  have hb := shiftOneBit_chain_eq false (shiftOneBit true s) hl2 ha.2.2.2.2
  have e1 : (shiftOneBit true s).chain = 0x1555 := by
    rw [ha.1, hc]; simp [bitVal]
  have e2 : (shiftOneBit false (shiftOneBit true s)).chain = 0x2AAA := by
    rw [hb.1, e1]; simp [bitVal]
  refine ⟨e1, e2, ?_, ?_⟩
  · rw [ha.2.1, hc]; simp [bitVal]
  · rw [hb.2.1, e1]; simp [bitVal]

/-- Witness for C27: the state after the unlock address `0x0AAA` has been shifted out. -/
theorem shiftOneBit_unlock_arithmetic_witness :
    unlockDemo.chain = 0x0AAA ∧
    (shiftOneBit true unlockDemo).chain = 0x1555 ∧
    (shiftOneBit false (shiftOneBit true unlockDemo)).chain = 0x2AAA :=
  ⟨by decide,
    ((shiftOneBit_unlock_arithmetic true unlockDemo (by decide) rfl (by decide)).2.2.1
      (by decide)).1,
    ((shiftOneBit_unlock_arithmetic true unlockDemo (by decide) rfl (by decide)).2.2.1
      (by decide)).2.1⟩

/-- Claim C26 (refinement).  `writeDataSlow` is a function of the device state alone: it
never samples the readiness line, and it returns 0.  When the readiness line is always
asserted, `writeData` returns the same value 0 and leaves the same state as
`writeDataSlow` from every state, whatever buffer, start address and bank it holds: the
same pin writes, the same address shifts in the same order, the same chip-enable pulses
with the same addresses and data, and the same address and control registers. -/
theorem writeDataSlow_refines_writeData (env : Env) (s : Dev)
    (hr : ∀ hist k, env.ready hist k = true) :
    writeData env s = writeDataSlow s ∧
    (writeDataSlow s).1 = 0 ∧ (writeData env s).1 = 0 ∧
    (writeData env s).2.ops = (writeDataSlow s).2.ops ∧
    (writeData env s).2.bus = (writeDataSlow s).2.bus ∧
    (writeData env s).2.pins = (writeDataSlow s).2.pins ∧
    (writeData env s).2.addrH = (writeDataSlow s).2.addrH ∧
    (writeData env s).2.addrL = (writeDataSlow s).2.addrL ∧
    (writeData env s).2.ctrl = (writeDataSlow s).2.ctrl ∧
    (writeData env s).2.Q3 = (writeDataSlow s).2.Q3 := by
  have h := writeData_ready env hr s
  have h0 := (keeps_writeDataSlow s).2
  rw [h]
  exact ⟨rfl, h0, h0, rfl, rfl, rfl, rfl, rfl, rfl, rfl⟩

/-- Witness for C26: the pending bulk write for bank 3, address `0x1240` in a world
where the readiness line is always asserted. -/
theorem writeDataSlow_refines_writeData_witness :
    writeData envReady writePending = writeDataSlow writePending ∧
    (writeData envReady writePending).1 = 0 :=
  ⟨(writeDataSlow_refines_writeData envReady writePending (fun _ _ => rfl)).1,
    (writeDataSlow_refines_writeData envReady writePending (fun _ _ => rfl)).2.2.1⟩

/-! ## Address parameters between host and device -/

theorem hostAddr_eq (pos : Nat) : hostAddr pos = pos % 65536 := by
  have h := Nat.and_pow_two_sub_one_eq_mod (pos % 2 ^ 32) 16
  have e : (2 : Nat) ^ 16 - 1 = 0xFFFF := by norm_num
  rw [e] at h
  rw [hostAddr, h]
  omega

theorem hostBank_eq (pos : Nat) (hp : pos < 2 ^ 20) : hostBank pos = pos / 65536 := by
  have h := Nat.and_pow_two_sub_one_eq_mod ((pos % 2 ^ 32) >>> 16) 8
  have e : (2 : Nat) ^ 8 - 1 = 0xFF := by norm_num
  rw [e] at h
  rw [hostBank, h, Nat.shiftRight_eq_div_pow]
  omega

theorem hostBank_slow (pos : Nat) (hp : pos < 2 ^ 20) :
    (hostBank pos ||| 0) % 65536 = pos / 65536 ∧
    (hostBank pos ||| 0x100) % 65536 = pos / 65536 + 0x100 := by
  rw [hostBank_eq pos hp]
  have hb : pos / 65536 < 16 := by omega
  have h := Nat.mul_add_lt_is_or (i := 8) (show pos / 65536 < 2 ^ 8 by omega) 1
  have e : (2 : Nat) ^ 8 * 1 = 0x100 := by norm_num
  rw [e] at h
  constructor
  · simp only [Nat.or_zero]; omega
  · rw [Nat.or_comm, ← h]; omega

theorem afterWriteRequest_eq (pos slow : Nat) (s : Dev) (hp : pos < 2 ^ 20)
    (hs : slow = 0 ∨ slow = 0x100) :
    afterWriteRequest pos slow s =
      { s with
        addrH := pos / 256 % 256
        addrL := pos % 256
        addrBank := 16 * (pos / 65536)
        data := slow / 256 } := by
  have hb := hostBank_slow pos hp
  have e : handleVendorControlTransfer (hostWriteRequest pos slow) s =
      (some 0, { s with
        addrH := (hostWriteRequest pos slow).wValueH % 256
        addrL := (hostWriteRequest pos slow).wValueL % 256
        addrBank := (hostWriteRequest pos slow).wIndexL * 16 % 256
        data := (hostWriteRequest pos slow).wIndexH % 256 }) := by
    rw [handler_op _ s 5 (by simp [topNibble, hostWriteRequest, usbRequest, CMD_WRITE])]
    simp [CMD_SET_SHREG, CMD_SET_ADDR, CMD_SET_DATA, CMD_GET_DATA, CMD_BOOTLOADER,
      CMD_SET_UP, CMD_WRITE]
  rw [afterWriteRequest, e]
  simp only [hostWriteRequest, usbRequest, hostAddr_eq]
  have e1 : pos % 65536 / 256 % 256 % 256 = pos / 256 % 256 := by omega
  have e2 : pos % 65536 % 256 % 256 = pos % 256 := by omega
  rcases hs with h | h
  · subst h
    have e3 : (hostBank pos ||| 0) % 65536 % 256 * 16 % 256 = 16 * (pos / 65536) := by
      rw [hb.1]; omega
    have e4 : (hostBank pos ||| 0) % 65536 / 256 % 256 % 256 = 0 / 256 := by
      rw [hb.1]; omega
    rw [e1, e2, e3, e4]
  · subst h
    have e3 : (hostBank pos ||| 0x100) % 65536 % 256 * 16 % 256 = 16 * (pos / 65536) := by
      rw [hb.2]; omega
    have e4 : (hostBank pos ||| 0x100) % 65536 / 256 % 256 % 256 = 0x100 / 256 := by
      rw [hb.2]; omega
    rw [e1, e2, e3, e4]

theorem afterReadRequest_eq (pos : Nat) (s : Dev) (hp : pos < 2 ^ 20) :
    afterReadRequest pos s =
      { s with
        addrH := pos / 256 % 256
        addrL := pos % 256
        addrBank := 16 * (pos / 65536)
        command := CMD_READ } := by
  have e : handleVendorControlTransfer (hostReadRequest pos) s =
      (some 0, { s with
        addrH := (hostReadRequest pos).wValueH % 256
        addrL := (hostReadRequest pos).wValueL % 256
        addrBank := (hostReadRequest pos).wIndexL * 16 % 256
        command := CMD_READ }) := by
    rw [handler_op _ s 6 (by simp [topNibble, hostReadRequest, usbRequest, CMD_READ])]
    simp [CMD_SET_SHREG, CMD_SET_ADDR, CMD_SET_DATA, CMD_GET_DATA, CMD_BOOTLOADER,
      CMD_SET_UP, CMD_WRITE, CMD_READ, hostReadRequest, usbRequest]
  rw [afterReadRequest, e]
  simp only [hostReadRequest, usbRequest, hostAddr_eq, hostBank_eq pos hp]
  have e1 : pos % 65536 / 256 % 256 % 256 = pos / 256 % 256 := by omega
  have e2 : pos % 65536 % 256 % 256 = pos % 256 := by omega
  have e3 : pos / 65536 % 256 * 16 % 256 = 16 * (pos / 65536) := by omega
  rw [e1, e2, e3]

theorem bitOf_ctlAddr (c b : Nat) (hb : b < 16) :
    ctlAddr c (16 * b) % 256 / 16 = b ∧
    bitOf (ctlAddr c (16 * b) % 256) 0 = bitOf c 0 ∧
    bitOf (ctlAddr c (16 * b) % 256) 2 = bitOf c 2 ∧
    bitOf (ctlAddr c (16 * b) % 256) 3 = bitOf c 3 ∧
    bitOf (ctlAddr c (16 * b) % 256) 1 = false := by
  rw [ctlAddr_eq]
  refine ⟨by omega, ?_, ?_, ?_, ?_⟩
  · apply bitOf_congr; norm_num; omega
  · apply bitOf_congr; norm_num; omega
  · apply bitOf_congr; norm_num; omega
  · simp only [bitOf]; norm_num; omega

theorem setAddr_reassembles (s : Dev) (pos : Nat) (hp : pos < 2 ^ 20)
    (hh : s.addrH = pos / 256 % 256) (hl : s.addrL = pos % 256)
    (hb : s.addrBank = 16 * (pos / 65536)) :
    (setAddr s).Q3 / 16 * 65536 + (setAddr s).adr = pos ∧
    (setAddr s).chain = pos % 65536 ∧
    bitOf (setAddr s).Q3 0 = bitOf s.ctrl 0 ∧
    bitOf (setAddr s).Q3 2 = bitOf s.ctrl 2 ∧
    bitOf (setAddr s).Q3 3 = bitOf s.ctrl 3 ∧
    bitOf (setAddr s).Q3 1 = false := by
  have hbn : pos / 65536 < 16 := by omega
  have hc := bitOf_ctlAddr s.ctrl (pos / 65536) hbn
  rw [setAddr_eq]
  simp only [Dev.adr, Dev.chain, hb, hh, hl, sh1bLow_ctlAddr, if_true]
  refine ⟨?_, by omega, hc.2.1, hc.2.2.1, hc.2.2.2.1, hc.2.2.2.2⟩
  rw [hc.1]
  omega

/-- Claim C22 (address split).  For every byte offset `pos < 2^20` and either value of
the slow flag, the parameters that the host sends with a bulk write (`pos & 0xFFFF` and
`((pos >> 16) & 0xFF) | slowWrite`) or a bulk read make the request handler store
`addrH*256 + addrL = pos mod 65536` and `addrBank = ((pos >> 16) & 0xF) << 4`; the slow
flag arrives in `data`.  After `setAddr` the control outputs 7..4 and the 16 address
outputs reassemble to `pos`, SH1B is low, and the control bits LED (0), OE (2) and
WE (3) are those of the control register before. -/
theorem host_address_round_trip (pos slow : Nat) (s : Dev) (hp : pos < 2 ^ 20)
    (hs : slow = 0 ∨ slow = 0x100) :
    ((afterWriteRequest pos slow s).addrH * 256 + (afterWriteRequest pos slow s).addrL
        = pos % 65536 ∧
      (afterWriteRequest pos slow s).addrBank = pos / 65536 % 16 * 16 ∧
      (afterWriteRequest pos slow s).data = slow / 256 ∧
      (setAddr (afterWriteRequest pos slow s)).Q3 / 16 * 65536
        + (setAddr (afterWriteRequest pos slow s)).adr = pos ∧
      (setAddr (afterWriteRequest pos slow s)).chain = pos % 65536 ∧
      bitOf (setAddr (afterWriteRequest pos slow s)).Q3 0 = bitOf s.ctrl 0 ∧
      bitOf (setAddr (afterWriteRequest pos slow s)).Q3 2 = bitOf s.ctrl 2 ∧
      bitOf (setAddr (afterWriteRequest pos slow s)).Q3 3 = bitOf s.ctrl 3) ∧
    ((afterReadRequest pos s).addrH * 256 + (afterReadRequest pos s).addrL = pos % 65536 ∧
      (afterReadRequest pos s).addrBank = pos / 65536 % 16 * 16 ∧
      (setAddr (afterReadRequest pos s)).Q3 / 16 * 65536
        + (setAddr (afterReadRequest pos s)).adr = pos ∧
      (setAddr (afterReadRequest pos s)).chain = pos % 65536 ∧
      bitOf (setAddr (afterReadRequest pos s)).Q3 0 = bitOf s.ctrl 0 ∧
      bitOf (setAddr (afterReadRequest pos s)).Q3 2 = bitOf s.ctrl 2 ∧
      bitOf (setAddr (afterReadRequest pos s)).Q3 3 = bitOf s.ctrl 3) := by
  have hw := afterWriteRequest_eq pos slow s hp hs
  have hr := afterReadRequest_eq pos s hp
  have h1 : (afterWriteRequest pos slow s).addrH = pos / 256 % 256 := by rw [hw]
  have h2 : (afterWriteRequest pos slow s).addrL = pos % 256 := by rw [hw]
  have h3 : (afterWriteRequest pos slow s).addrBank = 16 * (pos / 65536) := by rw [hw]
  have h4 : (afterWriteRequest pos slow s).data = slow / 256 := by rw [hw]
  have h5 : (afterWriteRequest pos slow s).ctrl = s.ctrl := by rw [hw]
  have g1 : (afterReadRequest pos s).addrH = pos / 256 % 256 := by rw [hr]
  have g2 : (afterReadRequest pos s).addrL = pos % 256 := by rw [hr]
  have g3 : (afterReadRequest pos s).addrBank = 16 * (pos / 65536) := by rw [hr]
  have g5 : (afterReadRequest pos s).ctrl = s.ctrl := by rw [hr]
  have a := setAddr_reassembles (afterWriteRequest pos slow s) pos hp h1 h2 h3
  have b := setAddr_reassembles (afterReadRequest pos s) pos hp g1 g2 g3
  rw [h5] at a
  rw [g5] at b
  refine ⟨⟨?_, ?_, h4, a.1, a.2.1, a.2.2.1, a.2.2.2.1, a.2.2.2.2.1⟩,
    ⟨?_, ?_, b.1, b.2.1, b.2.2.1, b.2.2.2.1, b.2.2.2.2.1⟩⟩
  · rw [h1, h2]; omega
  · rw [h3]; omega
  · rw [g1, g2]; omega
  · rw [g3]; omega

/-- Witness for C22: the chunk at byte offset `0x51240` written with the slow flag. -/
theorem host_address_round_trip_witness :
    (afterWriteRequest 0x51240 0x100 powerOn).addrH * 256
      + (afterWriteRequest 0x51240 0x100 powerOn).addrL = 0x51240 % 65536 ∧
    (afterWriteRequest 0x51240 0x100 powerOn).addrBank = 0x51240 / 65536 % 16 * 16 ∧
    (afterWriteRequest 0x51240 0x100 powerOn).data = 0x100 / 256 ∧
    (setAddr (afterWriteRequest 0x51240 0x100 powerOn)).Q3 / 16 * 65536
      + (setAddr (afterWriteRequest 0x51240 0x100 powerOn)).adr = 0x51240 :=
  ⟨(host_address_round_trip 0x51240 0x100 powerOn (by norm_num) (Or.inr rfl)).1.1,
    (host_address_round_trip 0x51240 0x100 powerOn (by norm_num) (Or.inr rfl)).1.2.1,
    (host_address_round_trip 0x51240 0x100 powerOn (by norm_num) (Or.inr rfl)).1.2.2.1,
    (host_address_round_trip 0x51240 0x100 powerOn (by norm_num) (Or.inr rfl)).1.2.2.2.1⟩

/-! ## Sector erase from the command line -/

theorem hostErsSplit_eq (A : Nat) (hA : A < 2 ^ 20) :
    hostErsSplit A = (A % 4096, A / 4096) := by
  have h0 := Nat.and_pow_two_sub_one_eq_mod A 20
  have h1 := Nat.and_pow_two_sub_one_eq_mod A 12
  have h2 := Nat.and_pow_two_sub_one_eq_mod (A >>> 12) 8
  have e0 : (2 : Nat) ^ 20 - 1 = 0xFFFFF := by norm_num
  have e1 : (2 : Nat) ^ 12 - 1 = 0xFFF := by norm_num
  have e2 : (2 : Nat) ^ 8 - 1 = 0xFF := by norm_num
  rw [e0] at h0
  rw [e1] at h1
  rw [e2, Nat.shiftRight_eq_div_pow] at h2
  have e3 : A &&& 0xFFFFF = A := by rw [h0]; omega
  simp only [hostErsSplit, e3, h1, Nat.shiftRight_eq_div_pow, h2]
  congr 1
  omega

theorem hostErsRequest_eq (A : Nat) (hA : A < 2 ^ 20) :
    hostErsRequest A = ⟨0xF0, A % 256, A % 4096 / 256, A / 4096, 5⟩ := by
  have hb : A / 4096 < 2 ^ 8 := by omega
  have h := Nat.mul_add_lt_is_or (i := 8) hb 5
  have e : (2 : Nat) ^ 8 * 5 = 0x500 := by norm_num
  rw [e] at h
  have e5 : (0x500 ||| A / 4096) = 0x500 + A / 4096 := h.symm
  simp only [hostErsRequest, hostSetupRequest, hostErsSplit_eq A hA, SETUP_ERASE_SECTOR,
    SETUP_SECTOR_VERIFY, usbRequest, CMD_SET_UP]
  norm_num
  rw [e5]
  omega

theorem deviceDo_hostErs (env : Env) (s : Dev) (A : Nat) (hA : A < 2 ^ 20) :
    deviceDo env (hostErsRequest A) s =
      runSetUp env { s with
        addrH := A % 4096 / 256
        addrL := A % 256
        addrBank := 16 * (A / 4096 % 16)
        data := SETUP_ERASE_SECTOR
        command := 0 } := by
  have e1 : A % 256 % 256 = A % 256 := by omega
  have e2 : A % 4096 / 256 % 256 = A % 4096 / 256 := by omega
  have e3 : A / 4096 * 16 % 256 = 16 * (A / 4096 % 16) := by omega
  rw [deviceDo, hostErsRequest_eq A hA,
    handler_op _ s 0xF (by simp [topNibble])]
  simp [mainLoopPass, CMD_SET_SHREG, CMD_SET_ADDR, CMD_SET_DATA, CMD_GET_DATA,
    CMD_BOOTLOADER, CMD_SET_UP, CMD_WRITE, CMD_WRITE_SLOW, CMD_READ, SETUP_ERASE_SECTOR,
    e1, e2, e3]

theorem runSetUp_erase_sector_bus (env : Env) (s : Dev) (b : Nat)
    (hd : s.data = SETUP_ERASE_SECTOR) (hb : s.addrBank = 16 * b) :
    (eraseSectorCycles s.addrBank s.addrH s.addrL (setUpUnlock (setUpReset s))).bus =
      s.bus ++ [BusEv.ce 0x000F 13 0xF0 true, BusEv.ce 0x0AAA 13 0xAA true,
        BusEv.ce 0x1555 13 0x55 true, BusEv.ce 0x0AAA 13 0x80 true,
        BusEv.ce 0x0AAA 13 0xAA true, BusEv.ce 0x0555 13 0x55 true,
        BusEv.ce (s.addrH % 256 * 256 + s.addrL % 256) (wrCtl 13 (16 * b) % 256) 0x30 true] ∧
    runSetUp env s = waitForErase env
      (eraseSectorCycles s.addrBank s.addrH s.addrL (setUpUnlock (setUpReset s))) := by
  have hc : (setUpUnlock (setUpReset s)).ctrl = 13 := by
    rw [setUpUnlock_eq _ (by rw [setUpReset_eq]), setUpReset_eq]
  refine ⟨?_, runSetUp_erase_sector env s hd⟩
  rw [hb, eraseSectorCycles_eq b _ _ _ hc, setUpUnlock_eq _ (by rw [setUpReset_eq]),
    setUpReset_eq]
  simp

theorem wrCtl_13_bank (b : Nat) (hb : b < 16) : wrCtl 13 (16 * b) % 256 = 13 + 16 * b := by
  have h1 : ctlAddr 13 (16 * b) &&& 0xF7 < 256 := by rw [land_F7]; omega
  have h := lor_bit (ctlAddr 13 (16 * b) &&& 0xF7) 3 h1 (by norm_num)
  have e : (2 : Nat) ^ 3 = 8 := by norm_num
  rw [e] at h
  rw [wrCtl, CTRL_WE, h, land_F7, ctlAddr_eq]
  omega

/-- Claim C25 (the code as it is).  For every argument `A < 2^20` of `-ers` the host
sends `setupAddr = A & 0xFFF` and `setupAddrBank = (A >> 12) & 0xFF`, and the device,
after the soft reset, the unlock cycles and the erase prefix, issues its final write
cycle `0x30` with the control outputs 7..4 holding `A[15:12]` and the address outputs
holding `A[11:0]`: the 20-bit flash address `(A / 4096 mod 16) * 65536 + A mod 4096`,
which is `A` only for `A < 4096`.  The state after that cycle is the one in which the
bounded poll `waitForErase` is entered. -/
theorem hostErs_erase_target (env : Env) (s : Dev) (A : Nat) (hA : A < 2 ^ 20) :
    ∃ s1 : Dev,
      s1.bus = s.bus ++ [BusEv.ce 0x000F 13 0xF0 true, BusEv.ce 0x0AAA 13 0xAA true,
        BusEv.ce 0x1555 13 0x55 true, BusEv.ce 0x0AAA 13 0x80 true,
        BusEv.ce 0x0AAA 13 0xAA true, BusEv.ce 0x0555 13 0x55 true,
        BusEv.ce (A % 4096) (13 + 16 * (A / 4096 % 16)) 0x30 true] ∧
      (13 + 16 * (A / 4096 % 16)) / 16 = A / 4096 % 16 ∧
      deviceDo env (hostErsRequest A) s = waitForErase env s1 ∧
      (A / 4096 % 16 * 65536 + A % 4096 = A ↔ A < 4096) := by
  have h := runSetUp_erase_sector_bus env
    { s with
      addrH := A % 4096 / 256
      addrL := A % 256
      addrBank := 16 * (A / 4096 % 16)
      data := SETUP_ERASE_SECTOR
      command := 0 } (A / 4096 % 16) rfl rfl
  have hq := wrCtl_13_bank (A / 4096 % 16) (Nat.mod_lt _ (by norm_num))
  have ea : A % 4096 / 256 % 256 * 256 + A % 256 % 256 = A % 4096 := by omega
  obtain ⟨hbus, hrun⟩ := h
  generalize eraseSectorCycles _ _ _ _ = s1 at hbus hrun
  refine ⟨s1, ?_, by omega, ?_, by omega⟩
  · rw [hbus, hq]
    simp only [ea]
  · rw [deviceDo_hostErs env s A hA]
    exact hrun

/-- Witness for C25: `prog_pc -ers 0x10000` makes the device issue the erase write at
flash address 0, in the sector at the bottom of the chip. -/
theorem hostErs_erase_target_witness :
    0x10000 < 2 ^ 20 ∧
    ∃ s1 : Dev,
      s1.bus = powerOn.bus ++ [BusEv.ce 0x000F 13 0xF0 true, BusEv.ce 0x0AAA 13 0xAA true,
        BusEv.ce 0x1555 13 0x55 true, BusEv.ce 0x0AAA 13 0x80 true,
        BusEv.ce 0x0AAA 13 0xAA true, BusEv.ce 0x0555 13 0x55 true,
        BusEv.ce (0x10000 % 4096) (13 + 16 * (0x10000 / 4096 % 16)) 0x30 true] ∧
      (13 + 16 * (0x10000 / 4096 % 16)) / 16 = 0x10000 / 4096 % 16 ∧
      deviceDo envReady (hostErsRequest 0x10000) powerOn = waitForErase envReady s1 ∧
      (0x10000 / 4096 % 16 * 65536 + 0x10000 % 4096 = 0x10000 ↔ 0x10000 < 4096) :=
  ⟨by norm_num, hostErs_erase_target envReady powerOn 0x10000 (by norm_num)⟩

/-! ## Completion polling of the host -/


theorem wait_step_undecided (replies : Nat → Nat) (err fuel i : Nat)
    (h : ¬ decisive err (replies i)) :
    waitForFlashIoFinish replies err (fuel + 1) i
      = waitForFlashIoFinish replies err fuel (i + 1) := by
  simp only [decisive, not_or] at h
  simp only [waitForFlashIoFinish, flashIoFinished, h.1, h.2, if_false]

theorem wait_step_decisive (replies : Nat → Nat) (err fuel i : Nat)
    (h : decisive err (replies i)) :
    waitForFlashIoFinish replies err (fuel + 1) i = some (replies i % 256, i + 1) := by
  simp only [waitForFlashIoFinish, flashIoFinished]
  rcases h with h | h
  · simp [h]
  · by_cases h0 : replies i % 256 = 0
    · simp [h0]
    · simp [h0, h]

theorem wait_none (replies : Nat → Nat) (err : Nat) :
    ∀ fuel i, (∀ j, j < fuel → ¬ decisive err (replies (i + j))) →
      waitForFlashIoFinish replies err fuel i = none := by
  intro fuel
  induction fuel with
  | zero => intro i _; rfl
  | succ fuel ih =>
    intro i h
    rw [wait_step_undecided replies err fuel i (by simpa using h 0 (by omega))]
    apply ih
    intro j hj
    have := h (j + 1) (by omega)
    rwa [show i + 1 + j = i + (j + 1) by omega]

theorem wait_some (replies : Nat → Nat) (err : Nat) :
    ∀ n i fuel, (∀ j, j < n → ¬ decisive err (replies (i + j))) →
      decisive err (replies (i + n)) → n < fuel →
      waitForFlashIoFinish replies err fuel i = some (replies (i + n) % 256, i + n + 1) := by
  intro n
  induction n with
  | zero =>
    intro i fuel _ hd hf
    obtain ⟨f, rfl⟩ : ∃ f, fuel = f + 1 := ⟨fuel - 1, by omega⟩
    rw [wait_step_decisive replies err f i (by simpa using hd)]
    rfl
  | succ n ih =>
    intro i fuel hu hd hf
    obtain ⟨f, rfl⟩ : ∃ f, fuel = f + 1 := ⟨fuel - 1, by omega⟩
    rw [wait_step_undecided replies err f i (by simpa using hu 0 (by omega))]
    have e : i + 1 + n = i + (n + 1) := by omega
    rw [ih (i + 1) f (fun j hj => by
      have := hu (j + 1) (by omega)
      rwa [show i + 1 + j = i + (j + 1) by omega]) (by rw [e]; exact hd) (by omega), e]

/-- Claim C24 (amended).  `waitForFlashIoFinish` has no poll counter.  It returns at the
first status reply that is 0 or, for a non-zero `errorState` (1 as called by
`writeFlash`, 2 as called by `runSetupCommand`), equal to `errorState`: if that is reply
number `n` after the call, it returns that status after exactly `n + 1` polls and not
before.  When no reply is 0 or the error state it never returns, however many polls are
followed. -/
theorem waitForFlashIoFinish_first_decisive (replies : Nat → Nat) (err i : Nat) :
    (∀ n, (∀ j, j < n → ¬ decisive err (replies (i + j))) →
      decisive err (replies (i + n)) →
      (∀ fuel, n < fuel →
        waitForFlashIoFinish replies err fuel i = some (replies (i + n) % 256, i + n + 1)) ∧
      (∀ fuel, fuel ≤ n → waitForFlashIoFinish replies err fuel i = none)) ∧
    ((∀ j, ¬ decisive err (replies (i + j))) →
      ∀ fuel, waitForFlashIoFinish replies err fuel i = none) := by
  refine ⟨fun n hu hd => ⟨fun fuel hf => wait_some replies err n i fuel hu hd hf,
    fun fuel hf => wait_none replies err fuel i (fun j hj => hu j (by omega))⟩,
    fun hu fuel => wait_none replies err fuel i (fun j _ => hu j)⟩

/-- Witness for C24 (amended): the poll of `writeFlash` against a device that answers
0x50, 0x50, 1 returns 1 after three polls and has not returned after two. -/
theorem waitForFlashIoFinish_first_decisive_witness :
    waitForFlashIoFinish repliesFailThird 1 3 0 = some (repliesFailThird (0 + 2) % 256, 0 + 2 + 1) ∧
    waitForFlashIoFinish repliesFailThird 1 2 0 = none ∧
    (∀ fuel, waitForFlashIoFinish repliesStuck 2 fuel 0 = none) :=
  ⟨((waitForFlashIoFinish_first_decisive repliesFailThird 1 0).1 2
      (fun j hj => by
        have hj2 : j = 0 ∨ j = 1 := by omega
        rcases hj2 with h | h <;> subst h <;> simp [decisive, repliesFailThird])
      (by simp [decisive, repliesFailThird])).1 3 (by norm_num),
    ((waitForFlashIoFinish_first_decisive repliesFailThird 1 0).1 2
      (fun j hj => by
        have hj2 : j = 0 ∨ j = 1 := by omega
        rcases hj2 with h | h <;> subst h <;> simp [decisive, repliesFailThird])
      (by simp [decisive, repliesFailThird])).2 2 (by norm_num),
    (waitForFlashIoFinish_first_decisive repliesStuck 2 0).2
      (fun j => by simp [decisive, repliesStuck])⟩

/-- Counterexample to C24 as stated: no number `N` bounds the polls of
`waitForFlashIoFinish`, neither as called by `writeFlash` nor as called by
`runSetupCommand`; against the status sequence 3, 3, 3, ... it has not returned after
any number of polls. -/
theorem waitForFlashIoFinish_bound_counterexample :
    (¬ ∃ N, ∀ replies : Nat → Nat, ∃ r, waitForFlashIoFinish replies 1 N 0 = some r) ∧
    (¬ ∃ N, ∀ replies : Nat → Nat, ∃ r, waitForFlashIoFinish replies 2 N 0 = some r) ∧
    (∀ N, waitForFlashIoFinish repliesStuck 1 N 0 = none) := by
  have h1 : ∀ N, waitForFlashIoFinish repliesStuck 1 N 0 = none := fun N =>
    wait_none repliesStuck 1 N 0 (fun j _ => by simp [decisive, repliesStuck])
  have h2 : ∀ N, waitForFlashIoFinish repliesStuck 2 N 0 = none := fun N =>
    wait_none repliesStuck 2 N 0 (fun j _ => by simp [decisive, repliesStuck])
  refine ⟨?_, ?_, h1⟩
  · rintro ⟨N, hN⟩
    obtain ⟨r, hr⟩ := hN repliesStuck
    rw [h1 N] at hr
    exact absurd hr (by simp)
  · rintro ⟨N, hN⟩
    obtain ⟨r, hr⟩ := hN repliesStuck
    rw [h2 N] at hr
    exact absurd hr (by simp)

/-! ## `writeFlash` of the host -/

theorem shifts_refl (s : Dev) : Shifts s s := ⟨[], by simp, rfl⟩

theorem shifts_trans {s t u : Dev} (h1 : Shifts s t) (h2 : Shifts t u) : Shifts s u := by
  obtain ⟨l1, e1, a1⟩ := h1
  obtain ⟨l2, e2, a2⟩ := h2
  refine ⟨l1 ++ l2, by rw [e2, e1, List.append_assoc], ?_⟩
  rw [List.all_append, a1, a2]
  rfl

theorem shifts_same {s t : Dev} (h : t.ops = s.ops) : Shifts s t := ⟨[], by simp [h], rfl⟩

theorem shifts_one {s t : Dev} (o : ShiftOp) (h : t.ops = s.ops ++ [o])
    (ho : opOk o = true) : Shifts s t :=
  ⟨[o], h, by simp [ho]⟩

theorem sel_latched {q b : Nat} {s : Dev} (h : Sel q b s) (hb : b % 16 = 0) : Latched s :=
  ⟨h.1.trans h.2.1.symm, by rw [h.2.2]; exact hb⟩

theorem sh1bLow_bank (c bank : Nat) (hb : bank % 16 = 0) :
    sh1bLow (ctlAddr c bank % 256) = true := by
  have e : bank = 16 * (bank / 16) := by omega
  rw [e]
  exact sh1bLow_ctlAddr c (bank / 16)

theorem bitOf_testBit (x k : Nat) : bitOf x k = x.testBit k := by
  rw [bitOf, Nat.testBit_to_div_mod]

theorem sh1bLow_lor (x : Nat) : sh1bLow ((x ||| CTRL_SH1B) % 256) = false := by
  have e : (256 : Nat) = 2 ^ 8 := by norm_num
  rw [sh1bLow, bitOf_testBit, e, Nat.testBit_mod_two_pow, Nat.testBit_or]
  have h : CTRL_SH1B.testBit 1 = true := by decide
  simp [h]

theorem sel_ctrl (s : Dev) :
    Sel (s.ctrl % 256) s.addrBank (setShiftRegsCtrl s) ∧ Shifts s (setShiftRegsCtrl s) := by
  rw [setShiftRegsCtrl_eq]
  exact ⟨⟨rfl, rfl, rfl⟩, shifts_same rfl⟩

theorem sel_addr {q b : Nat} (s : Dev) (hs : sh1bLow q = true) (h : Sel q b s) :
    Sel q b (setShiftRegsAddr s) ∧ Shifts s (setShiftRegsAddr s) := by
  obtain ⟨h1, h2, h3⟩ := h
  rw [setShiftRegsAddr_eq]
  exact ⟨⟨h1, h1, h3⟩, shifts_one (ShiftOp.full s.Q3) rfl (by rw [h2]; exact hs)⟩

theorem sel_addrLow {q b : Nat} (s : Dev) (hs : sh1bLow q = false) (h : Sel q b s) :
    Sel q b (setShiftRegsAddrLow s) ∧ Shifts s (setShiftRegsAddrLow s) := by
  obtain ⟨h1, h2, h3⟩ := h
  rw [setShiftRegsAddrLow_eq]
  exact ⟨⟨h1, h1, h3⟩, shifts_one (ShiftOp.low s.Q3) rfl (by rw [h2]; simp [opOk, hs])⟩

theorem sel_oneBit {q b : Nat} (x : Bool) (s : Dev) (hs : sh1bLow q = true) (h : Sel q b s) :
    Sel q b (shiftOneBit x s) ∧ Shifts s (shiftOneBit x s) := by
  obtain ⟨h1, h2, h3⟩ := h
  rw [shiftOneBit_eq]
  exact ⟨⟨h1, h1, h3⟩, shifts_one (ShiftOp.bit s.Q3) rfl (by rw [h2]; exact hs)⟩

theorem sel_cePulse {q b : Nat} (d : Nat) (s : Dev) (h : Sel q b s) :
    Sel q b (cePulse d s) ∧ Shifts s (cePulse d s) := by
  rw [cePulse_eq]
  exact ⟨h, shifts_same rfl⟩

theorem sel_setTarget {q b : Nat} (x : Dev) (h l : Nat) (hx : Sel q b x) :
    Sel q b { x with addrH := h, addrL := l } ∧ Shifts x { x with addrH := h, addrL := l } :=
  ⟨hx, shifts_same rfl⟩

theorem sel_unlockPulses {q b : Nat} (s : Dev) (hs : sh1bLow q = true) (h : Sel q b s) :
    Sel q b (unlockPulses s) ∧ Shifts s (unlockPulses s) := by
  have h1 := sel_cePulse 0xAA s h
  have h2 := sel_oneBit true _ hs h1.1
  have h3 := sel_cePulse 0x55 _ h2.1
  have h4 := sel_oneBit false _ hs h3.1
  have h5 := sel_cePulse 0xA0 _ h4.1
  exact ⟨h5.1, shifts_trans (shifts_trans (shifts_trans (shifts_trans h1.2 h2.2) h3.2) h4.2)
    h5.2⟩

theorem sel_programPulse {q b : Nat} (i pl ph : Nat) (s : Dev) (hs : sh1bLow q = true)
    (h : Sel q b s) :
    Sel q b (programPulse i pl ph s) ∧ Shifts s (programPulse i pl ph s) := by
  have h1 := sel_setTarget s ph pl h
  have h2 := sel_addr _ hs h1.1
  have h3 := sel_cePulse (s.rwBuffer i) _ h2.1
  exact ⟨h3.1, shifts_trans (shifts_trans h1.2 h2.2) h3.2⟩

theorem sel_writeDataLoop {q b : Nat} (env : Env) (hs : sh1bLow q = true) :
    ∀ (n i pl ph : Nat) (s : Dev), Sel q b s →
      Sel q b (writeDataLoop env n i pl ph s).2 ∧ Shifts s (writeDataLoop env n i pl ph s).2 := by
  intro n
  induction n with
  | zero =>
    intro i pl ph s h
    simp only [writeDataLoop]
    split_ifs
    · exact ⟨h, shifts_refl s⟩
    · exact ⟨h, shifts_refl s⟩
  | succ n ih =>
    intro i pl ph s h
    have h1 := sel_setTarget s 0xA 0xAA h
    have h2 := sel_addr _ hs h1.1
    have h12 := shifts_trans h1.2 h2.2
    simp only [writeDataLoop]
    split_ifs
    · exact ⟨h2.1, h12⟩
    · have h3 := sel_unlockPulses _ hs h2.1
      have h4 := sel_programPulse i pl ph _ hs h3.1
      have IH := ih (i + 1) ((pl + 1) % 256) ph _ h4.1
      exact ⟨IH.1, shifts_trans (shifts_trans (shifts_trans h12 h3.2) h4.2) IH.2⟩

theorem sel_writeDataSlowLoop {q b : Nat} (hs : sh1bLow q = true) :
    ∀ (n i pl ph : Nat) (s : Dev), Sel q b s →
      Sel q b (writeDataSlowLoop n i pl ph s) ∧ Shifts s (writeDataSlowLoop n i pl ph s) := by
  intro n
  induction n with
  | zero =>
    intro i pl ph s h
    exact ⟨h, shifts_refl s⟩
  | succ n ih =>
    intro i pl ph s h
    have h1 := sel_setTarget s 0xA 0xAA h
    have h2 := sel_addr _ hs h1.1
    have h3 := sel_unlockPulses _ hs h2.1
    have h4 := sel_programPulse i pl ph _ hs h3.1
    have IH := ih (i + 1) ((pl + 1) % 256) ph _ h4.1
    simp only [writeDataSlowLoop]
    exact ⟨IH.1, shifts_trans (shifts_trans (shifts_trans (shifts_trans h1.2 h2.2) h3.2) h4.2)
      IH.2⟩

theorem latched_writeData (env : Env) (s : Dev) (h : Latched s) :
    Latched (writeData env s).2 ∧ Shifts s (writeData env s).2 := by
  rw [writeData_unfold]
  have h0 : Shifts s { s with P1_DIR_PU := 0xFF, ctrl := ctlAddr s.ctrl s.addrBank } :=
    shifts_same rfl
  have h1 := sel_ctrl { s with P1_DIR_PU := 0xFF, ctrl := ctlAddr s.ctrl s.addrBank }
  have h2 := sel_writeDataLoop env (sh1bLow_bank s.ctrl s.addrBank h.2) 64 0 s.addrL s.addrH
    _ h1.1
  exact ⟨sel_latched h2.1 h.2, shifts_trans (shifts_trans h0 h1.2) h2.2⟩

theorem latched_writeDataSlow (s : Dev) (h : Latched s) :
    Latched (writeDataSlow s).2 ∧ Shifts s (writeDataSlow s).2 := by
  rw [writeDataSlow_unfold]
  have h0 : Shifts s { s with P1_DIR_PU := 0xFF, ctrl := ctlAddr s.ctrl s.addrBank } :=
    shifts_same rfl
  have h1 := sel_ctrl { s with P1_DIR_PU := 0xFF, ctrl := ctlAddr s.ctrl s.addrBank }
  have h2 := sel_writeDataSlowLoop (sh1bLow_bank s.ctrl s.addrBank h.2) 64 0 s.addrL s.addrH
    _ h1.1
  exact ⟨sel_latched h2.1 h.2, shifts_trans (shifts_trans h0 h1.2) h2.2⟩

theorem latched_of_eq {x y : Dev} (hu : y.U3 = x.U3) (hq : y.Q3 = x.Q3)
    (hb : y.addrBank = x.addrBank) (ho : y.ops = x.ops) (h : Latched x) :
    Latched y ∧ Shifts x y :=
  ⟨⟨by rw [hu, hq]; exact h.1, by rw [hb]; exact h.2⟩, shifts_same ho⟩

theorem latched_ctrl (x : Dev) (hb : x.addrBank % 16 = 0) :
    Latched (setShiftRegsCtrl x) ∧ Shifts x (setShiftRegsCtrl x) :=
  ⟨sel_latched (sel_ctrl x).1 hb, (sel_ctrl x).2⟩

theorem latched_setCtrl (x : Dev) (c : Nat) (hb : x.addrBank % 16 = 0) :
    Latched (setShiftRegsCtrl { x with ctrl := c }) ∧
      Shifts x (setShiftRegsCtrl { x with ctrl := c }) :=
  latched_ctrl { x with ctrl := c } hb

theorem sel_setAddr (s : Dev) (hb : s.addrBank % 16 = 0) :
    Sel (ctlAddr s.ctrl s.addrBank % 256) s.addrBank (setAddr s) ∧ Shifts s (setAddr s) ∧
      (setAddr s).ctrl = ctlAddr s.ctrl s.addrBank := by
  have hs := sh1bLow_bank s.ctrl s.addrBank hb
  rw [setAddr_eq]
  exact ⟨⟨rfl, rfl, rfl⟩, shifts_one _ rfl hs, rfl⟩

theorem latched_setAddr (s : Dev) (hb : s.addrBank % 16 = 0) :
    Latched (setAddr s) ∧ Shifts s (setAddr s) :=
  ⟨sel_latched (sel_setAddr s hb).1 hb, (sel_setAddr s hb).2.1⟩

theorem latched_writeByte_zero (d : Nat) (s : Dev) (hb : s.addrBank % 16 = 0) :
    Latched (writeByte 0 d s) ∧ Shifts s (writeByte 0 d s) := by
  rw [writeByte_zero d s (s.addrBank / 16) (by omega)]
  exact ⟨⟨rfl, hb⟩, shifts_one _ rfl (sh1bLow_ctlAddr _ _)⟩

theorem latched_writeByte (a d : Nat) (s : Dev) (hb : s.addrBank % 16 = 0) :
    Latched (writeByte a d s) ∧ Shifts s (writeByte a d s) := by
  by_cases ha : a = 0
  · rw [ha]
    exact latched_writeByte_zero d s hb
  · rw [writeByte_nonzero a d s ha]
    exact latched_writeByte_zero d
      { s with addrH := a / 256 % 256, addrL := a % 256, addrBank := 0 } rfl

theorem latched_readByte_zero (env : Env) (s : Dev) (hb : s.addrBank % 16 = 0) :
    Latched (readByte env 0 s) ∧ Shifts s (readByte env 0 s) := by
  have hs := sh1bLow_bank s.ctrl s.addrBank hb
  simp only [readByte, setAddr_eq, setShiftRegsCtrl_eq, clrFLCE, setbFLCE, sampleData]
  exact ⟨⟨rfl, hb⟩, shifts_one _ rfl hs⟩

theorem latched_readByte (env : Env) (a : Nat) (s : Dev) (hb : s.addrBank % 16 = 0) :
    Latched (readByte env a s) ∧ Shifts s (readByte env a s) := by
  by_cases ha : a = 0
  · rw [ha]
    exact latched_readByte_zero env s hb
  · rw [readByte_nonzero env a s ha]
    exact latched_readByte_zero env
      { s with addrH := a / 256 % 256, addrL := a % 256, addrBank := 0 } rfl

theorem sel_readStep {q b : Nat} (env : Env) (i : Nat) (s : Dev) (hs : sh1bLow q = false)
    (h : Sel q b s) : Sel q b (readStep env i s) ∧ Shifts s (readStep env i s) := by
  obtain ⟨h1, h2, h3⟩ := h
  simp only [readStep, setShiftRegsAddrLow_eq, clrFLCE, setbFLCE, logRead]
  exact ⟨⟨h1, h1, h3⟩, shifts_one (ShiftOp.low s.Q3) rfl (by rw [h2]; simp [opOk, hs])⟩

theorem sel_readDataLoop {q b : Nat} (env : Env) (hs : sh1bLow q = false) :
    ∀ (n i : Nat) (s : Dev), Sel q b s →
      Sel q b (readDataLoop env n i s) ∧ Shifts s (readDataLoop env n i s) := by
  intro n
  induction n with
  | zero =>
    intro i s h
    exact ⟨h, shifts_refl s⟩
  | succ n ih =>
    intro i s h
    rw [readDataLoop_succ]
    have h1 := sel_readStep env i s hs h
    have IH := ih (i + 1) _ h1.1
    exact ⟨IH.1, shifts_trans h1.2 IH.2⟩

theorem sel_raiseSelect (x : Dev) :
    Sel ((x.ctrl ||| CTRL_SH1B) % 256) x.addrBank
        (setShiftRegsCtrl { x with ctrl := x.ctrl ||| CTRL_SH1B }) ∧
      Shifts x (setShiftRegsCtrl { x with ctrl := x.ctrl ||| CTRL_SH1B }) :=
  sel_ctrl { x with ctrl := x.ctrl ||| CTRL_SH1B }

theorem latched_readData (env : Env) (s : Dev) (h : Latched s) :
    Latched (readData env s) ∧ Shifts s (readData env s) := by
  rw [readData_unfold]
  have h1 := sel_setAddr s h.2
  have h2 := sel_raiseSelect (setAddr s)
  have h3 := sel_readDataLoop env (sh1bLow_lor (setAddr s).ctrl) 64 0 _ h2.1
  refine ⟨sel_latched h3.1 ?_, shifts_trans (shifts_trans h1.2.1 h2.2) h3.2⟩
  rw [h1.1.2.2]
  exact h.2

theorem latched_erasePass (env : Env) (cnt : Nat) (s : Dev) (h : Latched s) :
    Latched (erasePass env cnt s) ∧ Shifts s (erasePass env cnt s) :=
  latched_readByte env 1
    { s with ctrl := if cnt % 2 = 1 then s.ctrl ||| CTRL_LED1 else s.ctrl &&& 0xFE } h.2

theorem latched_waitForEraseLoop (env : Env) :
    ∀ (cnt : Nat) (s : Dev), Latched s →
      Latched (waitForEraseLoop env cnt s).2 ∧ Shifts s (waitForEraseLoop env cnt s).2 := by
  intro cnt
  induction cnt with
  | zero =>
    intro s h
    exact ⟨h, shifts_refl s⟩
  | succ cnt ih =>
    intro s h
    by_cases hd : s.data = 0xFF
    · have e : waitForEraseLoop env (cnt + 1) s = (cnt + 1, s) := by
        simp [waitForEraseLoop, hd]
      rw [e]
      exact ⟨h, shifts_refl s⟩
    · rw [waitForEraseLoop_succ env cnt s hd]
      have h1 := latched_erasePass env (cnt + 1) s h
      have IH := ih _ h1.1
      exact ⟨IH.1, shifts_trans h1.2 IH.2⟩

theorem latched_eraseEntry (s : Dev) (hb : s.addrBank % 16 = 0) :
    Latched (eraseEntry s) ∧ Shifts s (eraseEntry s) := by
  rw [eraseEntry, setShiftRegsCtrl_eq]
  exact ⟨⟨rfl, hb⟩, shifts_same rfl⟩

theorem latched_eraseExit (x : Dev) (v : Nat) (hb : x.addrBank % 16 = 0) :
    Latched { setShiftRegsCtrl { x with ctrl := x.ctrl ||| CTRL_LED1 } with
        data := 0xFF, status := v } ∧
      Shifts x { setShiftRegsCtrl { x with ctrl := x.ctrl ||| CTRL_LED1 } with
        data := 0xFF, status := v } := by
  rw [setShiftRegsCtrl_eq]
  exact ⟨⟨rfl, hb⟩, shifts_same rfl⟩

theorem latched_waitForErase (env : Env) (s : Dev) (hb : s.addrBank % 16 = 0) :
    Latched (waitForErase env s) ∧ Shifts s (waitForErase env s) := by
  have h1 := latched_eraseEntry s hb
  have h2 := latched_waitForEraseLoop env 100 (eraseEntry s) h1.1
  have h3 := latched_eraseExit (waitForEraseLoop env 100 (eraseEntry s)).2
    (if (waitForEraseLoop env 100 (eraseEntry s)).1 ≠ 0 then STATUS_INITIALISED
      else STATUS_ERASE_FAIL) h2.1.2
  rw [waitForErase_unfold]
  exact ⟨h3.1, shifts_trans (shifts_trans h1.2 h2.2) h3.2⟩

theorem latched_then {s t u : Dev} (h1 : Latched t ∧ Shifts s t) (h2 : Latched u ∧ Shifts t u) :
    Latched u ∧ Shifts s u :=
  ⟨h2.1, shifts_trans h1.2 h2.2⟩

theorem latched_setStatus (x : Dev) (v : Nat) (h : Latched x) :
    Latched { x with status := v } ∧ Shifts x { x with status := v } :=
  ⟨h, shifts_same rfl⟩

theorem latched_P1_DATA_IN (x : Dev) (h : Latched x) :
    Latched (P1_DATA_IN x) ∧ Shifts x (P1_DATA_IN x) :=
  ⟨h, shifts_same rfl⟩

theorem latched_setP1 (d : Nat) (x : Dev) (h : Latched x) :
    Latched (setP1 d x) ∧ Shifts x (setP1 d x) :=
  ⟨h, shifts_same rfl⟩

theorem latched_setBank (x : Dev) (b h l : Nat) (hx : Latched x) (hb : b % 16 = 0) :
    Latched { x with addrBank := b, addrH := h, addrL := l } ∧
      Shifts x { x with addrBank := b, addrH := h, addrL := l } :=
  ⟨⟨hx.1, hb⟩, shifts_same rfl⟩

theorem latched_verifyTarget (x : Dev) (v b h l : Nat) (hx : Latched x) (hb : b % 16 = 0) :
    Latched (P1_DATA_IN { x with status := v, addrBank := b, addrH := h, addrL := l }) ∧
      Shifts x (P1_DATA_IN { x with status := v, addrBank := b, addrH := h, addrL := l }) :=
  ⟨⟨hx.1, hb⟩, shifts_same rfl⟩

theorem latched_setUpReset (s : Dev) :
    Latched (setUpReset s) ∧ Shifts s (setUpReset s) := by
  rw [setUpReset_eq]
  exact ⟨⟨rfl, rfl⟩, shifts_one (ShiftOp.full 13) rfl (by decide)⟩

theorem latched_setUpUnlock (x : Dev) (h : Latched x) :
    Latched (setUpUnlock x) ∧ Shifts x (setUpUnlock x) := by
  rw [setUpUnlock_unfold]
  have h0 : Latched (P1_DATA_OUT { x with status := STATUS_INITIALISED }) ∧
      Shifts x (P1_DATA_OUT { x with status := STATUS_INITIALISED }) := ⟨h, shifts_same rfl⟩
  have h1 := latched_writeByte 0xAAA 0xAA _ h0.1.2
  have h2 := latched_writeByte 0x1555 0x55 _ h1.1.2
  exact latched_then (latched_then h0 h1) h2

theorem latched_setUpPrefix (s : Dev) :
    Latched (setUpUnlock (setUpReset s)) ∧ Shifts s (setUpUnlock (setUpReset s)) :=
  latched_then (latched_setUpReset s) (latched_setUpUnlock _ (latched_setUpReset s).1)

theorem latched_eraseChipCycles (x : Dev) (h : Latched x) :
    Latched (eraseChipCycles x) ∧ Shifts x (eraseChipCycles x) := by
  rw [eraseChipCycles_unfold]
  have h0 := latched_setStatus x STATUS_ERASE h
  have h1 := latched_writeByte 0xAAA 0x80 _ h0.1.2
  have h2 := latched_writeByte 0xAAA 0xAA _ h1.1.2
  have h3 := latched_writeByte 0x555 0x55 _ h2.1.2
  have h4 := latched_writeByte 0xAAA 0x10 _ h3.1.2
  exact latched_then (latched_then (latched_then (latched_then h0 h1) h2) h3) h4

theorem latched_eraseSectorCycles (b h l : Nat) (x : Dev) (hx : Latched x)
    (hb : b % 16 = 0) :
    Latched (eraseSectorCycles b h l x) ∧ Shifts x (eraseSectorCycles b h l x) := by
  rw [eraseSectorCycles_unfold]
  have h0 := latched_setStatus x STATUS_ERASE hx
  have h1 := latched_writeByte 0xAAA 0x80 _ h0.1.2
  have h2 := latched_writeByte 0xAAA 0xAA _ h1.1.2
  have h3 := latched_writeByte 0x555 0x55 _ h2.1.2
  have h4 := latched_setBank _ b h l h3.1 hb
  have h5 := latched_writeByte 0 0x30 _ h4.1.2
  exact latched_then (latched_then (latched_then (latched_then (latched_then h0 h1) h2) h3) h4)
    h5

theorem latched_verifyEntry (s : Dev) (h : Latched s) :
    Latched (verifyEntry s) ∧ Shifts s (verifyEntry s) := by
  have hU := latched_setUpPrefix s
  have hW := latched_writeByte 0xAAA 0x90 _ hU.1.2
  have hT := latched_verifyTarget _ SETUP_SECTOR_VERIFY s.addrBank s.addrH (s.addrL ||| 4)
    hW.1 h.2
  exact latched_then (latched_then hU hW) hT

theorem latched_identify (env : Env) (a v : Nat) (s : Dev) :
    Latched { readByte env a (P1_DATA_IN (writeByte 0x2AAA 0x90 (setUpUnlock (setUpReset s))))
        with status := v } ∧
      Shifts s { readByte env a (P1_DATA_IN (writeByte 0x2AAA 0x90
        (setUpUnlock (setUpReset s)))) with status := v } := by
  have hU := latched_setUpPrefix s
  have h1 := latched_writeByte 0x2AAA 0x90 _ hU.1.2
  have h2 := latched_P1_DATA_IN _ h1.1
  have h3 := latched_readByte env a _ h2.1.2
  have h4 := latched_setStatus _ v h3.1
  exact latched_then (latched_then (latched_then (latched_then hU h1) h2) h3) h4

theorem latched_runSetUp (env : Env) (s : Dev) (h : Latched s) :
    Latched (runSetUp env s) ∧ Shifts s (runSetUp env s) := by
  have hU := latched_setUpPrefix s
  by_cases h10 : s.data = SETUP_READY
  · rw [runSetUp_ready env s h10]
    exact latched_then (latched_setUpReset s) (latched_setP1 0 _ (latched_setUpReset s).1)
  by_cases h6 : s.data = SETUP_READ
  · rw [runSetUp_read_eq env s h6]
    exact ⟨⟨rfl, rfl⟩, shifts_one (ShiftOp.full 13) rfl (by decide)⟩
  by_cases h7 : s.data = SETUP_WRITE
  · rw [runSetUp_write_eq env s h7]
    exact ⟨⟨rfl, rfl⟩, shifts_one (ShiftOp.full 13) rfl (by decide)⟩
  by_cases h0 : s.data = SETUP_MANUF_ID
  · rw [runSetUp_manuf env s h0]
    exact latched_identify env 0x100 0xF0 s
  by_cases h1 : s.data = SETUP_DEVICE_ID
  · rw [runSetUp_device env s h1]
    exact latched_identify env 0x102 0xF1 s
  by_cases h2 : s.data = SETUP_SECTOR_VERIFY
  · rw [runSetUp_verify env s h2]
    have hv := latched_verifyEntry s h
    exact latched_then hv (latched_readByte env 0 _ hv.1.2)
  by_cases h4 : s.data = SETUP_ERASE
  · rw [runSetUp_erase env s h4]
    have h1 := latched_eraseChipCycles _ hU.1
    exact latched_then (latched_then hU h1) (latched_waitForErase env _ h1.1.2)
  by_cases h5 : s.data = SETUP_ERASE_SECTOR
  · rw [runSetUp_erase_sector env s h5]
    have h1 := latched_eraseSectorCycles s.addrBank s.addrH s.addrL _ hU.1 h.2
    exact latched_then (latched_then hU h1) (latched_waitForErase env _ h1.1.2)
  rw [runSetUp_other env s h10 h6 h7 h0 h1 h2 h4 h5]
  exact hU

theorem blinkLED_cases (s : Dev) :
    blinkLED s = s ∨ ∃ c, blinkLED s = setShiftRegsCtrl { s with ctrl := c } := by
  by_cases h0 : s.addrH % 64 = 0
  · exact Or.inr ⟨s.ctrl &&& 0xFE, by simp [blinkLED, h0]⟩
  · by_cases h1 : s.addrH % 64 = 0x20
    · exact Or.inr ⟨s.ctrl ||| CTRL_LED1, by simp [blinkLED, h1]⟩
    · exact Or.inl (by simp [blinkLED, h0, h1])

theorem latched_blinkLED (s : Dev) (h : Latched s) :
    Latched (blinkLED s) ∧ Shifts s (blinkLED s) := by
  rcases blinkLED_cases s with e | ⟨c, e⟩
  · rw [e]
    exact ⟨h, shifts_refl s⟩
  · rw [e]
    exact latched_setCtrl s c h.2

theorem latched_mainLoopPass (env : Env) (s : Dev) (h : Latched s) :
    Latched (mainLoopPass env s) ∧ Shifts s (mainLoopPass env s) := by
  by_cases hp : s.command ∈ pendingCommands
  swap
  · rw [mainLoopPass_idle env s hp]
    exact ⟨h, shifts_refl s⟩
  simp only [pendingCommands, List.mem_cons, List.mem_singleton, List.mem_nil_iff,
    or_false] at hp
  have hw : Latched (writeEntry s) ∧ Shifts s (writeEntry s) :=
    latched_blinkLED { s with command := 0, status := CMD_WRITE } h
  have hr : Latched (P1_DATA_IN (blinkLED { s with command := 0, status := CMD_READ })) ∧
      Shifts s (P1_DATA_IN (blinkLED { s with command := 0, status := CMD_READ })) :=
    latched_then (latched_blinkLED { s with command := 0, status := CMD_READ } h)
      (latched_P1_DATA_IN _ (latched_blinkLED { s with command := 0, status := CMD_READ } h).1)
  rcases hp with hc | hc | hc | hc | hc | hc | hc
  · rw [mainLoopPass_write env s hc]
    have h2 := latched_writeData env (writeEntry s) hw.1
    exact latched_then (latched_then hw h2) (latched_setStatus _ _ h2.1)
  · rw [mainLoopPass_write_slow env s hc]
    have h2 := latched_writeDataSlow (writeEntry s) hw.1
    exact latched_then (latched_then hw h2) (latched_setStatus _ _ h2.1)
  · rw [mainLoopPass_read env s hc]
    have h2 := latched_readData env _ hr.1
    exact latched_then (latched_then hr h2) (latched_setStatus _ 0 h2.1)
  · rw [mainLoopPass_setup env s hc]
    exact latched_runSetUp env { s with command := 0 } h
  · rw [mainLoopPass_shreg env s hc]
    exact latched_ctrl { s with command := 0 } h.2
  · rw [mainLoopPass_addr env s hc]
    exact latched_setAddr { s with command := 0 } h.2
  · rw [mainLoopPass_data env s hc]
    exact ⟨h, shifts_same rfl⟩

theorem ite_snd_U3 {c : Prop} [Decidable c] (a b : Option Nat × Dev) :
    (if c then a else b).2.U3 = if c then a.2.U3 else b.2.U3 := by
  split_ifs <;> rfl

theorem ite_snd_Q3 {c : Prop} [Decidable c] (a b : Option Nat × Dev) :
    (if c then a else b).2.Q3 = if c then a.2.Q3 else b.2.Q3 := by
  split_ifs <;> rfl

theorem ite_snd_ops {c : Prop} [Decidable c] (a b : Option Nat × Dev) :
    (if c then a else b).2.ops = if c then a.2.ops else b.2.ops := by
  split_ifs <;> rfl

theorem ite_snd_addrBank {c : Prop} [Decidable c] (a b : Option Nat × Dev) :
    (if c then a else b).2.addrBank = if c then a.2.addrBank else b.2.addrBank := by
  split_ifs <;> rfl

theorem handler_latch (r : UsbReq) (s : Dev) :
    (handleVendorControlTransfer r s).2.U3 = s.U3 ∧
    (handleVendorControlTransfer r s).2.Q3 = s.Q3 ∧
    (handleVendorControlTransfer r s).2.ops = s.ops := by
  refine ⟨?_, ?_, ?_⟩
  · simp only [handleVendorControlTransfer, ite_snd_U3, ite_self]
  · simp only [handleVendorControlTransfer, ite_snd_Q3, ite_self]
  · simp only [handleVendorControlTransfer, ite_snd_ops, ite_self]

theorem handler_bank (r : UsbReq) (s : Dev) (hb : s.addrBank % 16 = 0) :
    (handleVendorControlTransfer r s).2.addrBank % 16 = 0 := by
  have hw : r.wIndexL * 16 % 256 % 16 = 0 := by omega
  simp only [handleVendorControlTransfer, ite_snd_addrBank]
  split_ifs <;> assumption

theorem latched_handler (r : UsbReq) (s : Dev) (h : Latched s) :
    Latched (handleVendorControlTransfer r s).2 ∧
      Shifts s (handleVendorControlTransfer r s).2 := by
  obtain ⟨h1, h2, h3⟩ := handler_latch r s
  exact ⟨⟨by rw [h1, h2]; exact h.1, handler_bank r s h.2⟩, shifts_same h3⟩

theorem latched_dataTransfer (r : UsbReq) (B : Nat → Nat) (s : Dev) (h : Latched s) :
    Latched (handleVendorDataTransfer r (usbDataStage B s)) ∧
      Shifts s (handleVendorDataTransfer r (usbDataStage B s)) := by
  simp only [handleVendorDataTransfer, usbDataStage]
  split_ifs
  all_goals exact ⟨h, shifts_same rfl⟩

theorem latched_mainInit (s : Dev) : Latched (mainInit s) ∧ Shifts s (mainInit s) := by
  rw [mainInit_unfold]
  have h0 : Shifts s { setbFLCE { s with addrH := 0, addrL := 0, addrBank := 0 } with
      ctrl := CTRL_LED1 ||| CTRL_WE ||| CTRL_OE } := shifts_same rfl
  have h1 := latched_ctrl { setbFLCE { s with addrH := 0, addrL := 0, addrBank := 0 } with
      ctrl := CTRL_LED1 ||| CTRL_WE ||| CTRL_OE } rfl
  have h2 := latched_setAddr _ h1.1.2
  have h3 := latched_setP1 0 _ h2.1
  exact ⟨h3.1, shifts_trans (shifts_trans (shifts_trans h0 h1.2) h2.2) h3.2⟩

theorem latched_deviceStep (env : Env) (s : Dev) (e : HostStep) (h : Latched s) :
    Latched (deviceStep env s e) ∧ Shifts s (deviceStep env s e) := by
  cases e with
  | request r => exact latched_handler r s h
  | dataPhase r B => exact latched_dataTransfer r B s h
  | dispatch => exact latched_mainLoopPass env s h

theorem latched_foldl (env : Env) (steps : List HostStep) :
    ∀ s : Dev, Latched s →
      Latched (steps.foldl (deviceStep env) s) ∧ Shifts s (steps.foldl (deviceStep env) s) := by
  induction steps with
  | nil => intro s h; exact ⟨h, shifts_refl s⟩
  | cons e steps ih =>
    intro s h
    rw [List.foldl_cons]
    have h1 := latched_deviceStep env s e h
    exact latched_then h1 (ih _ h1.1)

theorem latched_deviceFrom (env : Env) (steps : List HostStep) (s0 : Dev) :
    Latched (steps.foldl (deviceStep env) (mainInit s0)) ∧
      Shifts s0 (steps.foldl (deviceStep env) (mainInit s0)) :=
  latched_then (latched_mainInit s0) (latched_foldl env steps _ (latched_mainInit s0).1)

theorem sh1bLow_mask (q : Nat) : sh1bLow q = true ↔ q &&& CTRL_SH1B = 0 := by
  have e : q &&& CTRL_SH1B = (q.testBit 1).toNat * 2 ^ 1 := Nat.and_two_pow q 1
  rw [sh1bLow, bitOf_testBit, e]
  cases q.testBit 1 <;> simp

/-- Claim C21 (level of SH1B at the address shifts).  The log `ops` holds every run of
`setShiftRegsAddr` (`full`), of `setShiftRegsAddrLow` (`low`) and of the single-bit shift
of the unlock shortcut (`bit`), each with the output stage of U3 when the shift starts.
`setShiftRegsCtrl` leaves `ctrl` in both stages of U3 and the three shifts copy the
shift stage of U3, which they do not change, to its output stage; so while the two
stages agree the logged value is the byte latched by the latest `setShiftRegsCtrl`.

In the device after power-up and any sequence of requests, data phases and passes of
the dispatch loop, handled one after the other, every logged 16-bit or single-bit shift
ran with `CTRL_SH1B` clear in that byte and every logged 8-bit shift ran with it set;
this holds from any state of the hardware at power-up for the shifts made since.  The
two stages of U3 agree and the bank byte has a clear low nibble between the events, and
from every such state each of `setAddr`, `writeByte`, `readByte`, `writeData`,
`writeDataSlow`, `readData`, `waitForErase`, `runSetUp` and a pass of the dispatch loop
only adds shifts of this kind. -/
theorem address_shifts_select_level (env : Env) (steps : List HostStep) (a d : Nat) :
    (deviceAfter env steps).ops.all opOk = true ∧
    (∀ s0 : Dev, Shifts s0 (steps.foldl (deviceStep env) (mainInit s0))) ∧
    Latched (deviceAfter env steps) ∧
    (∀ s : Dev, Latched s →
      Shifts s (setAddr s) ∧ Shifts s (writeByte a d s) ∧ Shifts s (readByte env a s) ∧
      Shifts s (writeData env s).2 ∧ Shifts s (writeDataSlow s).2 ∧
      Shifts s (readData env s) ∧ Shifts s (waitForErase env s) ∧
      Shifts s (runSetUp env s) ∧ Shifts s (mainLoopPass env s) ∧
      Latched (mainLoopPass env s)) ∧
    (∀ s : Dev, (setShiftRegsCtrl s).Q3 = s.ctrl % 256 ∧
      (setShiftRegsCtrl s).U3 = s.ctrl % 256 ∧ (setShiftRegsCtrl s).ops = s.ops) ∧
    (∀ (s : Dev) (x : Bool),
      (setShiftRegsAddr s).ops = s.ops ++ [ShiftOp.full s.Q3] ∧
      (setShiftRegsAddrLow s).ops = s.ops ++ [ShiftOp.low s.Q3] ∧
      (shiftOneBit x s).ops = s.ops ++ [ShiftOp.bit s.Q3] ∧
      (setShiftRegsAddr s).Q3 = s.U3 ∧ (setShiftRegsAddr s).U3 = s.U3 ∧
      (setShiftRegsAddrLow s).Q3 = s.U3 ∧ (setShiftRegsAddrLow s).U3 = s.U3 ∧
      (shiftOneBit x s).Q3 = s.U3 ∧ (shiftOneBit x s).U3 = s.U3) ∧
    (∀ q : Nat, (opOk (ShiftOp.full q) = true ↔ q &&& CTRL_SH1B = 0) ∧
      (opOk (ShiftOp.bit q) = true ↔ q &&& CTRL_SH1B = 0) ∧
      (opOk (ShiftOp.low q) = true ↔ q &&& CTRL_SH1B ≠ 0)) := by
  refine ⟨?_, fun s0 => (latched_deviceFrom env steps s0).2,
    (latched_deviceFrom env steps powerOn).1, ?_, ?_, ?_, ?_⟩
  · obtain ⟨l, e, hl⟩ := (latched_deviceFrom env steps powerOn).2
    have e0 : powerOn.ops = [] := rfl
    rw [e0, List.nil_append] at e
    rw [deviceAfter, e]
    exact hl
  · intro s h
    exact ⟨(latched_setAddr s h.2).2, (latched_writeByte a d s h.2).2,
      (latched_readByte env a s h.2).2, (latched_writeData env s h).2,
      (latched_writeDataSlow s h).2, (latched_readData env s h).2,
      (latched_waitForErase env s h.2).2, (latched_runSetUp env s h).2,
      (latched_mainLoopPass env s h).2, (latched_mainLoopPass env s h).1⟩
  · intro s
    rw [setShiftRegsCtrl_eq]
    exact ⟨rfl, rfl, rfl⟩
  · intro s x
    rw [setShiftRegsAddr_eq, setShiftRegsAddrLow_eq, shiftOneBit_eq]
    exact ⟨rfl, rfl, rfl, rfl, rfl, rfl, rfl, rfl, rfl⟩
  · intro q
    have h := sh1bLow_mask q
    refine ⟨h, h, ?_⟩
    show (!sh1bLow q) = true ↔ _
    rw [Ne, ← h]
    cases sh1bLow q <;> simp

/-- Witness for C21: at power-on the two stages of U3 agree and the bank byte is zero;
a bulk read and a bulk write started there only add shifts with the level of SH1B that
they rely on, and the power-up sequence itself makes one 16-bit shift, with the control
byte 13. -/
theorem address_shifts_select_level_witness :
    Latched powerOn ∧ Shifts powerOn (readData envReady powerOn) ∧
      Shifts powerOn (writeData envReady powerOn).2 ∧
      (deviceAfter envReady []).ops = [ShiftOp.full 13] :=
  ⟨⟨rfl, rfl⟩,
    ((address_shifts_select_level envReady [] 0 0).2.2.2.1 powerOn ⟨rfl, rfl⟩).2.2.2.2.2.1,
    ((address_shifts_select_level envReady [] 0 0).2.2.2.1 powerOn ⟨rfl, rfl⟩).2.2.2.1,
    by decide⟩

/-! ## The status byte while a pass of the dispatch loop is running -/

theorem status_with (x : Dev) (v : Nat) : ({ x with status := v } : Dev).status = v := rfl

theorem setUpReset_data (s : Dev) : (setUpReset s).data = s.data := by
  rw [setUpReset_eq]

theorem setUpPrefix_data (s : Dev) : (setUpUnlock (setUpReset s)).data = s.data := by
  rw [(setUpUnlock_frame _).2.2.2, setUpReset_data]

theorem runSetUpTraced_ready (env : Env) (s : Dev) (hd : s.data = SETUP_READY) :
    runSetUpTraced env s = ([], runSetUp env s) := by
  have h1 : (setUpReset s).data = 10 := by rw [setUpReset_data]; exact hd
  simp [runSetUpTraced, runSetUp, h1, SETUP_READY]

theorem runSetUpTraced_read (env : Env) (s : Dev) (hd : s.data = SETUP_READ) :
    runSetUpTraced env s =
      ([{ setUpReset s with status := STATUS_INITIALISED }], runSetUp env s) := by
  have h1 : (setUpReset s).data = 6 := by rw [setUpReset_data]; exact hd
  simp [runSetUpTraced, runSetUp, h1, SETUP_READY, SETUP_READ]

theorem runSetUpTraced_write (env : Env) (s : Dev) (hd : s.data = SETUP_WRITE) :
    runSetUpTraced env s =
      ([{ setUpReset s with status := STATUS_INITIALISED }], runSetUp env s) := by
  have h1 : (setUpReset s).data = 7 := by rw [setUpReset_data]; exact hd
  simp [runSetUpTraced, runSetUp, h1, SETUP_READY, SETUP_READ, SETUP_WRITE]

theorem runSetUpTraced_manuf (env : Env) (s : Dev) (hd : s.data = SETUP_MANUF_ID) :
    runSetUpTraced env s =
      ([{ setUpReset s with status := STATUS_INITIALISED }, runSetUp env s],
        runSetUp env s) := by
  have h1 : (setUpReset s).data = 0 := by rw [setUpReset_data]; exact hd
  have h2 : (setUpUnlock (setUpReset s)).data = 0 := by rw [setUpPrefix_data]; exact hd
  simp [runSetUpTraced, runSetUp, h1, h2, SETUP_READY, SETUP_READ, SETUP_WRITE,
    SETUP_MANUF_ID]

theorem runSetUpTraced_device (env : Env) (s : Dev) (hd : s.data = SETUP_DEVICE_ID) :
    runSetUpTraced env s =
      ([{ setUpReset s with status := STATUS_INITIALISED }, runSetUp env s],
        runSetUp env s) := by
  have h1 : (setUpReset s).data = 1 := by rw [setUpReset_data]; exact hd
  have h2 : (setUpUnlock (setUpReset s)).data = 1 := by rw [setUpPrefix_data]; exact hd
  simp [runSetUpTraced, runSetUp, h1, h2, SETUP_READY, SETUP_READ, SETUP_WRITE,
    SETUP_MANUF_ID, SETUP_DEVICE_ID]

theorem runSetUpTraced_verify (env : Env) (s : Dev) (hd : s.data = SETUP_SECTOR_VERIFY) :
    runSetUpTraced env s =
      ([{ setUpReset s with status := STATUS_INITIALISED },
        { writeByte 0xAAA 0x90 (setUpUnlock (setUpReset s)) with
          status := SETUP_SECTOR_VERIFY }],
        runSetUp env s) := by
  have h1 : (setUpReset s).data = 2 := by rw [setUpReset_data]; exact hd
  have h2 : (setUpUnlock (setUpReset s)).data = 2 := by rw [setUpPrefix_data]; exact hd
  simp [runSetUpTraced, runSetUp, h1, h2, SETUP_READY, SETUP_READ, SETUP_WRITE,
    SETUP_MANUF_ID, SETUP_DEVICE_ID, SETUP_SECTOR_VERIFY]

theorem runSetUpTraced_erase (env : Env) (s : Dev) (hd : s.data = SETUP_ERASE) :
    runSetUpTraced env s =
      ([{ setUpReset s with status := STATUS_INITIALISED },
        { setUpUnlock (setUpReset s) with status := STATUS_ERASE },
        runSetUp env s], runSetUp env s) := by
  have h1 : (setUpReset s).data = 4 := by rw [setUpReset_data]; exact hd
  have h2 : (setUpUnlock (setUpReset s)).data = 4 := by rw [setUpPrefix_data]; exact hd
  simp [runSetUpTraced, runSetUp, h1, h2, SETUP_READY, SETUP_READ, SETUP_WRITE,
    SETUP_MANUF_ID, SETUP_DEVICE_ID, SETUP_SECTOR_VERIFY, SETUP_ERASE]

theorem runSetUpTraced_erase_sector (env : Env) (s : Dev)
    (hd : s.data = SETUP_ERASE_SECTOR) :
    runSetUpTraced env s =
      ([{ setUpReset s with status := STATUS_INITIALISED },
        { setUpUnlock (setUpReset s) with status := STATUS_ERASE },
        runSetUp env s], runSetUp env s) := by
  have h1 : (setUpReset s).data = 5 := by rw [setUpReset_data]; exact hd
  have h2 : (setUpUnlock (setUpReset s)).data = 5 := by rw [setUpPrefix_data]; exact hd
  simp [runSetUpTraced, runSetUp, h1, h2, SETUP_READY, SETUP_READ, SETUP_WRITE,
    SETUP_MANUF_ID, SETUP_DEVICE_ID, SETUP_SECTOR_VERIFY, SETUP_ERASE, SETUP_ERASE_SECTOR]

theorem runSetUpTraced_other (env : Env) (s : Dev) (h10 : s.data ≠ SETUP_READY)
    (h6 : s.data ≠ SETUP_READ) (h7 : s.data ≠ SETUP_WRITE) (h0 : s.data ≠ SETUP_MANUF_ID)
    (h1 : s.data ≠ SETUP_DEVICE_ID) (h2 : s.data ≠ SETUP_SECTOR_VERIFY)
    (h4 : s.data ≠ SETUP_ERASE) (h5 : s.data ≠ SETUP_ERASE_SECTOR) :
    runSetUpTraced env s =
      ([{ setUpReset s with status := STATUS_INITIALISED }], runSetUp env s) := by
  have e1 := setUpReset_data s
  have e2 := setUpPrefix_data s
  simp only [SETUP_READY, SETUP_READ, SETUP_WRITE, SETUP_MANUF_ID, SETUP_DEVICE_ID,
    SETUP_SECTOR_VERIFY, SETUP_ERASE, SETUP_ERASE_SECTOR] at h10 h6 h7 h0 h1 h2 h4 h5
  simp [runSetUpTraced, runSetUp, e1, e2, h10, h6, h7, h0, h1, h2, h4, h5, SETUP_READY,
    SETUP_READ, SETUP_WRITE, SETUP_MANUF_ID, SETUP_DEVICE_ID, SETUP_SECTOR_VERIFY,
    SETUP_ERASE, SETUP_ERASE_SECTOR]

theorem observed_of_stored {v : Nat} (h : v ∈ statusStored) : v ∈ statusObserved := by
  simp only [statusStored, statusObserved, List.mem_cons, List.mem_singleton,
    List.mem_nil_iff, or_false] at h ⊢
  omega

theorem runSetUp_erase_status (env : Env) (s : Dev)
    (hd : s.data = SETUP_ERASE ∨ s.data = SETUP_ERASE_SECTOR) :
    (runSetUp env s).status = 0 ∨ (runSetUp env s).status = 2 := by
  rcases hd with hd | hd
  · rw [runSetUp_erase env s hd]
    exact (waitForErase_frame env _).2.2
  · rw [runSetUp_erase_sector env s hd]
    exact (waitForErase_frame env _).2.2

theorem runSetUp_verify_status (env : Env) (s : Dev) (hd : s.data = SETUP_SECTOR_VERIFY) :
    (runSetUp env s).status = 2 := by
  rw [runSetUp_verify env s hd, (keeps_readByte env 0 (verifyEntry s)).2.1, verifyEntry_eq]
  rfl

/-- The states recorded by `runSetUpTraced` carry status values of the observed set, the
second component is `runSetUp`, and the status at the end is that of the last recorded
state, or that at the start when none is recorded. -/
theorem runSetUpTraced_spec (env : Env) (s : Dev) :
    (runSetUpTraced env s).2 = runSetUp env s ∧
    (List.getLast (s :: (runSetUpTraced env s).1) (List.cons_ne_nil _ _)).status =
      (runSetUp env s).status ∧
    ∀ t ∈ (runSetUpTraced env s).1, t.status ∈ statusObserved := by
  by_cases h10 : s.data = SETUP_READY
  · rw [runSetUpTraced_ready env s h10]
    refine ⟨rfl, ?_, fun t ht => absurd ht (List.not_mem_nil t)⟩
    rw [runSetUp_ready env s h10]
    exact (keeps_setUpReset s).2.1.symm
  by_cases h6 : s.data = SETUP_READ
  · rw [runSetUpTraced_read env s h6]
    refine ⟨rfl, ?_, ?_⟩
    · rw [runSetUp_read_eq env s h6]
      rfl
    · intro t ht
      rw [List.mem_singleton] at ht
      rw [ht, status_with]
      decide
  by_cases h7 : s.data = SETUP_WRITE
  · rw [runSetUpTraced_write env s h7]
    refine ⟨rfl, ?_, ?_⟩
    · rw [runSetUp_write_eq env s h7]
      rfl
    · intro t ht
      rw [List.mem_singleton] at ht
      rw [ht, status_with]
      decide
  by_cases h0 : s.data = SETUP_MANUF_ID
  · rw [runSetUpTraced_manuf env s h0]
    refine ⟨rfl, rfl, ?_⟩
    intro t ht
    simp only [List.mem_cons, List.mem_singleton, List.mem_nil_iff, or_false] at ht
    rcases ht with ht | ht
    · rw [ht, status_with]
      decide
    · rw [ht, runSetUp_manuf env s h0, status_with]
      decide
  by_cases h1 : s.data = SETUP_DEVICE_ID
  · rw [runSetUpTraced_device env s h1]
    refine ⟨rfl, rfl, ?_⟩
    intro t ht
    simp only [List.mem_cons, List.mem_singleton, List.mem_nil_iff, or_false] at ht
    rcases ht with ht | ht
    · rw [ht, status_with]
      decide
    · rw [ht, runSetUp_device env s h1, status_with]
      decide
  by_cases h2 : s.data = SETUP_SECTOR_VERIFY
  · rw [runSetUpTraced_verify env s h2]
    refine ⟨rfl, ?_, ?_⟩
    · rw [runSetUp_verify_status env s h2]
      rfl
    · intro t ht
      simp only [List.mem_cons, List.mem_singleton, List.mem_nil_iff, or_false] at ht
      rcases ht with ht | ht
      · rw [ht, status_with]
        decide
      · rw [ht, status_with]
        decide
  by_cases h4 : s.data = SETUP_ERASE
  · rw [runSetUpTraced_erase env s h4]
    refine ⟨rfl, rfl, ?_⟩
    intro t ht
    simp only [List.mem_cons, List.mem_singleton, List.mem_nil_iff, or_false] at ht
    rcases ht with ht | ht | ht
    · rw [ht, status_with]
      decide
    · rw [ht, status_with]
      decide
    · rw [ht]
      rcases runSetUp_erase_status env s (Or.inl h4) with e | e <;> rw [e] <;> decide
  by_cases h5 : s.data = SETUP_ERASE_SECTOR
  · rw [runSetUpTraced_erase_sector env s h5]
    refine ⟨rfl, rfl, ?_⟩
    intro t ht
    simp only [List.mem_cons, List.mem_singleton, List.mem_nil_iff, or_false] at ht
    rcases ht with ht | ht | ht
    · rw [ht, status_with]
      decide
    · rw [ht, status_with]
      decide
    · rw [ht]
      rcases runSetUp_erase_status env s (Or.inr h5) with e | e <;> rw [e] <;> decide
  rw [runSetUpTraced_other env s h10 h6 h7 h0 h1 h2 h4 h5]
  refine ⟨rfl, ?_, ?_⟩
  · rw [runSetUp_other env s h10 h6 h7 h0 h1 h2 h4 h5, (setUpUnlock_frame _).2.1]
    rfl
  · intro t ht
    rw [List.mem_singleton] at ht
    rw [ht, status_with]
    decide

theorem mainLoopPassTraced_write (env : Env) (s : Dev)
    (hc : s.command = CMD_WRITE ∨ s.command = CMD_WRITE_SLOW) :
    mainLoopPassTraced env s =
      ([{ s with command := 0, status := CMD_WRITE }, mainLoopPass env s],
        mainLoopPass env s) := by
  rcases hc with hc | hc <;>
    simp [mainLoopPassTraced, mainLoopPass, hc, CMD_WRITE, CMD_WRITE_SLOW]

theorem mainLoopPassTraced_read (env : Env) (s : Dev) (hc : s.command = CMD_READ) :
    mainLoopPassTraced env s =
      ([{ s with command := 0, status := CMD_READ }, mainLoopPass env s],
        mainLoopPass env s) := by
  simp [mainLoopPassTraced, mainLoopPass, hc, CMD_WRITE, CMD_WRITE_SLOW, CMD_READ]

theorem mainLoopPassTraced_setup (env : Env) (s : Dev) (hc : s.command = CMD_SET_UP) :
    mainLoopPassTraced env s = runSetUpTraced env { s with command := 0 } := by
  simp [mainLoopPassTraced, hc, CMD_WRITE, CMD_WRITE_SLOW, CMD_READ, CMD_SET_UP]

theorem mainLoopPassTraced_rest (env : Env) (s : Dev) (h1 : s.command ≠ CMD_WRITE)
    (h2 : s.command ≠ CMD_WRITE_SLOW) (h3 : s.command ≠ CMD_READ)
    (h4 : s.command ≠ CMD_SET_UP) :
    mainLoopPassTraced env s = ([], mainLoopPass env s) := by
  simp only [mainLoopPassTraced, mainLoopPass, h1, h2, h3, h4, false_or, if_false]
  split_ifs <;> rfl

theorem mainLoopPass_rest_status (env : Env) (s : Dev) (h1 : s.command ≠ CMD_WRITE)
    (h2 : s.command ≠ CMD_WRITE_SLOW) (h3 : s.command ≠ CMD_READ)
    (h4 : s.command ≠ CMD_SET_UP) :
    (mainLoopPass env s).status = s.status := by
  by_cases h5 : s.command = CMD_SET_SHREG
  · rw [mainLoopPass_shreg env s h5]
    exact (keeps_ctrl _).2.1
  by_cases h6 : s.command = CMD_SET_ADDR
  · rw [mainLoopPass_addr env s h6]
    exact (keeps_setAddr _).2.1
  by_cases h7 : s.command = CMD_SET_DATA
  · rw [mainLoopPass_data env s h7]
    rfl
  rw [mainLoopPass_idle env s]
  simp only [pendingCommands, List.mem_cons, List.mem_singleton, List.mem_nil_iff,
    or_false, not_or]
  exact ⟨h1, h2, h3, h4, h5, h6, h7⟩

theorem mainLoopPass_write_status (env : Env) (s : Dev)
    (hc : s.command = CMD_WRITE ∨ s.command = CMD_WRITE_SLOW) :
    (mainLoopPass env s).status = 0 ∨ (mainLoopPass env s).status = 1 := by
  rcases hc with hc | hc
  · rw [mainLoopPass_write env s hc, status_with]
    exact (keeps_writeData env (writeEntry s)).2
  · rw [mainLoopPass_write_slow env s hc, status_with]
    exact Or.inl (keeps_writeDataSlow (writeEntry s)).2

/-- The states recorded by `mainLoopPassTraced` carry status values of the observed
set, the second component is `mainLoopPass`, and the status at the end of the pass is
that of the last recorded state, or that at the start when none is recorded. -/
theorem mainLoopPassTraced_spec (env : Env) (s : Dev) :
    (mainLoopPassTraced env s).2 = mainLoopPass env s ∧
    (List.getLast (s :: (mainLoopPassTraced env s).1) (List.cons_ne_nil _ _)).status =
      (mainLoopPass env s).status ∧
    ∀ t ∈ (mainLoopPassTraced env s).1, t.status ∈ statusObserved := by
  by_cases hw : s.command = CMD_WRITE ∨ s.command = CMD_WRITE_SLOW
  · rw [mainLoopPassTraced_write env s hw]
    refine ⟨rfl, rfl, ?_⟩
    intro t ht
    simp only [List.mem_cons, List.mem_singleton, List.mem_nil_iff, or_false] at ht
    rcases ht with ht | ht
    · rw [ht]
      show CMD_WRITE ∈ statusObserved
      decide
    · rw [ht]
      rcases mainLoopPass_write_status env s hw with e | e <;> rw [e] <;> decide
  rw [not_or] at hw
  by_cases hr : s.command = CMD_READ
  · rw [mainLoopPassTraced_read env s hr]
    refine ⟨rfl, rfl, ?_⟩
    intro t ht
    simp only [List.mem_cons, List.mem_singleton, List.mem_nil_iff, or_false] at ht
    rcases ht with ht | ht
    · rw [ht]
      show CMD_READ ∈ statusObserved
      decide
    · rw [ht, mainLoopPass_read env s hr, status_with]
      decide
  by_cases hs : s.command = CMD_SET_UP
  · rw [mainLoopPassTraced_setup env s hs, mainLoopPass_setup env s hs]
    obtain ⟨e1, e2, e3⟩ := runSetUpTraced_spec env { s with command := 0 }
    refine ⟨e1, ?_, e3⟩
    generalize (runSetUpTraced env { s with command := 0 }).1 = l at e2 ⊢
    cases l with
    | nil => exact e2
    | cons a l =>
      rw [List.getLast_cons_cons] at e2 ⊢
      exact e2
  rw [mainLoopPassTraced_rest env s hw.1 hw.2 hr hs]
  exact ⟨rfl, (mainLoopPass_rest_status env s hw.1 hw.2 hr hs).symm,
    fun t ht => absurd ht (List.not_mem_nil t)⟩

/-! ## The dispatch loop neither reads nor writes the endpoint-0 buffer -/

theorem ep0_ctrl (e : Nat → Nat) (s : Dev) :
    setShiftRegsCtrl (withEp0 e s) = withEp0 e (setShiftRegsCtrl s) := by
  rw [setShiftRegsCtrl_eq, setShiftRegsCtrl_eq]
  rfl

theorem ep0_addr (e : Nat → Nat) (s : Dev) :
    setShiftRegsAddr (withEp0 e s) = withEp0 e (setShiftRegsAddr s) := by
  rw [setShiftRegsAddr_eq, setShiftRegsAddr_eq]
  rfl

theorem ep0_addrLow (e : Nat → Nat) (s : Dev) :
    setShiftRegsAddrLow (withEp0 e s) = withEp0 e (setShiftRegsAddrLow s) := by
  rw [setShiftRegsAddrLow_eq, setShiftRegsAddrLow_eq]
  rfl

theorem ep0_oneBit (e : Nat → Nat) (x : Bool) (s : Dev) :
    shiftOneBit x (withEp0 e s) = withEp0 e (shiftOneBit x s) := by
  rw [shiftOneBit_eq, shiftOneBit_eq]
  rfl

theorem ep0_cePulse (e : Nat → Nat) (d : Nat) (s : Dev) :
    cePulse d (withEp0 e s) = withEp0 e (cePulse d s) := by
  rw [cePulse_eq, cePulse_eq]
  rfl

theorem ep0_setAddr (e : Nat → Nat) (s : Dev) :
    setAddr (withEp0 e s) = withEp0 e (setAddr s) := by
  rw [setAddr_eq, setAddr_eq]
  rfl

theorem ep0_writeByte (e : Nat → Nat) (a d : Nat) (s : Dev) :
    writeByte a d (withEp0 e s) = withEp0 e (writeByte a d s) := by
  simp only [writeByte, setAddr_eq, setShiftRegsCtrl_eq, clrFLCE, setbFLCE, setP1, Dev.adr,
    withEp0]

theorem ep0_readByte (e : Nat → Nat) (env : Env) (a : Nat) (s : Dev) :
    readByte env a (withEp0 e s) = withEp0 e (readByte env a s) := by
  simp only [readByte, setAddr_eq, setShiftRegsCtrl_eq, clrFLCE, setbFLCE, sampleData,
    portValue, Dev.adr, withEp0]

theorem ep0_unlockPulses (e : Nat → Nat) (s : Dev) :
    unlockPulses (withEp0 e s) = withEp0 e (unlockPulses s) := by
  simp only [unlockPulses, ep0_cePulse, ep0_oneBit]

theorem ep0_programPulse (e : Nat → Nat) (i pl ph : Nat) (s : Dev) :
    programPulse i pl ph (withEp0 e s) = withEp0 e (programPulse i pl ph s) := by
  simp only [programPulse, setShiftRegsAddr_eq, cePulse_eq, Dev.adr, withEp0]

theorem ep0_setTarget (e : Nat → Nat) (h l : Nat) (s : Dev) :
    ({ withEp0 e s with addrH := h, addrL := l } : Dev) =
      withEp0 e { s with addrH := h, addrL := l } := rfl

theorem ep0_readStep (e : Nat → Nat) (env : Env) (i : Nat) (s : Dev) :
    readStep env i (withEp0 e s) = withEp0 e (readStep env i s) := by
  simp only [readStep, setShiftRegsAddrLow_eq, clrFLCE, setbFLCE, logRead, portValue,
    Dev.adr, withEp0]

theorem ep0_readDataLoop (e : Nat → Nat) (env : Env) :
    ∀ (n i : Nat) (s : Dev),
      readDataLoop env n i (withEp0 e s) = withEp0 e (readDataLoop env n i s) := by
  intro n
  induction n with
  | zero => intro i s; rfl
  | succ n ih =>
    intro i s
    rw [readDataLoop_succ, readDataLoop_succ, ep0_readStep, ih]

theorem ep0_writeDataLoop (e : Nat → Nat) (env : Env) :
    ∀ (n i pl ph : Nat) (s : Dev),
      writeDataLoop env n i pl ph (withEp0 e s) =
        ((writeDataLoop env n i pl ph s).1, withEp0 e (writeDataLoop env n i pl ph s).2) := by
  intro n
  induction n with
  | zero =>
    intro i pl ph s
    have hb : (withEp0 e s).bus = s.bus := rfl
    simp only [writeDataLoop, hb]
    split_ifs <;> rfl
  | succ n ih =>
    intro i pl ph s
    have h1 : setShiftRegsAddr { withEp0 e s with addrH := 0xA, addrL := 0xAA } =
        withEp0 e (setShiftRegsAddr { s with addrH := 0xA, addrL := 0xAA }) :=
      ep0_addr e { s with addrH := 0xA, addrL := 0xAA }
    have hb : (withEp0 e (setShiftRegsAddr { s with addrH := 0xA, addrL := 0xAA })).bus =
        (setShiftRegsAddr { s with addrH := 0xA, addrL := 0xAA }).bus := rfl
    simp only [writeDataLoop, h1, hb, ep0_unlockPulses, ep0_programPulse, ih]
    split_ifs <;> rfl

theorem ep0_writeDataSlowLoop (e : Nat → Nat) :
    ∀ (n i pl ph : Nat) (s : Dev),
      writeDataSlowLoop n i pl ph (withEp0 e s) = withEp0 e (writeDataSlowLoop n i pl ph s) := by
  intro n
  induction n with
  | zero => intro i pl ph s; rfl
  | succ n ih =>
    intro i pl ph s
    have h1 : setShiftRegsAddr { withEp0 e s with addrH := 0xA, addrL := 0xAA } =
        withEp0 e (setShiftRegsAddr { s with addrH := 0xA, addrL := 0xAA }) :=
      ep0_addr e { s with addrH := 0xA, addrL := 0xAA }
    simp only [writeDataSlowLoop, h1, ep0_unlockPulses, ep0_programPulse, ih]

theorem ep0_writeData (e : Nat → Nat) (env : Env) (s : Dev) :
    writeData env (withEp0 e s) = ((writeData env s).1, withEp0 e (writeData env s).2) := by
  rw [writeData_unfold, writeData_unfold]
  have h1 : setShiftRegsCtrl
      { withEp0 e s with P1_DIR_PU := 0xFF,
                         ctrl := ctlAddr (withEp0 e s).ctrl (withEp0 e s).addrBank } =
      withEp0 e (setShiftRegsCtrl
        { s with P1_DIR_PU := 0xFF, ctrl := ctlAddr s.ctrl s.addrBank }) :=
    ep0_ctrl e { s with P1_DIR_PU := 0xFF, ctrl := ctlAddr s.ctrl s.addrBank }
  rw [h1]
  exact ep0_writeDataLoop e env 64 0 s.addrL s.addrH _

theorem ep0_writeDataSlow (e : Nat → Nat) (s : Dev) :
    writeDataSlow (withEp0 e s) = ((writeDataSlow s).1, withEp0 e (writeDataSlow s).2) := by
  rw [writeDataSlow_unfold, writeDataSlow_unfold]
  have h1 : setShiftRegsCtrl
      { withEp0 e s with P1_DIR_PU := 0xFF,
                         ctrl := ctlAddr (withEp0 e s).ctrl (withEp0 e s).addrBank } =
      withEp0 e (setShiftRegsCtrl
        { s with P1_DIR_PU := 0xFF, ctrl := ctlAddr s.ctrl s.addrBank }) :=
    ep0_ctrl e { s with P1_DIR_PU := 0xFF, ctrl := ctlAddr s.ctrl s.addrBank }
  rw [h1]
  exact congrArg (fun t => ((0 : Nat), t)) (ep0_writeDataSlowLoop e 64 0 s.addrL s.addrH _)

theorem ep0_readData (e : Nat → Nat) (env : Env) (s : Dev) :
    readData env (withEp0 e s) = withEp0 e (readData env s) := by
  rw [readData_unfold, readData_unfold, ep0_setAddr]
  have h1 : setShiftRegsCtrl
      { withEp0 e (setAddr s) with ctrl := (withEp0 e (setAddr s)).ctrl ||| CTRL_SH1B } =
      withEp0 e (setShiftRegsCtrl { setAddr s with ctrl := (setAddr s).ctrl ||| CTRL_SH1B }) :=
    ep0_ctrl e { setAddr s with ctrl := (setAddr s).ctrl ||| CTRL_SH1B }
  rw [h1]
  exact ep0_readDataLoop e env 64 0 _

theorem ep0_setStatus (e : Nat → Nat) (x : Dev) (v : Nat) :
    ({ withEp0 e x with status := v } : Dev) = withEp0 e { x with status := v } := rfl

theorem ep0_P1_DATA_IN (e : Nat → Nat) (x : Dev) :
    P1_DATA_IN (withEp0 e x) = withEp0 e (P1_DATA_IN x) := rfl

theorem ep0_setP1 (e : Nat → Nat) (d : Nat) (x : Dev) :
    setP1 d (withEp0 e x) = withEp0 e (setP1 d x) := rfl

theorem ep0_erasePass (e : Nat → Nat) (env : Env) (cnt : Nat) (s : Dev) :
    erasePass env cnt (withEp0 e s) = withEp0 e (erasePass env cnt s) :=
  ep0_readByte e env 1
    { s with ctrl := if cnt % 2 = 1 then s.ctrl ||| CTRL_LED1 else s.ctrl &&& 0xFE }

theorem ep0_waitForEraseLoop (e : Nat → Nat) (env : Env) :
    ∀ (cnt : Nat) (s : Dev),
      waitForEraseLoop env cnt (withEp0 e s) =
        ((waitForEraseLoop env cnt s).1, withEp0 e (waitForEraseLoop env cnt s).2) := by
  intro cnt
  induction cnt with
  | zero => intro s; rfl
  | succ cnt ih =>
    intro s
    by_cases hd : s.data = 0xFF
    · have hd2 : (withEp0 e s).data = 0xFF := hd
      have e1 : waitForEraseLoop env (cnt + 1) s = (cnt + 1, s) := by
        simp [waitForEraseLoop, hd]
      have e2 : waitForEraseLoop env (cnt + 1) (withEp0 e s) = (cnt + 1, withEp0 e s) := by
        simp [waitForEraseLoop, hd2]
      rw [e1, e2]
    · have hd2 : (withEp0 e s).data ≠ 0xFF := hd
      rw [waitForEraseLoop_succ env cnt s hd, waitForEraseLoop_succ env cnt _ hd2,
        ep0_erasePass, ih]

theorem ep0_eraseEntry (e : Nat → Nat) (s : Dev) :
    eraseEntry (withEp0 e s) = withEp0 e (eraseEntry s) := by
  rw [eraseEntry, eraseEntry, setShiftRegsCtrl_eq, setShiftRegsCtrl_eq]
  rfl

theorem ep0_eraseExit (e : Nat → Nat) (x : Dev) (v : Nat) :
    ({ setShiftRegsCtrl { withEp0 e x with ctrl := (withEp0 e x).ctrl ||| CTRL_LED1 } with
        data := 0xFF, status := v } : Dev) =
      withEp0 e { setShiftRegsCtrl { x with ctrl := x.ctrl ||| CTRL_LED1 } with
        data := 0xFF, status := v } := by
  rw [setShiftRegsCtrl_eq, setShiftRegsCtrl_eq]
  rfl

theorem ep0_waitForErase (e : Nat → Nat) (env : Env) (s : Dev) :
    waitForErase env (withEp0 e s) = withEp0 e (waitForErase env s) := by
  rw [waitForErase_unfold, waitForErase_unfold, ep0_eraseEntry, ep0_waitForEraseLoop]
  exact ep0_eraseExit e (waitForEraseLoop env 100 (eraseEntry s)).2 _

theorem ep0_setUpReset (e : Nat → Nat) (s : Dev) :
    setUpReset (withEp0 e s) = withEp0 e (setUpReset s) := by
  rw [setUpReset_eq, setUpReset_eq]
  rfl

theorem ep0_setUpEntry (e : Nat → Nat) (x : Dev) :
    P1_DATA_OUT { withEp0 e x with status := STATUS_INITIALISED } =
      withEp0 e (P1_DATA_OUT { x with status := STATUS_INITIALISED }) := rfl

theorem ep0_setUpUnlock (e : Nat → Nat) (s : Dev) :
    setUpUnlock (withEp0 e s) = withEp0 e (setUpUnlock s) := by
  rw [setUpUnlock_unfold, setUpUnlock_unfold, ep0_setUpEntry, ep0_writeByte, ep0_writeByte]

theorem ep0_eraseChipCycles (e : Nat → Nat) (s : Dev) :
    eraseChipCycles (withEp0 e s) = withEp0 e (eraseChipCycles s) := by
  rw [eraseChipCycles_unfold, eraseChipCycles_unfold, ep0_setStatus, ep0_writeByte,
    ep0_writeByte, ep0_writeByte, ep0_writeByte]

theorem ep0_setBank (e : Nat → Nat) (x : Dev) (b h l : Nat) :
    ({ withEp0 e x with addrBank := b, addrH := h, addrL := l } : Dev) =
      withEp0 e { x with addrBank := b, addrH := h, addrL := l } := rfl

theorem ep0_eraseSectorCycles (e : Nat → Nat) (b h l : Nat) (s : Dev) :
    eraseSectorCycles b h l (withEp0 e s) = withEp0 e (eraseSectorCycles b h l s) := by
  rw [eraseSectorCycles_unfold, eraseSectorCycles_unfold, ep0_setStatus, ep0_writeByte,
    ep0_writeByte, ep0_writeByte, ep0_setBank, ep0_writeByte]

theorem ep0_verifyTarget (e : Nat → Nat) (x : Dev) (v b h l : Nat) :
    P1_DATA_IN { withEp0 e x with status := v, addrBank := b, addrH := h, addrL := l } =
      withEp0 e (P1_DATA_IN { x with status := v, addrBank := b, addrH := h, addrL := l }) :=
  rfl

theorem ep0_verifyEntry (e : Nat → Nat) (s : Dev) :
    verifyEntry (withEp0 e s) = withEp0 e (verifyEntry s) := by
  have h : writeByte 0xAAA 0x90 (setUpUnlock (setUpReset (withEp0 e s))) =
      withEp0 e (writeByte 0xAAA 0x90 (setUpUnlock (setUpReset s))) := by
    rw [ep0_setUpReset, ep0_setUpUnlock, ep0_writeByte]
  unfold verifyEntry
  rw [h]
  exact ep0_verifyTarget e _ SETUP_SECTOR_VERIFY s.addrBank s.addrH (s.addrL ||| 4)

theorem ep0_identify (e : Nat → Nat) (env : Env) (a v : Nat) (s : Dev) :
    ({ readByte env a (P1_DATA_IN (writeByte 0x2AAA 0x90
        (setUpUnlock (setUpReset (withEp0 e s))))) with status := v } : Dev) =
      withEp0 e { readByte env a (P1_DATA_IN (writeByte 0x2AAA 0x90
        (setUpUnlock (setUpReset s)))) with status := v } := by
  rw [ep0_setUpReset, ep0_setUpUnlock, ep0_writeByte, ep0_P1_DATA_IN, ep0_readByte,
    ep0_setStatus]

theorem ep0_runSetUp (e : Nat → Nat) (env : Env) (s : Dev) :
    runSetUp env (withEp0 e s) = withEp0 e (runSetUp env s) := by
  have hd : (withEp0 e s).data = s.data := rfl
  have hb : (withEp0 e s).addrBank = s.addrBank := rfl
  have hh : (withEp0 e s).addrH = s.addrH := rfl
  have hl : (withEp0 e s).addrL = s.addrL := rfl
  by_cases h10 : s.data = SETUP_READY
  · rw [runSetUp_ready env s h10, runSetUp_ready env _ (hd.trans h10), ep0_setUpReset,
      ep0_setP1]
  by_cases h6 : s.data = SETUP_READ
  · rw [runSetUp_read_eq env s h6, runSetUp_read_eq env _ (hd.trans h6)]
    rfl
  by_cases h7 : s.data = SETUP_WRITE
  · rw [runSetUp_write_eq env s h7, runSetUp_write_eq env _ (hd.trans h7)]
    rfl
  by_cases h0 : s.data = SETUP_MANUF_ID
  · rw [runSetUp_manuf env s h0, runSetUp_manuf env _ (hd.trans h0)]
    exact ep0_identify e env 0x100 0xF0 s
  by_cases h1 : s.data = SETUP_DEVICE_ID
  · rw [runSetUp_device env s h1, runSetUp_device env _ (hd.trans h1)]
    exact ep0_identify e env 0x102 0xF1 s
  by_cases h2 : s.data = SETUP_SECTOR_VERIFY
  · rw [runSetUp_verify env s h2, runSetUp_verify env _ (hd.trans h2), ep0_verifyEntry,
      ep0_readByte]
  by_cases h4 : s.data = SETUP_ERASE
  · rw [runSetUp_erase env s h4, runSetUp_erase env _ (hd.trans h4), ep0_setUpReset,
      ep0_setUpUnlock, ep0_eraseChipCycles, ep0_waitForErase]
  by_cases h5 : s.data = SETUP_ERASE_SECTOR
  · rw [runSetUp_erase_sector env s h5, runSetUp_erase_sector env _ (hd.trans h5), hb, hh,
      hl, ep0_setUpReset, ep0_setUpUnlock, ep0_eraseSectorCycles, ep0_waitForErase]
  rw [runSetUp_other env s h10 h6 h7 h0 h1 h2 h4 h5,
    runSetUp_other env (withEp0 e s) (fun h => h10 h) (fun h => h6 h) (fun h => h7 h) (fun h => h0 h)
      (fun h => h1 h) (fun h => h2 h) (fun h => h4 h) (fun h => h5 h),
    ep0_setUpReset, ep0_setUpUnlock]

theorem ep0_blinkLED (e : Nat → Nat) (s : Dev) :
    blinkLED (withEp0 e s) = withEp0 e (blinkLED s) := by
  have ha : (withEp0 e s).addrH = s.addrH := rfl
  by_cases h0 : s.addrH % 64 = 0 <;> by_cases h1 : s.addrH % 64 = 0x20 <;>
    simp [blinkLED, ha, h0, h1, setShiftRegsCtrl_eq, withEp0]

theorem ep0_writeEntry (e : Nat → Nat) (s : Dev) :
    writeEntry (withEp0 e s) = withEp0 e (writeEntry s) :=
  ep0_blinkLED e { s with command := 0, status := CMD_WRITE }

theorem ep0_readEntry (e : Nat → Nat) (s : Dev) :
    P1_DATA_IN (blinkLED { withEp0 e s with command := 0, status := CMD_READ }) =
      withEp0 e (P1_DATA_IN (blinkLED { s with command := 0, status := CMD_READ })) := by
  have h := ep0_blinkLED e { s with command := 0, status := CMD_READ }
  exact (congrArg P1_DATA_IN h).trans (ep0_P1_DATA_IN e _)

theorem ep0_result (e : Nat → Nat) (x : Dev) (v : Nat) :
    ({ ((v, withEp0 e x) : Nat × Dev).2 with status := ((v, withEp0 e x) : Nat × Dev).1 }
      : Dev) = withEp0 e { x with status := v } := rfl

/-- No routine of the dispatch loop reads or writes the endpoint-0 buffer: a pass that
starts with another buffer content ends in the same state but for that content. -/
theorem ep0_mainLoopPass (e : Nat → Nat) (env : Env) (s : Dev) :
    mainLoopPass env (withEp0 e s) = withEp0 e (mainLoopPass env s) := by
  have hc : (withEp0 e s).command = s.command := rfl
  by_cases hp : s.command ∈ pendingCommands
  swap
  · rw [mainLoopPass_idle env s hp, mainLoopPass_idle env (withEp0 e s) (fun h => hp h)]
  simp only [pendingCommands, List.mem_cons, List.mem_singleton, List.mem_nil_iff,
    or_false] at hp
  rcases hp with h | h | h | h | h | h | h
  · rw [mainLoopPass_write env s h, mainLoopPass_write env _ (hc.trans h), ep0_writeEntry,
      ep0_writeData]
    rfl
  · rw [mainLoopPass_write_slow env s h, mainLoopPass_write_slow env _ (hc.trans h),
      ep0_writeEntry, ep0_writeDataSlow]
    rfl
  · rw [mainLoopPass_read env s h, mainLoopPass_read env _ (hc.trans h), ep0_readEntry,
      ep0_readData, ep0_setStatus]
  · rw [mainLoopPass_setup env s h, mainLoopPass_setup env _ (hc.trans h)]
    exact ep0_runSetUp e env { s with command := 0 }
  · rw [mainLoopPass_shreg env s h, mainLoopPass_shreg env _ (hc.trans h)]
    exact ep0_ctrl e { s with command := 0 }
  · rw [mainLoopPass_addr env s h, mainLoopPass_addr env _ (hc.trans h)]
    exact ep0_setAddr e { s with command := 0 }
  · rw [mainLoopPass_data env s h, mainLoopPass_data env _ (hc.trans h)]
    rfl

/-! ## The status byte in runs with polls during a pass -/

theorem pollStep_status (env : Env) (s : Dev) (p : PollStep)
    (hs : s.status ∈ statusStored) : (pollStep env s p).status ∈ statusStored := by
  cases p with
  | quiet e => exact deviceStep_status env s e hs
  | polled e => exact deviceStep_status env s HostStep.dispatch hs

theorem foldl_pollStatus (env : Env) (steps : List PollStep) :
    ∀ s : Dev, s.status ∈ statusStored →
      (steps.foldl (pollStep env) s).status ∈ statusStored := by
  induction steps with
  | nil => intro s hs; exact hs
  | cons p steps ih =>
    intro s hs
    rw [List.foldl_cons]
    exact ih _ (pollStep_status env s p hs)

theorem deviceAfterPolls_status (env : Env) (steps : List PollStep) :
    (deviceAfterPolls env steps).status ∈ statusStored := by
  rw [deviceAfterPolls]
  apply foldl_pollStatus
  rw [mainInit_status]
  decide

theorem deviceAfterPolls_quiet (env : Env) (steps : List HostStep) :
    deviceAfterPolls env (steps.map PollStep.quiet) = deviceAfter env steps := by
  rw [deviceAfterPolls, deviceAfter, List.foldl_map]
  rfl

theorem getData_ep0 (t : Dev) :
    (handleVendorControlTransfer reqGetData t).2 =
      withEp0 (Function.update (Function.update t.Ep0Buffer 0 t.data) 1 t.status) t := by
  rw [handle_getData]
  rfl

theorem writeArmed_command : writeArmed.command = CMD_WRITE := by decide

/-- Claim C16 (amended).  In every device state reached from power-up by any sequence
of requests, data phases and passes of the dispatch loop, whatever the outside world
does, the status byte that GET_DATA returns is the firmware variable `status`, and it
is one of 0x00, 0x01, 0x02, 0xF0, 0xF1.  The same holds between the events of a run in
which GET_DATA requests are also answered while a pass is running; such a request
returns the `status` of the state at the start of the pass or of one of the states
recorded by `mainLoopPassTraced`, and that is one of 0x00, 0x01, 0x02, 0x50, 0x60, 0xF0,
0xF1.  The values 0x03 and 0x04 are never returned.

The record is complete at its end: the status at the end of a pass is that of the last
recorded state.  A GET_DATA request changes the endpoint-0 buffer only, and a pass that
starts with another content of that buffer ends in the same state but for that
content, so runs with polls differ from runs without only in that buffer. -/
theorem status_values_reachable (env : Env) (steps : List HostStep) :
    getStatus (deviceAfter env steps) = (deviceAfter env steps).status ∧
    getStatus (deviceAfter env steps) ∈ statusStored ∧
    (∀ polls : List PollStep,
      getStatus (deviceAfterPolls env polls) ∈ statusStored ∧
      ∀ t ∈ (mainLoopPassTraced env (deviceAfterPolls env polls)).1,
        getStatus t = t.status ∧ getStatus t ∈ statusObserved) ∧
    deviceAfterPolls env (steps.map PollStep.quiet) = deviceAfter env steps ∧
    (∀ s : Dev, (mainLoopPassTraced env s).2 = mainLoopPass env s ∧
      (List.getLast (s :: (mainLoopPassTraced env s).1) (List.cons_ne_nil _ _)).status =
        (mainLoopPass env s).status) ∧
    (∀ (e : Nat → Nat) (s : Dev),
      mainLoopPass env (withEp0 e s) = withEp0 e (mainLoopPass env s)) ∧
    (∀ t : Dev, (handleVendorControlTransfer reqGetData t).2 =
      withEp0 (Function.update (Function.update t.Ep0Buffer 0 t.data) 1 t.status) t) ∧
    (∀ v ∈ statusObserved, v ≠ STATUS_PROGRAM ∧ v ≠ STATUS_PROGRAM_FAIL) := by
  refine ⟨getStatus_eq _, ?_, ?_, deviceAfterPolls_quiet env steps, ?_,
    fun e s => ep0_mainLoopPass e env s, getData_ep0, by decide⟩
  · rw [getStatus_eq, deviceAfter]
    apply foldl_status
    rw [mainInit_status]
    decide
  · intro polls
    refine ⟨?_, ?_⟩
    · rw [getStatus_eq]
      exact deviceAfterPolls_status env polls
    · intro t ht
      rw [getStatus_eq]
      exact ⟨rfl, (mainLoopPassTraced_spec env _).2.2 t ht⟩
  · intro s
    exact ⟨(mainLoopPassTraced_spec env s).1, (mainLoopPassTraced_spec env s).2.1⟩

/-- Witness for C16: with a bulk write pending, the state right after the dispatch loop
has stored `CMD_WRITE` in `status` is recorded for the pass; a GET_DATA request answered
then returns 0x50, which is none of the values stored between passes. -/
theorem status_values_reachable_witness :
    { writeArmed with command := 0, status := CMD_WRITE } ∈
      (mainLoopPassTraced envReady writeArmed).1 ∧
    getStatus { writeArmed with command := 0, status := CMD_WRITE } = 0x50 ∧
    getStatus { writeArmed with command := 0, status := CMD_WRITE } ∈ statusObserved ∧
    0x50 ∉ statusStored :=
  have hm : { writeArmed with command := 0, status := CMD_WRITE } ∈
      (mainLoopPassTraced envReady writeArmed).1 := by
    rw [mainLoopPassTraced_write envReady writeArmed (Or.inl writeArmed_command)]
    exact List.mem_cons_self _ _
  ⟨hm,
    (((status_values_reachable envReady []).2.2.1
      [PollStep.quiet (HostStep.request (usbRequest CMD_WRITE 0x1240 3)),
        PollStep.quiet (HostStep.dataPhase (usbRequest CMD_WRITE 0x1240 3) (fun i => i))]).2
      _ hm).1,
    (((status_values_reachable envReady []).2.2.1
      [PollStep.quiet (HostStep.request (usbRequest CMD_WRITE 0x1240 3)),
        PollStep.quiet (HostStep.dataPhase (usbRequest CMD_WRITE 0x1240 3) (fun i => i))]).2
      _ hm).2,
    by decide⟩

end CF840
